import Mathlib

/-!
# SDLogger: SD/MMC over SPI block driver (`fatfs/src/sdcard.c`, `fatfs/src/diskio.c`)

A shallow embedding of the driver.  The driver's globals (`status`, `Timer1`,
`Timer2`, `CardType`, `CardConfig`) form the state record `Drv`.  The state also
carries the transport script still to be played (`env`) and the bus activity
performed so far (`log`).

Conventions.
* Machine integers are `Nat` with an explicit reduction where the C type narrows.
* A C array or the memory behind a pointer is a map `Bytes` from index to byte;
  where the source does pointer arithmetic the pointer is a buffer and an offset.
* Every SPI frame exchange consumes one item of the transport script: the byte the
  card drives on MISO and the number of 10 ms timer interrupts that fire before the
  driver looks at a timer again.  Past the end of the script the bus idles high
  (MISO is configured with a pull-up) and one interrupt fires per frame, which is the
  tick contract the driver relies on for its bounded polling loops.
* A loop that polls until a software timer runs out is a recursion on an iteration
  bound set above the number of script items and timer ticks left; the lemmas named
  `_fuel` show that the bound is never what ends the loop.
* Pin multiplexing, SSP clock set-up and `SysTick_Config` have no effect on the
  modelled state and are left out.  The return value of the transfer helpers is never
  looked at by the driver and is left out too.
* `sdcard.h`, `diskio.h` and `SDLogger.h` are not part of the sources; the constants
  they define are the fields of `Hdr`.
-/

namespace SDLogger

/-- Memory behind a byte pointer, or a byte array. -/
abbrev Bytes := Nat → Nat

/-- Store of one byte: `m[i] = v`. -/
def poke (m : Bytes) (i v : Nat) : Bytes := fun j => if j = i then v else m j

/-- Store of `n` bytes of `v`, least significant first (the LPC17xx is little-endian). -/
def storeLE : Nat → Nat → Bytes → Bytes
  | 0, _, m => m
  | n + 1, v, m => poke (storeLE n v m) n ((v >>> (8 * n)) % 256)

/-- Load of `n` bytes, least significant first. -/
def loadLE : Nat → Bytes → Nat
  | 0, _ => 0
  | n + 1, m => loadLE n m + m n * 2 ^ (8 * n)

/-- Result codes of the block device interface (`DRESULT` of `diskio.h`). -/
inductive DRESULT where
  | RES_OK
  | RES_ERROR
  | RES_WRPRT
  | RES_NOTRDY
  | RES_PARERR
  deriving DecidableEq, Repr

/-- Constants of the headers that are not among the sources (`sdcard.h`, `diskio.h`,
`SDLogger.h`): command indices, R1 values, card types, the status flag, the ioctl codes,
the sector size and the `USE_FIFO` switch. -/
structure Hdr where
  GO_IDLE_STATE : Nat
  SEND_OP_COND : Nat
  SEND_IF_COND : Nat
  SEND_CSD : Nat
  SEND_CID : Nat
  STOP_TRANSMISSION : Nat
  SD_STATUS : Nat
  SET_BLOCKLEN : Nat
  READ_SINGLE_BLOCK : Nat
  READ_MULTIPLE_BLOCK : Nat
  WRITE_SINGLE_BLOCK : Nat
  WRITE_MULTIPLE_BLOCK : Nat
  SD_SEND_OP_COND : Nat
  APP_CMD : Nat
  READ_OCR : Nat
  R1_NO_ERROR : Nat
  R1_IN_IDLE_STATE : Nat
  R1_ILLEGAL_CMD : Nat
  CARDTYPE_UNKNOWN : Nat
  CARDTYPE_MMC : Nat
  CARDTYPE_SDV1 : Nat
  CARDTYPE_SDV2_SC : Nat
  CARDTYPE_SDV2_HC : Nat
  STA_NOINIT : Nat
  CTRL_SYNC : Nat
  GET_SECTOR_COUNT : Nat
  GET_SECTOR_SIZE : Nat
  GET_BLOCK_SIZE : Nat
  MMC_GET_TYPE : Nat
  MMC_GET_CSD : Nat
  MMC_GET_CID : Nat
  MMC_GET_OCR : Nat
  MMC_GET_SDSTAT : Nat
  SECTOR_SIZE : Nat
  USE_FIFO : Bool

/-- The values the constants have in the SD physical layer specification (command
indices, R1 bits), in the NXP `sd.h` this driver derives from (card types) and in the
FatFs `diskio.h` (status flag, ioctl codes); used to evaluate the driver on concrete
runs.  The theorems hold for every `Hdr`. -/
def stdHdr : Hdr where
  GO_IDLE_STATE := 0
  SEND_OP_COND := 1
  SEND_IF_COND := 8
  SEND_CSD := 9
  SEND_CID := 10
  STOP_TRANSMISSION := 12
  SD_STATUS := 13
  SET_BLOCKLEN := 16
  READ_SINGLE_BLOCK := 17
  READ_MULTIPLE_BLOCK := 18
  WRITE_SINGLE_BLOCK := 24
  WRITE_MULTIPLE_BLOCK := 25
  SD_SEND_OP_COND := 41
  APP_CMD := 55
  READ_OCR := 58
  R1_NO_ERROR := 0
  R1_IN_IDLE_STATE := 1
  R1_ILLEGAL_CMD := 4
  CARDTYPE_UNKNOWN := 0
  CARDTYPE_MMC := 1
  CARDTYPE_SDV1 := 2
  CARDTYPE_SDV2_SC := 3
  CARDTYPE_SDV2_HC := 4
  STA_NOINIT := 1
  CTRL_SYNC := 0
  GET_SECTOR_COUNT := 1
  GET_SECTOR_SIZE := 2
  GET_BLOCK_SIZE := 3
  MMC_GET_TYPE := 10
  MMC_GET_CSD := 11
  MMC_GET_CID := 12
  MMC_GET_OCR := 13
  MMC_GET_SDSTAT := 14
  SECTOR_SIZE := 512
  USE_FIFO := false

/-- The `CARDCONFIG` record: geometry and the raw registers. -/
structure CARDCONFIG where
  sectorsize : Nat
  sectorcnt : Nat
  blocksize : Nat
  ocr : Bytes
  cid : Bytes
  csd : Bytes
  status : Bytes

/-- One item of the transport script: the byte on MISO during a frame and the number
of timer interrupts that fire before the next timer read. -/
structure Ev where
  rx : Nat
  ticks : Nat
  deriving DecidableEq, Repr

/-- Bus activity: chip-select edges and the frames of the two transfer helpers. -/
inductive BusEv where
  | sel
  | unsel
  | send (b : Nat)
  | recv (b : Nat)
  deriving DecidableEq, Repr

/-- Driver state: the globals of `sdcard.c`, the transport script and the bus log. -/
structure Drv where
  status : Nat
  Timer1 : Nat
  Timer2 : Nat
  CardType : Nat
  CardConfig : CARDCONFIG
  env : List Ev
  log : List BusEv

/-- Zero-initialised `CardConfig`. -/
def CARDCONFIG.zero : CARDCONFIG :=
  ⟨0, 0, 0, fun _ => 0, fun _ => 0, fun _ => 0, fun _ => 0⟩

/-- State at program start: `status = STA_NOINIT`, the other globals zero. -/
def Drv.init (k : Hdr) (env : List Ev) : Drv :=
  ⟨k.STA_NOINIT % 256, 0, 0, 0, CARDCONFIG.zero, env, []⟩

/-- Source `disk_timerproc`: both timers count down and stop at zero. -/
def disk_timerproc (s : Drv) : Drv :=
  let n := s.Timer1
  let s1 := if n ≠ 0 then { s with Timer1 := n - 1 } else s
  let m := s1.Timer2
  if m ≠ 0 then { s1 with Timer2 := m - 1 } else s1

/-- The timer interrupt firing `n` times. -/
def ticks : Nat → Drv → Drv
  | 0, s => s
  | n + 1, s => ticks n (disk_timerproc s)

/-- Modelled from the spec: the SPI transport (`SSP_ReadWrite` of the NXP peripheral
library, called by `SendDatatoSDCard` and `ReceiveDatafromSDCard`) is not among the
sources; the spec gives it as `exchange(txByte) -> rxByte`.  One frame on the bus: the
next script item is consumed (idle bus past its end) and the interrupts due are served.
Returns the byte read from MISO. -/
def SSP_frame (s : Drv) : Nat × Drv :=
  match s.env with
  | [] => (0xFF, ticks 1 s)
  | e :: es => (e.rx % 256, ticks e.ticks { s with env := es })

/-- `SendDatatoSDCard(&b, 1)`: one frame carrying `b`; the byte read is dropped. -/
def SendByte (b : Nat) (s : Drv) : Drv :=
  let s1 := (SSP_frame s).2
  { s1 with log := s1.log ++ [BusEv.send (b % 256)] }

/-- `ReceiveDatafromSDCard(&x, 1)` for a byte variable `x`: one frame, returns the
byte read. -/
def ReceiveByte (s : Drv) : Nat × Drv :=
  let r := SSP_frame s
  (r.1, { r.2 with log := r.2.log ++ [BusEv.recv r.1] })

/-- Frames of a transmit of `n` bytes taken from `data[off..]`. -/
def sendFrames (data : Bytes) (off : Nat) : Nat → Drv → Drv
  | 0, s => s
  | n + 1, s => sendFrames data (off + 1) n (SendByte (data off) s)

/-- Frames of a receive of `n` bytes stored to `data[off..]`. -/
def recvFrames (data : Bytes) (off : Nat) : Nat → Drv → Bytes × Drv
  | 0, s => (data, s)
  | n + 1, s =>
    let r := ReceiveByte s
    recvFrames (poke data off r.1) (off + 1) n r.2

/-- Source `SendDatatoSDCard(data + off, size)`; `size` is a `uint8_t` parameter. -/
def SendDatatoSDCard (data : Bytes) (off size : Nat) (s : Drv) : Drv :=
  sendFrames data off (size % 256) s

/-- Source `ReceiveDatafromSDCard(data + off, size)` for a non-null `data`; `size` is
a `uint8_t` parameter. -/
def ReceiveDatafromSDCard (data : Bytes) (off size : Nat) (s : Drv) : Bytes × Drv :=
  recvFrames data off (size % 256) s

/-- Source `ReceiveDatafromSDCard(NULL, size)`: the bytes read are dropped. -/
def ReceiveDiscard (size : Nat) (s : Drv) : Drv :=
  (ReceiveDatafromSDCard (fun _ => 0) 0 size s).2

/-- Source `SSELSelect`: chip-select low. -/
def SSELSelect (s : Drv) : Drv := { s with log := s.log ++ [BusEv.sel] }

/-- Source `SSELUnselect`: chip-select high, then one dummy frame. -/
def SSELUnselect (s : Drv) : Drv :=
  ReceiveDiscard 1 { s with log := s.log ++ [BusEv.unsel] }

/-- Polling loop of `SD_WaitForReady`: `do { read; if (data == 0xFF) return true; }
while (Timer2)`.  The first argument bounds the number of iterations. -/
def SD_WaitForReady_loop : Nat → Drv → Bool × Drv
  | 0, s => (false, s)
  | fuel + 1, s =>
    let r := ReceiveByte s
    if r.1 = 0xFF then (true, r.2)
    else if r.2.Timer2 ≠ 0 then SD_WaitForReady_loop fuel r.2
    else (false, r.2)

/-- Source `SD_WaitForReady`.  Each iteration of the loop consumes a script item or,
past the end of the script, a unit of `Timer2`, so the bound is never reached
(`SD_WaitForReady_loop_fuel`, `SD_WaitForReady_log`). -/
def SD_WaitForReady (s : Drv) : Bool × Drv :=
  let s1 := (ReceiveByte { s with Timer2 := 50 }).2
  SD_WaitForReady_loop (s1.env.length + s1.Timer2 + 1) s1

/-- Response poll of `SD_SendCommand`: `for (i = 8; i; i--) { read r1; if (r1 != 0xFF)
break; }`.  Returns the final `i`, `r1` and state. -/
def SD_SendCommand_poll : Nat → Nat → Drv → Nat × Nat × Drv
  | 0, r1, s => (0, r1, s)
  | i + 1, _, s =>
    let r := ReceiveByte s
    if r.1 ≠ 0xFF then (i + 1, r.1, r.2) else SD_SendCommand_poll i r.1 r.2

/-- Tail of `SD_SendCommand`: `do { ReceiveDatafromSDCard(buf, 1); buf++; } while
(--len)`, entered with `len` nonzero. -/
def SD_SendCommand_rest : Nat → Bytes → Nat → Drv → Bytes × Drv
  | 0, buf, _, s => (buf, s)
  | n + 1, buf, off, s =>
    let r := ReceiveDatafromSDCard buf off 1 s
    SD_SendCommand_rest n r.1 (off + 1) r.2

/-- The `crc_stop` byte chosen by `SD_SendCommand`. -/
def crcStop (k : Hdr) (cmd : Nat) : Nat :=
  if cmd = k.GO_IDLE_STATE then 0x95
  else if cmd = k.SEND_IF_COND then 0x87
  else 0x01

/-- The six frames `SD_SendCommand` transmits once the card is ready.  The fifth,
`SendDatatoSDCard(&arg, 1)`, carries the byte at the lowest address of `arg`, which is its
least significant byte on the little-endian LPC17xx. -/
def sendFrame (k : Hdr) (cmd arg : Nat) (s : Drv) : Drv :=
  let s1 := SendByte (cmd ||| 0x40) s
  let s2 := SendByte (arg >>> 24) s1
  let s3 := SendByte (arg >>> 16) s2
  let s4 := SendByte (arg >>> 8) s3
  let s5 := SendByte arg s4
  SendByte (crcStop k cmd) s5

/-- Source `SD_SendCommand`.  Returns the response code, the response buffer and the
state. -/
def SD_SendCommand (k : Hdr) (cmd arg : Nat) (buf : Option Bytes) (len : Nat) (s : Drv) :
    Nat × Option Bytes × Drv :=
  let cmd := cmd % 256
  let arg := arg % 2 ^ 32
  let len := len % 2 ^ 32
  let w := SD_WaitForReady (SSELSelect s)
  if w.1 = false then (0x81, buf, w.2)
  else
    let s1 := sendFrame k cmd arg w.2
    let p := SD_SendCommand_poll 8 ((arg >>> 8) % 256) s1
    if p.1 = 0 then (0x82, buf, p.2.2)
    else if buf.isSome ∧ len ≠ 0 then
      let r := SD_SendCommand_rest len (buf.getD (fun _ => 0)) 0 p.2.2
      (p.2.1, some r.1, r.2)
    else (p.2.1, buf, p.2.2)

/-- Source `SD_SendACommand`. -/
def SD_SendACommand (k : Hdr) (cmd arg : Nat) (buf : Option Bytes) (len : Nat) (s : Drv) :
    Nat × Option Bytes × Drv :=
  let a := SD_SendCommand k k.APP_CMD 0 none 0 s
  if a.1 > 1 then (a.1, buf, a.2.2)
  else SD_SendCommand k cmd arg buf len a.2.2

/-- A 32-bit left shift.  A shift count of 32 or more is undefined in C; the ARM
register shift the compiler emits gives zero. -/
def shl32 (x n : Nat) : Nat := if n < 32 then (x <<< n) % 2 ^ 32 else 0

/-- Token poll of `SD_RecvDataBlock`: `do { read datatoken; if (datatoken == 0xFE)
break; } while (Timer1)`.  Returns the last token read. -/
def SD_RecvDataBlock_token : Nat → Nat → Drv → Nat × Drv
  | 0, tok, s => (tok, s)
  | fuel + 1, _, s =>
    let r := ReceiveByte s
    if r.1 = 0xFE then (r.1, r.2)
    else if r.2.Timer1 ≠ 0 then SD_RecvDataBlock_token fuel r.1 r.2
    else (r.1, r.2)

/-- Byte-at-a-time data phase of `SD_RecvDataBlock`: `for (i = 0; i < len; i++)
ReceiveDatafromSDCard(&buf[i], 1)`; the first argument counts the bytes left. -/
def SD_RecvDataBlock_bytes : Nat → Bytes → Nat → Drv → Bytes × Drv
  | 0, buf, _, s => (buf, s)
  | n + 1, buf, i, s =>
    let r := ReceiveDatafromSDCard buf i 1 s
    SD_RecvDataBlock_bytes n r.1 (i + 1) r.2

/-- Source `SD_RecvDataBlock(buf + off, len)`. -/
def SD_RecvDataBlock (k : Hdr) (buf : Bytes) (off len : Nat) (s : Drv) :
    Bool × Bytes × Drv :=
  let len := len % 2 ^ 32
  let s0 := { s with Timer1 := 10 }
  let t := SD_RecvDataBlock_token (s0.env.length + s0.Timer1 + 1) 0 s0
  if t.1 ≠ 0xFE then (false, buf, t.2)
  else
    let d := if k.USE_FIFO then ReceiveDatafromSDCard buf off len t.2
             else SD_RecvDataBlock_bytes len buf off t.2
    let c1 := ReceiveByte d.2
    let c2 := ReceiveByte c1.2
    (true, d.1, c2.2)

/-- Byte-at-a-time data phase of `SD_SendDataBlock`: `for (i = 0; i < len; i++)
SendDatatoSDCard(&buf[i], 1)`; the first argument counts the bytes left. -/
def SD_SendDataBlock_bytes : Nat → Bytes → Nat → Drv → Drv
  | 0, _, _, s => s
  | n + 1, buf, i, s => SD_SendDataBlock_bytes n buf (i + 1) (SendDatatoSDCard buf i 1 s)

/-- Busy poll of `SD_SendDataBlock`: `do { read recv; if (recv == 0xFF) break; } while
(Timer1)`.  Returns the last byte read. -/
def SD_SendDataBlock_busy : Nat → Nat → Drv → Nat × Drv
  | 0, recv, s => (recv, s)
  | fuel + 1, _, s =>
    let r := ReceiveByte s
    if r.1 = 0xFF then (r.1, r.2)
    else if r.2.Timer1 ≠ 0 then SD_SendDataBlock_busy fuel r.1 r.2
    else (r.1, r.2)

/-- Source `SD_SendDataBlock(buf + off, tkn, len)`. -/
def SD_SendDataBlock (k : Hdr) (buf : Bytes) (off tkn len : Nat) (s : Drv) : Bool × Drv :=
  let len := len % 2 ^ 32
  let s1 := SendByte tkn s
  let s2 := if k.USE_FIFO then SendDatatoSDCard buf off len s1
            else SD_SendDataBlock_bytes len buf off s1
  let s3 := SendByte 0xFF s2
  let s4 := SendByte 0xFF s3
  let r := ReceiveByte s4
  if r.1 &&& 0x0F ≠ 0x05 then (false, r.2)
  else
    let s5 := { r.2 with Timer1 := 20 }
    let b := SD_SendDataBlock_busy (s5.env.length + s5.Timer1 + 1) r.1 s5
    if b.1 = 0xFF then (true, b.2) else (false, b.2)

/-- The address conversion at the head of `SD_ReadSector` and `SD_WriteSector`. -/
def sectAddr (k : Hdr) (s : Drv) (sect : Nat) : Nat :=
  if s.CardType ≠ k.CARDTYPE_SDV2_HC then ((sect % 2 ^ 32) <<< 9) % 2 ^ 32 else sect % 2 ^ 32

/-- Block loop of `SD_ReadSector`: `do { if (SD_RecvDataBlock(buf, SECTOR_SIZE) ==
false) break; buf += SECTOR_SIZE; } while (--cnt)`.  Returns the final `cnt`. -/
def SD_ReadSector_loop (k : Hdr) : Nat → Bytes → Nat → Drv → Nat × Bytes × Drv
  | 0, buf, _, s => (0, buf, s)
  | cnt + 1, buf, off, s =>
    let r := SD_RecvDataBlock k buf off k.SECTOR_SIZE s
    if r.1 = false then (cnt + 1, r.2.1, r.2.2)
    else SD_ReadSector_loop k cnt r.2.1 (off + k.SECTOR_SIZE) r.2.2

/-- Source `SD_ReadSector`. -/
def SD_ReadSector (k : Hdr) (sect : Nat) (buf : Bytes) (cnt : Nat) (s : Drv) :
    Bool × Bytes × Drv :=
  let cnt := cnt % 2 ^ 32
  let sect := sectAddr k s sect
  if cnt > 1 then
    let c := SD_SendCommand k k.READ_MULTIPLE_BLOCK sect none 0 s
    if c.1 = k.R1_NO_ERROR then
      let l := SD_ReadSector_loop k cnt buf 0 c.2.2
      let st := SD_SendCommand k k.STOP_TRANSMISSION 0 none 0 l.2.2
      let w := SD_WaitForReady st.2.2
      (w.1 && decide (l.1 = 0), l.2.1, SSELUnselect w.2)
    else (false, buf, SSELUnselect c.2.2)
  else
    let c := SD_SendCommand k k.READ_SINGLE_BLOCK sect none 0 s
    if c.1 = k.R1_NO_ERROR then
      let r := SD_RecvDataBlock k buf 0 k.SECTOR_SIZE c.2.2
      (r.1, r.2.1, SSELUnselect r.2.2)
    else (false, buf, SSELUnselect c.2.2)

/-- Block loop of `SD_WriteSector`: `do { if (SD_SendDataBlock(buf, 0xFC, SECTOR_SIZE)
== false) break; buf += SECTOR_SIZE; } while (--cnt)`.  Returns the final `cnt`. -/
def SD_WriteSector_loop (k : Hdr) (buf : Bytes) : Nat → Nat → Drv → Nat × Drv
  | 0, _, s => (0, s)
  | cnt + 1, off, s =>
    let r := SD_SendDataBlock k buf off 0xFC k.SECTOR_SIZE s
    if r.1 = false then (cnt + 1, r.2)
    else SD_WriteSector_loop k buf cnt (off + k.SECTOR_SIZE) r.2

/-- Source `SD_WriteSector`. -/
def SD_WriteSector (k : Hdr) (sect : Nat) (buf : Bytes) (cnt : Nat) (s : Drv) : Bool × Drv :=
  let cnt := cnt % 2 ^ 32
  let sect := sectAddr k s sect
  if cnt > 1 then
    let c := SD_SendCommand k k.WRITE_MULTIPLE_BLOCK sect none 0 s
    if c.1 = k.R1_NO_ERROR then
      let l := SD_WriteSector_loop k buf cnt 0 c.2.2
      let s1 := SendByte 0xFD l.2
      let w := SD_WaitForReady s1
      (w.1 && decide (l.1 = 0), SSELUnselect w.2)
    else (false, SSELUnselect c.2.2)
  else
    let c := SD_SendCommand k k.WRITE_SINGLE_BLOCK sect none 0 s
    if c.1 = k.R1_NO_ERROR then
      let r := SD_SendDataBlock k buf 0 0xFE k.SECTOR_SIZE c.2.2
      (r.1, SSELUnselect r.2)
    else (false, SSELUnselect c.2.2)

/-- The `c_size` field `SD_ReadConfiguration` reads from a version 2 CSD. -/
def csdV2Size (csd : Bytes) : Nat :=
  (((csd 7 <<< 16) + (csd 8 <<< 8) + csd 9) % 2 ^ 32) &&& 0x3FFFFF

/-- The `c_size` field `SD_ReadConfiguration` reads from a version 1 CSD. -/
def csdV1Size (csd : Bytes) : Nat :=
  ((((csd 6 &&& 0x3) <<< 10) + (csd 7 <<< 2) + (csd 8 >>> 6)) % 2 ^ 32) &&& 0xFFF

/-- The `c_size_mult` field `SD_ReadConfiguration` reads from a version 1 CSD. -/
def csdV1Mult (csd : Bytes) : Nat :=
  ((csd 9 &&& 0x3) <<< 1) + ((csd 10 &&& 0x80) >>> 7)

/-- The `read_bl_len` field `SD_ReadConfiguration` reads from a version 1 CSD. -/
def csdV1ReadLen (csd : Bytes) : Nat := csd 5 &&& 0xF

/-- The shift count `read_bl_len + c_size_mult - 7`, computed in `uint32_t`. -/
def csdV1Shift (csd : Bytes) : Nat :=
  (csdV1ReadLen csd + csdV1Mult csd + 2 ^ 32 - 7) % 2 ^ 32

/-- The sector count computation of `SD_ReadConfiguration` (the branch on the CSD
structure version and both formulas). -/
def csdSectorCount (csd : Bytes) : Nat :=
  if (csd 0 >>> 6) &&& 0x3 = 0x1 then
    ((csdV2Size csd + 1) * 1024) % 2 ^ 32
  else
    shl32 (csdV1Size csd + 1) (csdV1Shift csd)

/-- The MMC erase block size expression of `SD_ReadConfiguration`. -/
def mmcBlockSize (csd : Bytes) : Nat :=
  (((csd 10 &&& 124) >>> 2) + 1) * (((csd 10 &&& 3) <<< 3) + ((csd 11 &&& 224) >>> 5) + 1)

/-- The shift count `(csd[13] >> 6) - 1` of the SD v1 erase block size, an `int`. -/
def sdv1Shift (csd : Bytes) : Int := ((csd 13 >>> 6 : Nat) : Int) - 1

/-- The SD v1 erase block size expression of `SD_ReadConfiguration`.  A negative shift
count is undefined in C; the ARM register shift gives zero. -/
def sdv1BlockSize (csd : Bytes) : Nat :=
  if sdv1Shift csd < 0 then 0
  else shl32 (((csd 10 &&& 63) <<< 1) + ((csd 11 &&& 128) >>> 7) + 1) (sdv1Shift csd).toNat

/-- Purge loop of `SD_ReadConfiguration`: `for (i = 64-16; i; i--)
ReceiveDatafromSDCard(NULL, 1)`. -/
def purge : Nat → Drv → Drv
  | 0, s => s
  | i + 1, s => purge i (ReceiveDiscard 1 s)

/-- Field update `CardConfig.ocr = b`. -/
def setOcr (s : Drv) (b : Bytes) : Drv := { s with CardConfig := { s.CardConfig with ocr := b } }

/-- Field update `CardConfig.cid = b`. -/
def setCid (s : Drv) (b : Bytes) : Drv := { s with CardConfig := { s.CardConfig with cid := b } }

/-- Field update `CardConfig.csd = b`. -/
def setCsd (s : Drv) (b : Bytes) : Drv := { s with CardConfig := { s.CardConfig with csd := b } }

/-- Field update `CardConfig.blocksize = v`. -/
def setBlocksize (s : Drv) (v : Nat) : Drv :=
  { s with CardConfig := { s.CardConfig with blocksize := v } }

/-- The two assignments `CardConfig.sectorsize = 512` and `CardConfig.sectorcnt = ...`
made once the CSD has been read. -/
def setGeometry (s : Drv) : Drv :=
  { s with CardConfig :=
      { s.CardConfig with sectorsize := 512, sectorcnt := csdSectorCount s.CardConfig.csd } }

/-- The `switch (CardType)` of `SD_ReadConfiguration`, up to the label `end`.  Returns
`retv` and the state. -/
def SD_ReadConfiguration_erase (k : Hdr) (s : Drv) : Bool × Drv :=
  if s.CardType = k.CARDTYPE_SDV2_SC ∨ s.CardType = k.CARDTYPE_SDV2_HC then
    let a := SD_SendACommand k k.SD_STATUS 0 (some (fun _ => 0)) 1 s
    if a.1 ≠ k.R1_NO_ERROR then (false, a.2.2)
    else
      let r := SD_RecvDataBlock k (a.2.1.getD (fun _ => 0)) 0 16 a.2.2
      if r.1 = false then (false, r.2.2)
      else
        let s1 := purge (64 - 16) r.2.2
        (true, setBlocksize s1 (shl32 16 (r.2.1 10 >>> 4)))
  else if s.CardType = k.CARDTYPE_MMC then
    (true, setBlocksize s (mmcBlockSize s.CardConfig.csd))
  else if s.CardType = k.CARDTYPE_SDV1 then
    (true, setBlocksize s (sdv1BlockSize s.CardConfig.csd))
  else (false, s)

/-- Body of `SD_ReadConfiguration` up to the label `end`. -/
def SD_ReadConfiguration_body (k : Hdr) (s : Drv) : Bool × Drv :=
  let o := SD_SendCommand k k.READ_OCR 0 (some s.CardConfig.ocr) 4 s
  let s1 := setOcr o.2.2 (o.2.1.getD s.CardConfig.ocr)
  if o.1 ≠ k.R1_NO_ERROR then (false, s1)
  else
    let c := SD_SendCommand k k.SEND_CID 0 none 0 s1
    if c.1 ≠ k.R1_NO_ERROR then (false, c.2.2)
    else
      let r := SD_RecvDataBlock k c.2.2.CardConfig.cid 0 16 c.2.2
      let s2 := setCid r.2.2 r.2.1
      if r.1 = false then (false, s2)
      else
        let d := SD_SendCommand k k.SEND_CSD 0 none 0 s2
        if d.1 ≠ k.R1_NO_ERROR then (false, d.2.2)
        else
          let q := SD_RecvDataBlock k d.2.2.CardConfig.csd 0 16 d.2.2
          let s3 := setCsd q.2.2 q.2.1
          if q.1 = false then (false, s3)
          else SD_ReadConfiguration_erase k (setGeometry s3)

/-- Source `SD_ReadConfiguration`. -/
def SD_ReadConfiguration (k : Hdr) (s : Drv) : Bool × Drv :=
  let b := SD_ReadConfiguration_body k s
  (b.1, SSELUnselect b.2)

/-- Assignment `CardType = v` (`CardType` is a `BYTE`). -/
def setCardType (s : Drv) (v : Nat) : Drv := { s with CardType := v % 256 }

/-- Negotiation loop of the V2 path of `SD_Init`: `do { r1 = ACMD41; if (r1 == 0) break;
else if (r1 > 1) goto init_end; } while (Timer1)`.  Returns whether the loop left through
`goto init_end`. -/
def SD_Init_v2loop (k : Hdr) : Nat → Drv → Bool × Drv
  | 0, s => (false, s)
  | fuel + 1, s =>
    let a := SD_SendACommand k k.SD_SEND_OP_COND 0x40000000 none 0 s
    if a.1 = 0x00 then (false, a.2.2)
    else if a.1 > 0x01 then (true, a.2.2)
    else if a.2.2.Timer1 ≠ 0 then SD_Init_v2loop k fuel a.2.2
    else (false, a.2.2)

/-- Loop `while (Timer1 && SD_SendCommand (SEND_OP_COND, 0, NULL, 0));` of `SD_Init`. -/
def SD_Init_mmcloop (k : Hdr) : Nat → Drv → Drv
  | 0, s => s
  | fuel + 1, s =>
    if s.Timer1 ≠ 0 then
      let c := SD_SendCommand k k.SEND_OP_COND 0 none 0 s
      if c.1 ≠ 0 then SD_Init_mmcloop k fuel c.2.2 else c.2.2
    else s

/-- Loop `while (Timer1 && SD_SendACommand (SD_SEND_OP_COND, 0, NULL, 0));` of
`SD_Init`. -/
def SD_Init_sdloop (k : Hdr) : Nat → Drv → Drv
  | 0, s => s
  | fuel + 1, s =>
    if s.Timer1 ≠ 0 then
      let c := SD_SendACommand k k.SD_SEND_OP_COND 0 none 0 s
      if c.1 ≠ 0 then SD_Init_sdloop k fuel c.2.2 else c.2.2
    else s

/-- Last step of `SD_Init` before `init_end`: the block length is set for the card
types that need it. -/
def SD_Init_blocklen (k : Hdr) (s : Drv) : Drv :=
  if s.CardType = k.CARDTYPE_MMC ∨ s.CardType = k.CARDTYPE_SDV1 ∨
      s.CardType = k.CARDTYPE_SDV2_SC then
    let c := SD_SendCommand k k.SET_BLOCKLEN k.SECTOR_SIZE none 0 s
    if c.1 ≠ k.R1_NO_ERROR then setCardType c.2.2 k.CARDTYPE_UNKNOWN else c.2.2
  else s

/-- V2 path of `SD_Init`, entered after `Timer1 = 100` with the echo of CMD8 in `buf`. -/
def SD_Init_v2 (k : Hdr) (buf : Bytes) (s : Drv) : Drv :=
  if buf 2 ≠ 0x01 ∨ buf 3 ≠ 0xAA then s
  else
    let l := SD_Init_v2loop k (s.env.length + s.Timer1 + 1) s
    if l.1 then l.2
    else if l.2.Timer1 ≠ 0 then
      let o := SD_SendCommand k k.READ_OCR 0 (some buf) 4 l.2
      if o.1 = k.R1_NO_ERROR then
        SD_Init_blocklen k
          (setCardType o.2.2
            (if (o.2.1.getD buf) 0 &&& 0x40 ≠ 0 then k.CARDTYPE_SDV2_HC
             else k.CARDTYPE_SDV2_SC))
      else SD_Init_blocklen k o.2.2
    else SD_Init_blocklen k l.2

/-- Legacy path of `SD_Init` (SD version 1 or MMC), entered after `Timer1 = 100`. -/
def SD_Init_legacy (k : Hdr) (s : Drv) : Drv :=
  let p := SD_SendCommand k k.APP_CMD 0 none 0 s
  let l :=
    if p.1 &&& k.R1_ILLEGAL_CMD ≠ 0 then
      let s1 := setCardType p.2.2 k.CARDTYPE_MMC
      SD_Init_mmcloop k (s1.env.length + s1.Timer1 + 1) s1
    else
      let s1 := setCardType p.2.2 k.CARDTYPE_SDV1
      SD_Init_sdloop k (s1.env.length + s1.Timer1 + 1) s1
  SD_Init_blocklen k (if l.Timer1 = 0 then setCardType l k.CARDTYPE_UNKNOWN else l)

/-- Power-up clocks of `SD_Init`: `for (i = 0; i < 10; i++) SendDatatoSDCard(&buf[0], 1)`. -/
def SD_Init_clocks (buf : Bytes) : Nat → Drv → Drv
  | 0, s => s
  | n + 1, s => SD_Init_clocks buf n (SendDatatoSDCard buf 0 1 s)

/-- Body of `SD_Init` from `CardType = CARDTYPE_UNKNOWN` up to the label `init_end`. -/
def SD_Init_body (k : Hdr) (s : Drv) : Drv :=
  let s0 := setCardType s k.CARDTYPE_UNKNOWN
  let s1 := SSELUnselect s0
  let buf : Bytes := poke (fun _ => 0) 0 0xFF
  let s2 := SD_Init_clocks buf 10 s1
  let c0 := SD_SendCommand k k.GO_IDLE_STATE 0 none 0 s2
  if c0.1 ≠ k.R1_IN_IDLE_STATE then c0.2.2
  else
    let c8 := SD_SendCommand k k.SEND_IF_COND 0x1AA (some buf) 4 c0.2.2
    if c8.1 &&& 0x80 ≠ 0 then c8.2.2
    else
      let t := { c8.2.2 with Timer1 := 100 }
      if c8.1 = k.R1_IN_IDLE_STATE then SD_Init_v2 k (c8.2.1.getD buf) t
      else SD_Init_legacy k t

/-- Source `SD_Init`. -/
def SD_Init (k : Hdr) (s : Drv) : Bool × Drv :=
  let e := SSELUnselect (SD_Init_body k s)
  if e.CardType = k.CARDTYPE_UNKNOWN then (false, e) else (true, e)

/-- The update `status &= ~STA_NOINIT`. -/
def clearNoinit (k : Hdr) (st : Nat) : Nat := st ^^^ (st &&& k.STA_NOINIT)

/-- Source `MMC_disk_initialize`.  Returns `status` and the state. -/
def MMC_disk_initialize (k : Hdr) (s : Drv) : Nat × Drv :=
  let i := SD_Init k s
  if i.1 then
    let c := SD_ReadConfiguration k i.2
    if c.1 then
      let s1 := { c.2 with status := clearNoinit k c.2.status }
      (s1.status, s1)
    else (c.2.status, c.2)
  else (i.2.status, i.2)

/-- Copy loop of `MMC_disk_ioctl`: `for (n = 0; n < len; n++) *(ptr+n) = src[n]`. -/
def copyBytes (src : Bytes) : Nat → Bytes → Bytes
  | 0, dst => dst
  | n + 1, dst => poke (copyBytes src n dst) n (src n)

/-- Source `MMC_disk_ioctl`.  Returns the result, the caller's buffer and the state. -/
def MMC_disk_ioctl (k : Hdr) (cmd : Nat) (buff : Bytes) (s : Drv) : DRESULT × Bytes × Drv :=
  let cmd := cmd % 256
  if s.status &&& k.STA_NOINIT ≠ 0 then (DRESULT.RES_NOTRDY, buff, s)
  else if cmd = k.CTRL_SYNC then
    let w := SD_WaitForReady (SSELSelect s)
    (if w.1 = true then DRESULT.RES_OK else DRESULT.RES_ERROR, buff, SSELUnselect w.2)
  else if cmd = k.GET_SECTOR_COUNT then
    (DRESULT.RES_OK, storeLE 4 s.CardConfig.sectorcnt buff, SSELUnselect s)
  else if cmd = k.GET_SECTOR_SIZE then
    (DRESULT.RES_OK, storeLE 2 s.CardConfig.sectorsize buff, SSELUnselect s)
  else if cmd = k.GET_BLOCK_SIZE then
    (DRESULT.RES_OK, storeLE 4 s.CardConfig.blocksize buff, SSELUnselect s)
  else if cmd = k.MMC_GET_TYPE then
    (DRESULT.RES_OK, poke buff 0 s.CardType, SSELUnselect s)
  else if cmd = k.MMC_GET_CSD then
    (DRESULT.RES_OK, copyBytes s.CardConfig.csd 16 buff, SSELUnselect s)
  else if cmd = k.MMC_GET_CID then
    (DRESULT.RES_OK, copyBytes s.CardConfig.cid 16 buff, SSELUnselect s)
  else if cmd = k.MMC_GET_OCR then
    (DRESULT.RES_OK, copyBytes s.CardConfig.ocr 4 buff, SSELUnselect s)
  else if cmd = k.MMC_GET_SDSTAT then
    (DRESULT.RES_OK, copyBytes s.CardConfig.status 64 buff, SSELUnselect s)
  else (DRESULT.RES_PARERR, buff, SSELUnselect s)

/-- Source `MMC_disk_read`. -/
def MMC_disk_read (k : Hdr) (buff : Bytes) (sector count : Nat) (s : Drv) :
    DRESULT × Bytes × Drv :=
  if s.status &&& k.STA_NOINIT ≠ 0 then (DRESULT.RES_NOTRDY, buff, s)
  else
    let r := SD_ReadSector k sector buff count s
    (if r.1 = true then DRESULT.RES_OK else DRESULT.RES_ERROR, r.2.1, r.2.2)

/-- Source `MMC_disk_status`. -/
def MMC_disk_status (s : Drv) : Nat := s.status

/-- Source `MMC_disk_write`. -/
def MMC_disk_write (k : Hdr) (buff : Bytes) (sector count : Nat) (s : Drv) : DRESULT × Drv :=
  if s.status &&& k.STA_NOINIT ≠ 0 then (DRESULT.RES_NOTRDY, s)
  else
    let r := SD_WriteSector k sector buff count s
    (if r.1 = true then DRESULT.RES_OK else DRESULT.RES_ERROR, r.2)

/-- Drive numbers of `diskio.c`. -/
def ATA : Nat := 1

/-- Drive number of the MMC/SD card in `diskio.c`. -/
def MMC : Nat := 0

/-- Drive number of the USB disk in `diskio.c`. -/
def USB : Nat := 2

/-- Source `disk_status` of `diskio.c`. -/
def disk_status (k : Hdr) (pdrv : Nat) (s : Drv) : Nat :=
  if pdrv % 256 = ATA then k.STA_NOINIT
  else if pdrv % 256 = MMC then MMC_disk_status s
  else k.STA_NOINIT

/-- Source `disk_initialize` of `diskio.c`. -/
def disk_initialize (k : Hdr) (pdrv : Nat) (s : Drv) : Nat × Drv :=
  if pdrv % 256 = ATA then (k.STA_NOINIT, s)
  else if pdrv % 256 = MMC then MMC_disk_initialize k s
  else (k.STA_NOINIT, s)

/-- Source `disk_read` of `diskio.c`. -/
def disk_read (k : Hdr) (pdrv : Nat) (buff : Bytes) (sector count : Nat) (s : Drv) :
    DRESULT × Bytes × Drv :=
  if pdrv % 256 = ATA then (DRESULT.RES_PARERR, buff, s)
  else if pdrv % 256 = MMC then MMC_disk_read k buff sector count s
  else (DRESULT.RES_PARERR, buff, s)

/-- Source `disk_write` of `diskio.c`. -/
def disk_write (k : Hdr) (pdrv : Nat) (buff : Bytes) (sector count : Nat) (s : Drv) :
    DRESULT × Drv :=
  if pdrv % 256 = ATA then (DRESULT.RES_PARERR, s)
  else if pdrv % 256 = MMC then MMC_disk_write k buff sector count s
  else (DRESULT.RES_PARERR, s)

/-- Source `disk_ioctl` of `diskio.c`. -/
def disk_ioctl (k : Hdr) (pdrv cmd : Nat) (buff : Bytes) (s : Drv) : DRESULT × Bytes × Drv :=
  if pdrv % 256 = ATA then (DRESULT.RES_PARERR, buff, s)
  else if pdrv % 256 = MMC then MMC_disk_ioctl k cmd buff s
  else (DRESULT.RES_PARERR, buff, s)

/-- A call made on the driver from outside: one of the `diskio.c` entry points, or the
timer interrupt between two of them. -/
inductive Call where
  | status (pdrv : Nat)
  | init (pdrv : Nat)
  | read (pdrv : Nat) (buff : Bytes) (sector count : Nat)
  | write (pdrv : Nat) (buff : Bytes) (sector count : Nat)
  | ioctl (pdrv cmd : Nat) (buff : Bytes)
  | timerproc

/-- State after one call. -/
def Call.step (k : Hdr) : Call → Drv → Drv
  | Call.status _, s => s
  | Call.init pdrv, s => ( disk_initialize k pdrv s).2
  | Call.read pdrv buff sector count, s => (disk_read k pdrv buff sector count s).2.2
  | Call.write pdrv buff sector count, s => (disk_write k pdrv buff sector count s).2
  | Call.ioctl pdrv cmd buff, s => (disk_ioctl k pdrv cmd buff s).2.2
  | Call.timerproc, s => disk_timerproc s

/-- State after a sequence of calls. -/
def run (k : Hdr) : List Call → Drv → Drv
  | [], s => s
  | c :: cs, s => run k cs (Call.step k c s)

/-- Script items carrying the given bytes, with no timer interrupt. -/
def quiet (l : List Nat) : List Ev := l.map (fun b => ⟨b, 0⟩)

/-- Script items of `n` frames of idle bus, with no timer interrupt. -/
def idle (n : Nat) : List Ev := List.replicate n ⟨0xFF, 0⟩

/-- Script of one command: the card is ready (two frames), stays idle during the six
frame bytes and then answers `resp`. -/
def cmdScript (resp : List Nat) : List Ev := idle 8 ++ quiet resp

/-- Script of one data block: start token, payload, two CRC bytes. -/
def blockScript (data : List Nat) : List Ev := quiet (0xFE :: data) ++ idle 2

/-- A version 2 CSD whose size field is `0x3A3F`. -/
def csdHC : List Nat :=
  [0x40, 0x0E, 0x00, 0x32, 0x5B, 0x59, 0x00, 0x00, 0x3A, 0x3F, 0x7F, 0x80, 0x0A, 0x40, 0x00, 0x01]

/-- A version 1 CSD (`read_bl_len = 9`, `c_size = 3874`, `c_size_mult = 7`). -/
def csdSC : List Nat :=
  [0x00, 0x26, 0x00, 0x32, 0x5F, 0x59, 0x83, 0xC8, 0xAD, 0xDB, 0xCF, 0xFF, 0xD2, 0x40, 0x40, 0xA5]

/-- A high-capacity SD card answering `SD_Init`: power-up clocks, CMD0, CMD8 with echo,
ACMD41 ready at once, CMD58 with the capacity bit set. -/
def initScriptHC : List Ev :=
  idle 11 ++ cmdScript [0x01] ++ cmdScript [0x01, 0x00, 0x00, 0x01, 0xAA] ++ cmdScript [0x01] ++
    cmdScript [0x00] ++ cmdScript [0x00, 0xC0, 0xFF, 0x80, 0x00] ++ idle 1

/-- The same card answering `SD_ReadConfiguration`: OCR, CID, CSD, SD status. -/
def configScriptHC : List Ev :=
  cmdScript [0x00, 0xC0, 0xFF, 0x80, 0x00] ++ cmdScript [0x00] ++
    blockScript (List.replicate 16 0x11) ++ cmdScript [0x00] ++ blockScript csdHC ++
    cmdScript [0x00] ++ cmdScript [0x00, 0x00] ++ blockScript (List.replicate 16 0x90) ++
    idle 48 ++ idle 1

/-- An MMC card answering `SD_Init`: CMD8 and CMD55 rejected as illegal, CMD1 ready at
once, CMD16 accepted. -/
def initScriptMMC : List Ev :=
  idle 11 ++ cmdScript [0x01] ++ cmdScript [0x05, 0x00, 0x00, 0x00, 0x00] ++ cmdScript [0x05] ++
    cmdScript [0x00] ++ cmdScript [0x00] ++ idle 1

/-- The same card answering `SD_ReadConfiguration`: OCR, CID, CSD. -/
def configScriptMMC : List Ev :=
  cmdScript [0x00, 0x80, 0xFF, 0x80, 0x00] ++ cmdScript [0x00] ++
    blockScript (List.replicate 16 0x22) ++ cmdScript [0x00] ++ blockScript csdSC ++ idle 1

/-- The high-capacity card after `SD_Init`, about to be asked for its configuration. -/
def cardHC : Drv := (SD_Init stdHdr (Drv.init stdHdr (initScriptHC ++ configScriptHC))).2

/-- The MMC card after `SD_Init`, about to be asked for its configuration. -/
def cardMMC : Drv := (SD_Init stdHdr (Drv.init stdHdr (initScriptMMC ++ configScriptMMC))).2

/-- The driver after a first, successful `disk_initialize` on the high-capacity card; the
script is used up, so from here on the bus idles. -/
def cardReady : Drv :=
  ( MMC_disk_initialize stdHdr (Drv.init stdHdr (initScriptHC ++ configScriptHC))).2

/-- A stretch of bus activity that consists of received frames only. -/
def recvOnly (l : List BusEv) : Prop := ∀ e ∈ l, ∃ b, e = BusEv.recv b

/-- The bytes transmitted in a stretch of bus activity, in order. -/
def sent : List BusEv → List Nat
  | [] => []
  | BusEv.send b :: l => b :: sent l
  | _ :: l => sent l

/-- The six bytes of the frame of `SD_SendCommand(cmd, arg, ..)`, for a `uint8_t cmd` and a
`uint32_t arg`: command byte, argument most significant byte first, trailer. -/
def frameBytes (k : Hdr) (cmd arg : Nat) : List Nat :=
  [cmd ||| 0x40, (arg >>> 24) % 256, (arg >>> 16) % 256, (arg >>> 8) % 256, arg % 256,
    crcStop k cmd]

/-- A card that stays busy: the readiness poll of `SD_WaitForReady` reads zeros until
`Timer2` has run out. -/
def busyScript : List Ev := quiet [0x00, 0x00] ++ [⟨0x00, 50⟩]

/-- A card that answers a command with the byte `0xC1` followed by `0x00`. -/
def strayScript : List Ev := cmdScript [0xC1, 0x00]

/-- From `s` to `s'`, `Timer1` has not grown and no script item or tick of `Timer1` has
been given back. -/
def le1 (s s' : Drv) : Prop :=
  s'.Timer1 ≤ s.Timer1 ∧ s'.env.length + s'.Timer1 ≤ s.env.length + s.Timer1

/-- From `s` to `s'` a frame went over the bus: as `le1`, and if `Timer1` is still running
a script item or a tick of `Timer1` has been used up. -/
def lt1 (s s' : Drv) : Prop :=
  le1 s s' ∧ (s'.Timer1 ≠ 0 → s'.env.length + s'.Timer1 < s.env.length + s.Timer1)

/-- The bytes `data[off .. off+n-1]`, as they go over the bus. -/
def payload (data : Bytes) : Nat → Nat → List Nat
  | _, 0 => []
  | off, n + 1 => data off % 256 :: payload data (off + 1) n

/-- The address rule in the words of the specification: the sector number itself for an
SDv2 high-capacity card, the byte address `sector * 512` in 32 bits for every other
type. -/
def blockAddr (k : Hdr) (s : Drv) (sect : Nat) : Nat :=
  if s.CardType = k.CARDTYPE_SDV2_HC then sect else sect * 512 % 2 ^ 32

/-- The read command `SD_ReadSector` issues for a `uint32_t` count. -/
def readCmd (k : Hdr) (cnt : Nat) : Nat :=
  if cnt > 1 then k.READ_MULTIPLE_BLOCK else k.READ_SINGLE_BLOCK

/-- The write command `SD_WriteSector` issues for a `uint32_t` count. -/
def writeCmd (k : Hdr) (cnt : Nat) : Nat :=
  if cnt > 1 then k.WRITE_MULTIPLE_BLOCK else k.WRITE_SINGLE_BLOCK

/-- Level of chip-select after a stretch of bus activity that starts with the card
deselected: true while the card is selected. -/
def csAsserted (l : List BusEv) : Bool :=
  l.foldl (fun b e => match e with
    | BusEv.sel => true
    | BusEv.unsel => false
    | _ => b) false

/-- The part of `SD_SendDataBlock` up to and including the read of the data response:
start token, payload, two dummy CRC bytes, one received byte.  Returns that byte. -/
def SD_SendDataBlock_resp (k : Hdr) (buf : Bytes) (off tkn len : Nat) (s : Drv) : Nat × Drv :=
  let len := len % 2 ^ 32
  let s1 := SendByte tkn s
  let s2 := if k.USE_FIFO then SendDatatoSDCard buf off len s1
            else SD_SendDataBlock_bytes len buf off s1
  let s3 := SendByte 0xFF s2
  let s4 := SendByte 0xFF s3
  ReceiveByte s4

/-- The data responses read for the blocks that the loop of `SD_WriteSector` sends, in
order; the loop stops at the first block that fails. -/
def SD_WriteSector_loop_resps (k : Hdr) (buf : Bytes) : Nat → Nat → Drv → List Nat
  | 0, _, _ => []
  | cnt + 1, off, s =>
    let r := SD_SendDataBlock k buf off 0xFC k.SECTOR_SIZE s
    (SD_SendDataBlock_resp k buf off 0xFC k.SECTOR_SIZE s).1 ::
      (if r.1 = false then []
       else SD_WriteSector_loop_resps k buf cnt (off + k.SECTOR_SIZE) r.2)

/-- The data responses read for the blocks that one call of `SD_WriteSector` sends. -/
def SD_WriteSector_resps (k : Hdr) (sect : Nat) (buf : Bytes) (cnt : Nat) (s : Drv) :
    List Nat :=
  let cnt := cnt % 2 ^ 32
  let sect := sectAddr k s sect
  if cnt > 1 then
    let c := SD_SendCommand k k.WRITE_MULTIPLE_BLOCK sect none 0 s
    if c.1 = k.R1_NO_ERROR then SD_WriteSector_loop_resps k buf cnt 0 c.2.2 else []
  else
    let c := SD_SendCommand k k.WRITE_SINGLE_BLOCK sect none 0 s
    if c.1 = k.R1_NO_ERROR then [(SD_SendDataBlock_resp k buf 0 0xFE k.SECTOR_SIZE c.2.2).1]
    else []

/-- The driver after a successful `disk_initialize` on the MMC card; the script is used
up, so from here on the bus idles. -/
def mmcReady : Drv :=
  ( MMC_disk_initialize stdHdr (Drv.init stdHdr (initScriptMMC ++ configScriptMMC))).2

/-- A card that accepts the single block write command and the data and then answers
the data response `0x0B` (rejected, CRC error). -/
def rejectScript : List Ev := cmdScript [0x00] ++ idle 515 ++ quiet [0x0B] ++ idle 1

/-- An SD version 1 card answering `SD_Init`: CMD8 rejected as illegal, CMD55 accepted,
ACMD41 ready at once, CMD16 accepted. -/
def initScriptSD1 : List Ev :=
  idle 11 ++ cmdScript [0x01] ++ cmdScript [0x05, 0x00, 0x00, 0x00, 0x00] ++ cmdScript [0x01] ++
    cmdScript [0x01] ++ cmdScript [0x00] ++ cmdScript [0x00] ++ idle 1

/-- The same card answering `SD_ReadConfiguration`: OCR, CID, CSD. -/
def configScriptSD1 : List Ev :=
  cmdScript [0x00, 0x80, 0xFF, 0x80, 0x00] ++ cmdScript [0x00] ++
    blockScript (List.replicate 16 0x33) ++ cmdScript [0x00] ++ blockScript csdSC ++ idle 1

/-- What a card would answer to a read of its SD status (allocation unit nibble 9), were
it asked: CMD55, ACMD13, the first 16 bytes as a data block, 48 more bytes. -/
def sdStatusScript : List Ev :=
  cmdScript [0x00] ++ cmdScript [0x00, 0x00] ++ blockScript (List.replicate 16 0x90) ++ idle 48

/-- The SD version 1 card after `SD_Init`, about to be asked for its configuration and
prepared to be asked for its SD status. -/
def cardSD1 : Drv :=
  (SD_Init stdHdr (Drv.init stdHdr (initScriptSD1 ++ configScriptSD1 ++ sdStatusScript))).2

/-- A transport script on which every byte read is `0xFF`; the timer interrupts it
carries are arbitrary. -/
def allFF (env : List Ev) : Prop := ∀ e ∈ env, e.rx % 256 = 0xFF

/-- Number of frames (bus transfers) in a stretch of bus activity. -/
def frames : List BusEv → Nat
  | [] => 0
  | BusEv.send _ :: l => frames l + 1
  | BusEv.recv _ :: l => frames l + 1
  | _ :: l => frames l

/-- A script of idle bus with timer interrupts at irregular moments. -/
def deadScript : List Ev := [⟨0xFF, 3⟩, ⟨0xFF, 0⟩, ⟨0xFF, 700⟩, ⟨0xFF, 1⟩, ⟨0xFF, 60⟩]

/-- One step of the CRC-7 with generator polynomial `x^7 + x^3 + 1`: the 7-bit register
`crc` takes in one message bit. -/
def crc7Bit (crc bit : Nat) : Nat :=
  let fb := ((crc >>> 6) ^^^ bit) &&& 1
  let c := (crc <<< 1) &&& 0x7F
  if fb = 1 then c ^^^ 0x09 else c

/-- The CRC-7 register takes in one byte, most significant bit first. -/
def crc7Byte (crc b : Nat) : Nat :=
  [7, 6, 5, 4, 3, 2, 1, 0].foldl (fun c i => crc7Bit c ((b >>> i) &&& 1)) crc

/-- The CRC-7 of a byte string: polynomial `x^7 + x^3 + 1`, initial value 0. -/
def crc7 (l : List Nat) : Nat := l.foldl crc7Byte 0

/-- The commands with their arguments at the call sites of `SD_SendCommand` and
`SD_SendACommand` in `SD_Init` and `SD_ReadConfiguration`. -/
def initCmds (k : Hdr) : List (Nat × Nat) :=
  [(k.GO_IDLE_STATE, 0), (k.SEND_IF_COND, 0x1AA), (k.APP_CMD, 0),
    (k.SD_SEND_OP_COND, 0x40000000), (k.SD_SEND_OP_COND, 0), (k.READ_OCR, 0),
    (k.SEND_OP_COND, 0), (k.SET_BLOCKLEN, k.SECTOR_SIZE), (k.SEND_CID, 0), (k.SEND_CSD, 0),
    (k.SD_STATUS, 0)]

/-- The bytes of the frames of a sequence of commands. -/
def framesOf (k : Hdr) : List (Nat × Nat) → List Nat
  | [] => []
  | c :: cs => frameBytes k (c.1 % 256) (c.2 % 2 ^ 32) ++ framesOf k cs

/-- From bus log `l` to bus log `l'` the bytes transmitted are the frames of commands
taken from `initCmds`. -/
def Issued (k : Hdr) (l l' : List BusEv) : Prop :=
  ∃ cs, (∀ c ∈ cs, c ∈ initCmds k) ∧ sent l' = sent l ++ framesOf k cs

/-- A card that accepts the multiple block read command, sends no data token for 100 ms
and then keeps the bus low for another 500 ms. -/
def stopScript : List Ev :=
  cmdScript [0x00] ++ [⟨0x00, 10⟩] ++ quiet [0x00] ++ [⟨0x00, 50⟩]

/-- The driver after a successful `disk_initialize` on the high-capacity card, the card
then behaving as in `stopScript`. -/
def cardReadyStop : Drv :=
  ( MMC_disk_initialize stdHdr
    (Drv.init stdHdr (initScriptHC ++ configScriptHC ++ stopScript))).2

/-- The multiple block read command of `SD_ReadSector`, with its response. -/
def SD_ReadSector_multi (k : Hdr) (sect : Nat) (s : Drv) : Nat × Option Bytes × Drv :=
  SD_SendCommand k k.READ_MULTIPLE_BLOCK (sectAddr k s sect) none 0 s

/-- The result of the readiness wait that `SD_ReadSector` makes after the stop command
of a multiple block read. -/
def SD_ReadSector_wait (k : Hdr) (sect : Nat) (buf : Bytes) (cnt : Nat) (s : Drv) : Bool :=
  (SD_WaitForReady
    (SD_SendCommand k k.STOP_TRANSMISSION 0 none 0
      (SD_ReadSector_loop k (cnt % 2 ^ 32) buf 0 (SD_ReadSector_multi k sect s).2.2).2.2).2.2).1

/-- The multiple block write command of `SD_WriteSector`, with its response. -/
def SD_WriteSector_multi (k : Hdr) (sect : Nat) (s : Drv) : Nat × Option Bytes × Drv :=
  SD_SendCommand k k.WRITE_MULTIPLE_BLOCK (sectAddr k s sect) none 0 s

/-- The result of the readiness wait that `SD_WriteSector` makes after the stop token of
a multiple block write. -/
def SD_WriteSector_wait (k : Hdr) (sect : Nat) (buf : Bytes) (cnt : Nat) (s : Drv) : Bool :=
  (SD_WaitForReady
    (SendByte 0xFD
      (SD_WriteSector_loop k buf (cnt % 2 ^ 32) 0 (SD_WriteSector_multi k sect s).2.2).2)).1

/-- A card that accepts the multiple block read command, sends two blocks of 512 bytes,
accepts the stop command and is ready at once. -/
def twoBlockScript : List Ev :=
  cmdScript [0x00] ++ blockScript (List.replicate 512 0xA5) ++
    blockScript (List.replicate 512 0x5A) ++ cmdScript [0x00] ++ idle 3

/-- A card that accepts the multiple block read command, sends one block of 512 bytes
and then no data token for 100 ms. -/
def oneBlockScript : List Ev :=
  cmdScript [0x00] ++ blockScript (List.replicate 512 0xA5) ++ [⟨0x00, 10⟩]

/-- The driver after a successful `disk_initialize` on the high-capacity card, the card
then behaving as in `twoBlockScript`. -/
def cardReadyTwo : Drv := { cardReady with env := twoBlockScript }

/-- The driver after a successful `disk_initialize` on the high-capacity card, the card
then behaving as in `oneBlockScript`. -/
def cardReadyOne : Drv := { cardReady with env := oneBlockScript }

/-- The reset command (CMD0) of `SD_Init`, issued after the power-up clocks, with its
response. -/
def SD_Init_reset (k : Hdr) (s : Drv) : Nat × Option Bytes × Drv :=
  SD_SendCommand k k.GO_IDLE_STATE 0 none 0
    (SD_Init_clocks (poke (fun _ => 0) 0 0xFF) 10
      (SSELUnselect (setCardType s k.CARDTYPE_UNKNOWN)))

/-- A card that is clocked at power-up and then keeps the bus low: the reset command
finds it busy for 500 ms. -/
def resetBusyScript : List Ev := idle 11 ++ busyScript

/-- A card that answers the reset command with `0x05` (idle, illegal command). -/
def resetIllegalScript : List Ev := idle 11 ++ cmdScript [0x05]

/-- The interface-condition command (CMD8) of `SD_Init`, issued after the reset command,
with its response and the buffer that receives the four bytes that follow. -/
def SD_Init_ifcond (k : Hdr) (s : Drv) : Nat × Option Bytes × Drv :=
  SD_SendCommand k k.SEND_IF_COND 0x1AA (some (poke (fun _ => 0) 0 0xFF)) 4
    (SD_Init_reset k s).2.2

/-- The array `buf` of `SD_Init` after the interface-condition command. -/
def SD_Init_echo (k : Hdr) (s : Drv) : Bytes :=
  (SD_Init_ifcond k s).2.1.getD (poke (fun _ => 0) 0 0xFF)

/-- The state of `SD_Init` after the assignment `Timer1 = 100` that follows the
interface-condition command. -/
def SD_Init_timed (k : Hdr) (s : Drv) : Drv := { (SD_Init_ifcond k s).2.2 with Timer1 := 100 }

/-- The negotiation loop of the V2 path of `SD_Init`, entered after `Timer1 = 100`. -/
def SD_Init_opcond (k : Hdr) (s : Drv) : Bool × Drv :=
  SD_Init_v2loop k ((SD_Init_timed k s).env.length + (SD_Init_timed k s).Timer1 + 1)
    (SD_Init_timed k s)

/-- The value of `r1` when the negotiation loop of the V2 path is left: the response of
the last operating-condition app-command (`SD_Init_v2loop` with the response kept). -/
def SD_Init_v2loop_r1 (k : Hdr) : Nat → Nat → Drv → Nat
  | 0, r1, _ => r1
  | fuel + 1, _, s =>
    let a := SD_SendACommand k k.SD_SEND_OP_COND 0x40000000 none 0 s
    if a.1 = 0x00 then a.1
    else if a.1 > 0x01 then a.1
    else if a.2.2.Timer1 ≠ 0 then SD_Init_v2loop_r1 k fuel a.1 a.2.2
    else a.1

/-- The response of the last operating-condition app-command of the V2 path of
`SD_Init`. -/
def SD_Init_opcond_r1 (k : Hdr) (s : Drv) : Nat :=
  SD_Init_v2loop_r1 k ((SD_Init_timed k s).env.length + (SD_Init_timed k s).Timer1 + 1)
    (SD_Init_ifcond k s).1 (SD_Init_timed k s)

/-- The read-OCR command (CMD58) of the V2 path of `SD_Init`, with its response and the
buffer that receives the OCR. -/
def SD_Init_ocr (k : Hdr) (s : Drv) : Nat × Option Bytes × Drv :=
  SD_SendCommand k k.READ_OCR 0 (some (SD_Init_echo k s)) 4 (SD_Init_opcond k s).2

/-- The first byte of the OCR read on the V2 path of `SD_Init` (`buf[0]`). -/
def SD_Init_ocr0 (k : Hdr) (s : Drv) : Nat :=
  ((SD_Init_ocr k s).2.1.getD (SD_Init_echo k s)) 0

/-- The set-block-length command (CMD16) that `SD_Init` issues on the V2 path once
`CardType` is SDv2-SC, with its response. -/
def SD_Init_setblocklen (k : Hdr) (s : Drv) : Nat × Option Bytes × Drv :=
  SD_SendCommand k k.SET_BLOCKLEN k.SECTOR_SIZE none 0
    (setCardType (SD_Init_ocr k s).2.2 k.CARDTYPE_SDV2_SC)

/-- A standard-capacity SD version 2 card answering `SD_Init`: power-up clocks, CMD0,
CMD8 with echo, ACMD41 busy once and then ready, CMD58 with the capacity bit clear, CMD16
accepted. -/
def initScriptSC : List Ev :=
  idle 11 ++ cmdScript [0x01] ++ cmdScript [0x01, 0x00, 0x00, 0x01, 0xAA] ++ cmdScript [0x01] ++
    cmdScript [0x01] ++ cmdScript [0x01] ++ cmdScript [0x00] ++
    cmdScript [0x00, 0x80, 0xFF, 0x80, 0x00] ++ cmdScript [0x00] ++ idle 1

/-- The same card refusing CMD16 with `0x04` (illegal command). -/
def initScriptSCrefused : List Ev :=
  idle 11 ++ cmdScript [0x01] ++ cmdScript [0x01, 0x00, 0x00, 0x01, 0xAA] ++ cmdScript [0x01] ++
    cmdScript [0x01] ++ cmdScript [0x01] ++ cmdScript [0x00] ++
    cmdScript [0x00, 0x80, 0xFF, 0x80, 0x00] ++ cmdScript [0x04] ++ idle 1

/-- The build of the driver with `USE_FIFO` defined (`true`) or not defined (`false`), the
other header constants as in `k`. -/
def withFifo (k : Hdr) (b : Bool) : Hdr := { k with USE_FIFO := b }

/-- A card that sends one data block of 512 bytes `0xA5`: start token, data, two CRC
bytes. -/
def blockCard : Drv := Drv.init stdHdr (blockScript (List.replicate 512 0xA5))

/-- A card answering `SD_ReadConfiguration` with an OCR, a CID and a CSD of sixteen zero
bytes. -/
def configScriptZero : List Ev :=
  cmdScript [0x00, 0x80, 0xFF, 0x80, 0x00] ++ cmdScript [0x00] ++
    blockScript (List.replicate 16 0x33) ++ cmdScript [0x00] ++
    blockScript (List.replicate 16 0x00) ++ idle 1

/-- The SD version 1 card after `SD_Init`, about to send the all-zero CSD. -/
def cardSD1Zero : Drv :=
  (SD_Init stdHdr (Drv.init stdHdr (initScriptSD1 ++ configScriptZero))).2

/-- The CSD bytes of `csdSC` as a register content. -/
def csdSCBytes : Bytes := fun i => csdSC.getD i 0

/-- The state in which `SD_ReadConfiguration` enters `switch (CardType)` once the three
register reads have succeeded: OCR, CID and CSD stored, sector size and count set. -/
def SD_ReadConfiguration_regs (k : Hdr) (s : Drv) : Drv :=
  let o := SD_SendCommand k k.READ_OCR 0 (some s.CardConfig.ocr) 4 s
  let s1 := setOcr o.2.2 (o.2.1.getD s.CardConfig.ocr)
  let c := SD_SendCommand k k.SEND_CID 0 none 0 s1
  let r := SD_RecvDataBlock k c.2.2.CardConfig.cid 0 16 c.2.2
  let s2 := setCid r.2.2 r.2.1
  let d := SD_SendCommand k k.SEND_CSD 0 none 0 s2
  let q := SD_RecvDataBlock k d.2.2.CardConfig.csd 0 16 d.2.2
  setGeometry (setCsd q.2.2 q.2.1)

/-- The `SD_STATUS` app-command (ACMD13) that `SD_ReadConfiguration` issues for an SD
version 2 card, with its response and the local array `buf`. -/
def SD_ReadConfiguration_acmd13 (k : Hdr) (s : Drv) : Nat × Option Bytes × Drv :=
  SD_SendACommand k k.SD_STATUS 0 (some (fun _ => 0)) 1 (SD_ReadConfiguration_regs k s)

/-- The call `SD_RecvDataBlock(buf, 16)` with which `SD_ReadConfiguration` receives the
first 16 bytes of the SD status after the `SD_STATUS` app-command: result, `buf` and
state. -/
def SD_ReadConfiguration_status16 (k : Hdr) (s : Drv) : Bool × Bytes × Drv :=
  SD_RecvDataBlock k ((SD_ReadConfiguration_acmd13 k s).2.1.getD (fun _ => 0)) 0 16
    (SD_ReadConfiguration_acmd13 k s).2.2

/-- The call number `i` (counted from 0) in a row of calls `SD_RecvDataBlock(buf,
SECTOR_SIZE); buf += SECTOR_SIZE` that starts in state `s` with `buf` at offset `off`:
result, buffer and state of that call. -/
def SD_ReadSector_nth (k : Hdr) : Nat → Bytes → Nat → Drv → Bool × Bytes × Drv
  | 0, buf, off, s => SD_RecvDataBlock k buf off k.SECTOR_SIZE s
  | i + 1, buf, off, s =>
    let r := SD_RecvDataBlock k buf off k.SECTOR_SIZE s
    SD_ReadSector_nth k i r.2.1 (off + k.SECTOR_SIZE) r.2.2

/-- The transfer of block `i` (counted from 0) of a multiple block `SD_ReadSector` whose
command was accepted: the call of `SD_RecvDataBlock` that follows those for the blocks
before it. -/
def SD_ReadSector_block (k : Hdr) (sect : Nat) (buf : Bytes) (i : Nat) (s : Drv) :
    Bool × Bytes × Drv :=
  SD_ReadSector_nth k i buf 0 (SD_ReadSector_multi k sect s).2.2

/-- The call number `i` (counted from 0) in a row of calls `SD_SendDataBlock(buf, 0xFC,
SECTOR_SIZE); buf += SECTOR_SIZE` that starts in state `s` with `buf` at offset `off`:
result and state of that call. -/
def SD_WriteSector_nth (k : Hdr) (buf : Bytes) : Nat → Nat → Drv → Bool × Drv
  | 0, off, s => SD_SendDataBlock k buf off 0xFC k.SECTOR_SIZE s
  | i + 1, off, s =>
    SD_WriteSector_nth k buf i (off + k.SECTOR_SIZE)
      (SD_SendDataBlock k buf off 0xFC k.SECTOR_SIZE s).2

/-- The transfer of block `i` (counted from 0) of a multiple block `SD_WriteSector` whose
command was accepted: the call of `SD_SendDataBlock` that follows those for the blocks
before it. -/
def SD_WriteSector_block (k : Hdr) (sect : Nat) (buf : Bytes) (i : Nat) (s : Drv) :
    Bool × Drv :=
  SD_WriteSector_nth k buf i 0 (SD_WriteSector_multi k sect s).2.2

/-- A card that accepts the multiple block read command, sends no data token for 100 ms
and then starts a data block with the bytes `0xA5`. -/
def lateBlockScript : List Ev :=
  cmdScript [0x00] ++ [⟨0x00, 10⟩] ++ blockScript (List.replicate 8 0xA5)

/-- The driver after a successful `disk_initialize` on the high-capacity card, the card
then behaving as in `lateBlockScript`. -/
def cardReadyLate : Drv := { cardReady with env := lateBlockScript }

/-! ## The size fields in the words of the specification -/

/-- The 22-bit size field of a version 2 CSD: the low 6 bits of byte 7, byte 8, byte 9. -/
def specV2Field (csd : Bytes) : Nat := (csd 7 &&& 0x3F) * 2 ^ 16 + csd 8 * 2 ^ 8 + csd 9

/-- The 12-bit size field of a version 1 CSD: the low 2 bits of byte 6, byte 7, the top
2 bits of byte 8. -/
def specV1Size (csd : Bytes) : Nat := (csd 6 &&& 0x3) * 2 ^ 10 + csd 7 * 2 ^ 2 + csd 8 / 2 ^ 6

/-- The 3-bit multiplier field of a version 1 CSD: the low 2 bits of byte 9, the top bit
of byte 10. -/
def specV1Mult (csd : Bytes) : Nat := (csd 9 &&& 0x3) * 2 + csd 10 / 2 ^ 7

/-- The read block length exponent of a version 1 CSD: the low nibble of byte 5. -/
def specV1ReadLen (csd : Bytes) : Nat := csd 5 &&& 0xF

/-! ## Basic facts about frames and timers -/

theorem disk_timerproc_eq (s : Drv) :
    disk_timerproc s = { s with Timer1 := s.Timer1 - 1, Timer2 := s.Timer2 - 1 } := by
  obtain ⟨st, t1, t2, ct, cc, env, log⟩ := s
  unfold disk_timerproc
  by_cases h1 : t1 = 0 <;> by_cases h2 : t2 = 0 <;> simp [h1, h2]

theorem ticks_eq (n : Nat) (s : Drv) :
    ticks n s = { s with Timer1 := s.Timer1 - n, Timer2 := s.Timer2 - n } := by
  induction n generalizing s with
  | zero => simp [ticks]
  | succ n ih =>
    simp only [ticks, ih, disk_timerproc_eq]
    congr 1 <;> omega

@[simp] theorem SSP_frame_keeps (s : Drv) :
    (SSP_frame s).2.status = s.status ∧ (SSP_frame s).2.CardType = s.CardType ∧
    (SSP_frame s).2.CardConfig = s.CardConfig ∧ (SSP_frame s).2.log = s.log := by
  unfold SSP_frame
  cases s.env <;> simp [ticks_eq]

@[simp] theorem SendByte_keeps (b : Nat) (s : Drv) :
    (SendByte b s).status = s.status ∧ (SendByte b s).CardType = s.CardType ∧
    (SendByte b s).CardConfig = s.CardConfig := by
  simp [SendByte]

@[simp] theorem ReceiveByte_keeps (s : Drv) :
    (ReceiveByte s).2.status = s.status ∧ (ReceiveByte s).2.CardType = s.CardType ∧
    (ReceiveByte s).2.CardConfig = s.CardConfig := by
  simp [ReceiveByte]

/-! ## Frame lemmas: the transfer layer leaves `status`, `CardType`, `CardConfig` alone -/

@[simp] theorem sendFrames_keeps (data : Bytes) (off n : Nat) (s : Drv) :
    (sendFrames data off n s).status = s.status ∧
    (sendFrames data off n s).CardType = s.CardType ∧
    (sendFrames data off n s).CardConfig = s.CardConfig := by
  induction n generalizing off s with
  | zero => simp [sendFrames]
  | succ n ih => simp [sendFrames, ih]

@[simp] theorem recvFrames_keeps (data : Bytes) (off n : Nat) (s : Drv) :
    (recvFrames data off n s).2.status = s.status ∧
    (recvFrames data off n s).2.CardType = s.CardType ∧
    (recvFrames data off n s).2.CardConfig = s.CardConfig := by
  induction n generalizing data off s with
  | zero => simp [recvFrames]
  | succ n ih => simp [recvFrames, ih]

@[simp] theorem SendDatatoSDCard_keeps (data : Bytes) (off size : Nat) (s : Drv) :
    (SendDatatoSDCard data off size s).status = s.status ∧
    (SendDatatoSDCard data off size s).CardType = s.CardType ∧
    (SendDatatoSDCard data off size s).CardConfig = s.CardConfig := by
  simp [SendDatatoSDCard]

@[simp] theorem ReceiveDatafromSDCard_keeps (data : Bytes) (off size : Nat) (s : Drv) :
    (ReceiveDatafromSDCard data off size s).2.status = s.status ∧
    (ReceiveDatafromSDCard data off size s).2.CardType = s.CardType ∧
    (ReceiveDatafromSDCard data off size s).2.CardConfig = s.CardConfig := by
  simp [ReceiveDatafromSDCard]

@[simp] theorem ReceiveDiscard_keeps (size : Nat) (s : Drv) :
    (ReceiveDiscard size s).status = s.status ∧
    (ReceiveDiscard size s).CardType = s.CardType ∧
    (ReceiveDiscard size s).CardConfig = s.CardConfig := by
  simp [ReceiveDiscard]

@[simp] theorem SSELSelect_keeps (s : Drv) :
    (SSELSelect s).status = s.status ∧ (SSELSelect s).CardType = s.CardType ∧
    (SSELSelect s).CardConfig = s.CardConfig := by
  simp [SSELSelect]

@[simp] theorem SSELUnselect_keeps (s : Drv) :
    (SSELUnselect s).status = s.status ∧ (SSELUnselect s).CardType = s.CardType ∧
    (SSELUnselect s).CardConfig = s.CardConfig := by
  simp [SSELUnselect]

@[simp] theorem SD_WaitForReady_loop_keeps (fuel : Nat) (s : Drv) :
    (SD_WaitForReady_loop fuel s).2.status = s.status ∧
    (SD_WaitForReady_loop fuel s).2.CardType = s.CardType ∧
    (SD_WaitForReady_loop fuel s).2.CardConfig = s.CardConfig := by
  induction fuel generalizing s with
  | zero => simp [SD_WaitForReady_loop]
  | succ n ih =>
    simp only [SD_WaitForReady_loop]
    split_ifs <;> simp [ih]

@[simp] theorem SD_WaitForReady_keeps (s : Drv) :
    (SD_WaitForReady s).2.status = s.status ∧
    (SD_WaitForReady s).2.CardType = s.CardType ∧
    (SD_WaitForReady s).2.CardConfig = s.CardConfig := by
  simp [SD_WaitForReady]

@[simp] theorem SD_SendCommand_poll_keeps (i r1 : Nat) (s : Drv) :
    (SD_SendCommand_poll i r1 s).2.2.status = s.status ∧
    (SD_SendCommand_poll i r1 s).2.2.CardType = s.CardType ∧
    (SD_SendCommand_poll i r1 s).2.2.CardConfig = s.CardConfig := by
  induction i generalizing r1 s with
  | zero => simp [SD_SendCommand_poll]
  | succ n ih =>
    simp only [SD_SendCommand_poll]
    split_ifs <;> simp [ih]

@[simp] theorem SD_SendCommand_rest_keeps (n : Nat) (buf : Bytes) (off : Nat) (s : Drv) :
    (SD_SendCommand_rest n buf off s).2.status = s.status ∧
    (SD_SendCommand_rest n buf off s).2.CardType = s.CardType ∧
    (SD_SendCommand_rest n buf off s).2.CardConfig = s.CardConfig := by
  induction n generalizing buf off s with
  | zero => simp [SD_SendCommand_rest]
  | succ n ih => simp [SD_SendCommand_rest, ih]

@[simp] theorem sendFrame_keeps (k : Hdr) (cmd arg : Nat) (s : Drv) :
    (sendFrame k cmd arg s).status = s.status ∧
    (sendFrame k cmd arg s).CardType = s.CardType ∧
    (sendFrame k cmd arg s).CardConfig = s.CardConfig := by
  simp [sendFrame]

@[simp] theorem SD_SendCommand_keeps (k : Hdr) (cmd arg : Nat) (buf : Option Bytes)
    (len : Nat) (s : Drv) :
    (SD_SendCommand k cmd arg buf len s).2.2.status = s.status ∧
    (SD_SendCommand k cmd arg buf len s).2.2.CardType = s.CardType ∧
    (SD_SendCommand k cmd arg buf len s).2.2.CardConfig = s.CardConfig := by
  simp only [SD_SendCommand]
  split_ifs <;> simp

@[simp] theorem SD_SendACommand_keeps (k : Hdr) (cmd arg : Nat) (buf : Option Bytes)
    (len : Nat) (s : Drv) :
    (SD_SendACommand k cmd arg buf len s).2.2.status = s.status ∧
    (SD_SendACommand k cmd arg buf len s).2.2.CardType = s.CardType ∧
    (SD_SendACommand k cmd arg buf len s).2.2.CardConfig = s.CardConfig := by
  simp only [SD_SendACommand]
  split_ifs <;> simp

@[simp] theorem SD_RecvDataBlock_token_keeps (fuel tok : Nat) (s : Drv) :
    (SD_RecvDataBlock_token fuel tok s).2.status = s.status ∧
    (SD_RecvDataBlock_token fuel tok s).2.CardType = s.CardType ∧
    (SD_RecvDataBlock_token fuel tok s).2.CardConfig = s.CardConfig := by
  induction fuel generalizing tok s with
  | zero => simp [SD_RecvDataBlock_token]
  | succ n ih =>
    simp only [SD_RecvDataBlock_token]
    split_ifs <;> simp [ih]

@[simp] theorem SD_RecvDataBlock_bytes_keeps (n : Nat) (buf : Bytes) (i : Nat) (s : Drv) :
    (SD_RecvDataBlock_bytes n buf i s).2.status = s.status ∧
    (SD_RecvDataBlock_bytes n buf i s).2.CardType = s.CardType ∧
    (SD_RecvDataBlock_bytes n buf i s).2.CardConfig = s.CardConfig := by
  induction n generalizing buf i s with
  | zero => simp [SD_RecvDataBlock_bytes]
  | succ n ih => simp [SD_RecvDataBlock_bytes, ih]

@[simp] theorem SD_RecvDataBlock_keeps (k : Hdr) (buf : Bytes) (off len : Nat) (s : Drv) :
    (SD_RecvDataBlock k buf off len s).2.2.status = s.status ∧
    (SD_RecvDataBlock k buf off len s).2.2.CardType = s.CardType ∧
    (SD_RecvDataBlock k buf off len s).2.2.CardConfig = s.CardConfig := by
  simp only [SD_RecvDataBlock]
  split_ifs <;> simp

@[simp] theorem SD_SendDataBlock_bytes_keeps (n : Nat) (buf : Bytes) (i : Nat) (s : Drv) :
    (SD_SendDataBlock_bytes n buf i s).status = s.status ∧
    (SD_SendDataBlock_bytes n buf i s).CardType = s.CardType ∧
    (SD_SendDataBlock_bytes n buf i s).CardConfig = s.CardConfig := by
  induction n generalizing i s with
  | zero => simp [SD_SendDataBlock_bytes]
  | succ n ih => simp [SD_SendDataBlock_bytes, ih]

@[simp] theorem SD_SendDataBlock_busy_keeps (fuel recv : Nat) (s : Drv) :
    (SD_SendDataBlock_busy fuel recv s).2.status = s.status ∧
    (SD_SendDataBlock_busy fuel recv s).2.CardType = s.CardType ∧
    (SD_SendDataBlock_busy fuel recv s).2.CardConfig = s.CardConfig := by
  induction fuel generalizing recv s with
  | zero => simp [SD_SendDataBlock_busy]
  | succ n ih =>
    simp only [SD_SendDataBlock_busy]
    split_ifs <;> simp [ih]

@[simp] theorem SD_SendDataBlock_keeps (k : Hdr) (buf : Bytes) (off tkn len : Nat) (s : Drv) :
    (SD_SendDataBlock k buf off tkn len s).2.status = s.status ∧
    (SD_SendDataBlock k buf off tkn len s).2.CardType = s.CardType ∧
    (SD_SendDataBlock k buf off tkn len s).2.CardConfig = s.CardConfig := by
  simp only [SD_SendDataBlock]
  split_ifs <;> simp

@[simp] theorem SD_ReadSector_loop_keeps (k : Hdr) (cnt : Nat) (buf : Bytes) (off : Nat)
    (s : Drv) :
    (SD_ReadSector_loop k cnt buf off s).2.2.status = s.status ∧
    (SD_ReadSector_loop k cnt buf off s).2.2.CardType = s.CardType ∧
    (SD_ReadSector_loop k cnt buf off s).2.2.CardConfig = s.CardConfig := by
  induction cnt generalizing buf off s with
  | zero => simp [SD_ReadSector_loop]
  | succ n ih =>
    simp only [SD_ReadSector_loop]
    split_ifs <;> simp [ih]

@[simp] theorem SD_ReadSector_keeps (k : Hdr) (sect : Nat) (buf : Bytes) (cnt : Nat)
    (s : Drv) :
    (SD_ReadSector k sect buf cnt s).2.2.status = s.status ∧
    (SD_ReadSector k sect buf cnt s).2.2.CardType = s.CardType ∧
    (SD_ReadSector k sect buf cnt s).2.2.CardConfig = s.CardConfig := by
  simp only [SD_ReadSector]
  split_ifs <;> simp

@[simp] theorem SD_WriteSector_loop_keeps (k : Hdr) (buf : Bytes) (cnt off : Nat) (s : Drv) :
    (SD_WriteSector_loop k buf cnt off s).2.status = s.status ∧
    (SD_WriteSector_loop k buf cnt off s).2.CardType = s.CardType ∧
    (SD_WriteSector_loop k buf cnt off s).2.CardConfig = s.CardConfig := by
  induction cnt generalizing off s with
  | zero => simp [SD_WriteSector_loop]
  | succ n ih =>
    simp only [SD_WriteSector_loop]
    split_ifs <;> simp [ih]

@[simp] theorem SD_WriteSector_keeps (k : Hdr) (sect : Nat) (buf : Bytes) (cnt : Nat)
    (s : Drv) :
    (SD_WriteSector k sect buf cnt s).2.status = s.status ∧
    (SD_WriteSector k sect buf cnt s).2.CardType = s.CardType ∧
    (SD_WriteSector k sect buf cnt s).2.CardConfig = s.CardConfig := by
  simp only [SD_WriteSector]
  split_ifs <;> simp

@[simp] theorem purge_keeps (i : Nat) (s : Drv) :
    (purge i s).status = s.status ∧ (purge i s).CardType = s.CardType ∧
    (purge i s).CardConfig = s.CardConfig := by
  induction i generalizing s with
  | zero => simp [purge]
  | succ n ih => simp [purge, ih]

@[simp] theorem SD_Init_clocks_keeps (buf : Bytes) (n : Nat) (s : Drv) :
    (SD_Init_clocks buf n s).status = s.status ∧
    (SD_Init_clocks buf n s).CardType = s.CardType ∧
    (SD_Init_clocks buf n s).CardConfig = s.CardConfig := by
  induction n generalizing s with
  | zero => simp [SD_Init_clocks]
  | succ n ih => simp [SD_Init_clocks, ih]

/-! ## `SD_Init` changes `CardType` only -/

@[simp] theorem setCardType_keeps (s : Drv) (v : Nat) :
    (setCardType s v).status = s.status ∧ (setCardType s v).CardConfig = s.CardConfig := by
  simp [setCardType]

@[simp] theorem SD_Init_v2loop_keeps (k : Hdr) (fuel : Nat) (s : Drv) :
    (SD_Init_v2loop k fuel s).2.status = s.status ∧
    (SD_Init_v2loop k fuel s).2.CardType = s.CardType ∧
    (SD_Init_v2loop k fuel s).2.CardConfig = s.CardConfig := by
  induction fuel generalizing s with
  | zero => simp [SD_Init_v2loop]
  | succ n ih =>
    simp only [SD_Init_v2loop]
    split_ifs <;> simp [ih]

@[simp] theorem SD_Init_mmcloop_keeps (k : Hdr) (fuel : Nat) (s : Drv) :
    (SD_Init_mmcloop k fuel s).status = s.status ∧
    (SD_Init_mmcloop k fuel s).CardType = s.CardType ∧
    (SD_Init_mmcloop k fuel s).CardConfig = s.CardConfig := by
  induction fuel generalizing s with
  | zero => simp [SD_Init_mmcloop]
  | succ n ih =>
    simp only [SD_Init_mmcloop]
    split_ifs <;> simp [ih]

@[simp] theorem SD_Init_sdloop_keeps (k : Hdr) (fuel : Nat) (s : Drv) :
    (SD_Init_sdloop k fuel s).status = s.status ∧
    (SD_Init_sdloop k fuel s).CardType = s.CardType ∧
    (SD_Init_sdloop k fuel s).CardConfig = s.CardConfig := by
  induction fuel generalizing s with
  | zero => simp [SD_Init_sdloop]
  | succ n ih =>
    simp only [SD_Init_sdloop]
    split_ifs <;> simp [ih]

@[simp] theorem SD_Init_blocklen_keeps (k : Hdr) (s : Drv) :
    (SD_Init_blocklen k s).status = s.status ∧
    (SD_Init_blocklen k s).CardConfig = s.CardConfig := by
  simp only [SD_Init_blocklen]
  split_ifs <;> simp

@[simp] theorem SD_Init_v2_keeps (k : Hdr) (buf : Bytes) (s : Drv) :
    (SD_Init_v2 k buf s).status = s.status ∧
    (SD_Init_v2 k buf s).CardConfig = s.CardConfig := by
  simp only [SD_Init_v2]
  split_ifs <;> simp

@[simp] theorem SD_Init_legacy_keeps (k : Hdr) (s : Drv) :
    (SD_Init_legacy k s).status = s.status ∧
    (SD_Init_legacy k s).CardConfig = s.CardConfig := by
  simp only [SD_Init_legacy]
  split_ifs <;> simp

@[simp] theorem SD_Init_body_keeps (k : Hdr) (s : Drv) :
    (SD_Init_body k s).status = s.status ∧
    (SD_Init_body k s).CardConfig = s.CardConfig := by
  simp only [SD_Init_body]
  split_ifs <;> simp

@[simp] theorem SD_Init_keeps (k : Hdr) (s : Drv) :
    (SD_Init k s).2.status = s.status ∧ (SD_Init k s).2.CardConfig = s.CardConfig := by
  simp only [SD_Init]
  split_ifs <;> simp

/-! ## What a receive stores -/

theorem SSP_frame_byte (s : Drv) : (SSP_frame s).1 < 256 := by
  unfold SSP_frame
  cases s.env with
  | nil => simp
  | cons e es => exact Nat.mod_lt _ (by decide)

theorem ReceiveByte_byte (s : Drv) : (ReceiveByte s).1 < 256 := by
  simpa [ReceiveByte] using SSP_frame_byte s

theorem recvFrames_below (n : Nat) (data : Bytes) (off : Nat) (s : Drv) (i : Nat)
    (h : i < off) : (recvFrames data off n s).1 i = data i := by
  induction n generalizing data off s with
  | zero => simp [recvFrames]
  | succ n ih =>
    simp only [recvFrames]
    rw [ih _ _ _ (by omega)]
    simp [poke, Nat.ne_of_lt h]

theorem recvFrames_bytes (n : Nat) (data : Bytes) (off : Nat) (s : Drv) (i : Nat)
    (h1 : off ≤ i) (h2 : i < off + n) : (recvFrames data off n s).1 i < 256 := by
  induction n generalizing data off s with
  | zero => omega
  | succ n ih =>
    simp only [recvFrames]
    by_cases hi : i = off
    · rw [recvFrames_below _ _ _ _ _ (by omega)]
      simpa [poke, hi] using ReceiveByte_byte s
    · exact ih _ _ _ (by omega) (by omega)

theorem SD_RecvDataBlock_bytes_below (n : Nat) (buf : Bytes) (off : Nat) (s : Drv) (i : Nat)
    (h : i < off) : (SD_RecvDataBlock_bytes n buf off s).1 i = buf i := by
  induction n generalizing buf off s with
  | zero => simp [SD_RecvDataBlock_bytes]
  | succ n ih =>
    simp only [SD_RecvDataBlock_bytes]
    rw [ih _ _ _ (by omega)]
    simp [ReceiveDatafromSDCard, recvFrames, poke, Nat.ne_of_lt h]

theorem SD_RecvDataBlock_bytes_bytes (n : Nat) (buf : Bytes) (off : Nat) (s : Drv) (i : Nat)
    (h1 : off ≤ i) (h2 : i < off + n) : (SD_RecvDataBlock_bytes n buf off s).1 i < 256 := by
  induction n generalizing buf off s with
  | zero => omega
  | succ n ih =>
    simp only [SD_RecvDataBlock_bytes]
    by_cases hi : i = off
    · rw [SD_RecvDataBlock_bytes_below _ _ _ _ _ (by omega)]
      simpa [ReceiveDatafromSDCard, recvFrames, poke, hi] using ReceiveByte_byte s
    · exact ih _ _ _ (by omega) (by omega)

/-- A successful `SD_RecvDataBlock` of 16 bytes leaves 16 bytes in the buffer. -/
theorem SD_RecvDataBlock_16 (k : Hdr) (buf : Bytes) (s : Drv)
    (h : (SD_RecvDataBlock k buf 0 16 s).1 = true) (i : Nat) (hi : i < 16) :
    (SD_RecvDataBlock k buf 0 16 s).2.1 i < 256 := by
  have e : (16 : Nat) % 2 ^ 32 = 16 := by norm_num
  have e2 : (16 : Nat) % 256 = 16 := by norm_num
  simp only [SD_RecvDataBlock, e] at h ⊢
  split_ifs at h ⊢ with h1 h2
  · simp only [ReceiveDatafromSDCard, e2]
    generalize (SD_RecvDataBlock_token _ _ _).2 = X
    exact recvFrames_bytes 16 buf 0 X i (Nat.zero_le _) (by omega)
  · generalize (SD_RecvDataBlock_token _ _ _).2 = X
    exact SD_RecvDataBlock_bytes_bytes 16 buf 0 X i (Nat.zero_le _) (by omega)

/-! ## The configuration decoder -/

@[simp] theorem SD_ReadConfiguration_erase_keeps (k : Hdr) (s : Drv) :
    (SD_ReadConfiguration_erase k s).2.status = s.status ∧
    (SD_ReadConfiguration_erase k s).2.CardType = s.CardType ∧
    (SD_ReadConfiguration_erase k s).2.CardConfig.sectorsize = s.CardConfig.sectorsize ∧
    (SD_ReadConfiguration_erase k s).2.CardConfig.sectorcnt = s.CardConfig.sectorcnt ∧
    (SD_ReadConfiguration_erase k s).2.CardConfig.ocr = s.CardConfig.ocr ∧
    (SD_ReadConfiguration_erase k s).2.CardConfig.cid = s.CardConfig.cid ∧
    (SD_ReadConfiguration_erase k s).2.CardConfig.csd = s.CardConfig.csd ∧
    (SD_ReadConfiguration_erase k s).2.CardConfig.status = s.CardConfig.status := by
  simp only [SD_ReadConfiguration_erase]
  split_ifs <;> simp [setBlocksize]

/-- When the body of `SD_ReadConfiguration` succeeds, it has passed through the geometry
assignments with a freshly received CSD in place. -/
theorem SD_ReadConfiguration_body_ok (k : Hdr) (s : Drv)
    (h : (SD_ReadConfiguration_body k s).1 = true) :
    ∃ s3 : Drv, (∀ i, i < 16 → s3.CardConfig.csd i < 256) ∧ s3.status = s.status ∧
      SD_ReadConfiguration_body k s = SD_ReadConfiguration_erase k (setGeometry s3) := by
  simp only [SD_ReadConfiguration_body] at h ⊢
  split_ifs at h ⊢ with h1 h2 h3 h4 h5
  refine ⟨_, ?_, ?_, rfl⟩
  · intro i hi
    simp only [setCsd]
    exact SD_RecvDataBlock_16 k _ _ (by simpa using h5) i hi
  · simp [setCsd, setCid, setOcr]

/-- After a successful `SD_ReadConfiguration` the sector size is 512, the sector count is
the one computed from the stored CSD, and the stored CSD consists of bytes. -/
theorem SD_ReadConfiguration_ok (k : Hdr) (s : Drv)
    (h : (SD_ReadConfiguration k s).1 = true) :
    (SD_ReadConfiguration k s).2.CardConfig.sectorsize = 512 ∧
    (SD_ReadConfiguration k s).2.CardConfig.sectorcnt =
      csdSectorCount (SD_ReadConfiguration k s).2.CardConfig.csd ∧
    ∀ i, i < 16 → (SD_ReadConfiguration k s).2.CardConfig.csd i < 256 := by
  simp only [SD_ReadConfiguration] at h ⊢
  obtain ⟨s3, hb, -, he⟩ := SD_ReadConfiguration_body_ok k s h
  rw [he]
  simp only [SSELUnselect_keeps, SD_ReadConfiguration_erase_keeps]
  simpa [setGeometry] using hb

/-! ## Sector count (C1, C2, C3) -/

theorem and_mask (x n : Nat) : x &&& (2 ^ n - 1) = x % 2 ^ n :=
  Nat.and_pow_two_sub_one_eq_mod x n

theorem csdV2Size_eq (csd : Bytes) (h8 : csd 8 < 256) (h9 : csd 9 < 256) :
    csdV2Size csd = specV2Field csd := by
  have e1 := and_mask ((csd 7 <<< 16 + csd 8 <<< 8 + csd 9) % 2 ^ 32) 22
  have e2 := and_mask (csd 7) 6
  simp only [csdV2Size, specV2Field]
  norm_num [Nat.shiftLeft_eq] at e1 e2 ⊢
  rw [e1, e2]
  omega

set_option maxRecDepth 100000 in
theorem top_bit : ∀ b, b < 256 → (b &&& 0x80) >>> 7 = b / 2 ^ 7 := by decide

theorem csdV1Size_eq (csd : Bytes) (h7 : csd 7 < 256) (h8 : csd 8 < 256) :
    csdV1Size csd = specV1Size csd := by
  have e1 := and_mask (((csd 6 &&& 0x3) <<< 10 + csd 7 <<< 2 + csd 8 >>> 6) % 2 ^ 32) 12
  have e2 : csd 6 &&& 0x3 ≤ 3 := Nat.and_le_right
  simp only [csdV1Size, specV1Size]
  norm_num [Nat.shiftLeft_eq, Nat.shiftRight_eq_div_pow] at e1 e2 ⊢
  rw [e1]
  omega

theorem csdV1Mult_eq (csd : Bytes) (h10 : csd 10 < 256) : csdV1Mult csd = specV1Mult csd := by
  simp only [csdV1Mult, specV1Mult, top_bit _ h10, Nat.shiftLeft_eq]

theorem specV1_bounds (csd : Bytes) (h7 : csd 7 < 256) (h8 : csd 8 < 256)
    (h10 : csd 10 < 256) :
    specV1Size csd + 1 ≤ 2 ^ 12 ∧ specV1Mult csd ≤ 7 ∧ specV1ReadLen csd ≤ 15 := by
  have e1 : csd 6 &&& 0x3 ≤ 3 := Nat.and_le_right
  have e2 : csd 9 &&& 0x3 ≤ 3 := Nat.and_le_right
  have e3 : csd 5 &&& 0xF ≤ 15 := Nat.and_le_right
  simp only [specV1Size, specV1Mult, specV1ReadLen]
  norm_num
  omega

/-- C1: after a successful `SD_ReadConfiguration` that stored a version 2 CSD (top two
bits of byte 0 equal to 01), the stored sector count is `(size + 1) * 1024` modulo `2^32`,
where `size` is the 22-bit field made of the low 6 bits of byte 7, byte 8 and byte 9; it
is the exact product whenever `size` is below `0x3FFFFF`. -/
theorem csd_v2_sector_count (k : Hdr) (s : Drv)
    (hok : (SD_ReadConfiguration k s).1 = true)
    (hv2 : ((SD_ReadConfiguration k s).2.CardConfig.csd 0 >>> 6) &&& 0x3 = 0x1) :
    (SD_ReadConfiguration k s).2.CardConfig.sectorcnt =
      ((specV2Field (SD_ReadConfiguration k s).2.CardConfig.csd + 1) * 1024) % 2 ^ 32 ∧
    (specV2Field (SD_ReadConfiguration k s).2.CardConfig.csd < 0x3FFFFF →
      (SD_ReadConfiguration k s).2.CardConfig.sectorcnt =
        (specV2Field (SD_ReadConfiguration k s).2.CardConfig.csd + 1) * 1024) := by
  obtain ⟨-, hcnt, hb⟩ := SD_ReadConfiguration_ok k s hok
  generalize (SD_ReadConfiguration k s).2.CardConfig = c at *
  have hsz := csdV2Size_eq c.csd (hb 8 (by norm_num)) (hb 9 (by norm_num))
  have h1 : c.sectorcnt = ((specV2Field c.csd + 1) * 1024) % 2 ^ 32 := by
    rw [hcnt, csdSectorCount, if_pos hv2, hsz]
  refine ⟨h1, fun hlt => ?_⟩
  rw [h1]
  apply Nat.mod_eq_of_lt
  norm_num at hlt ⊢
  omega

set_option maxRecDepth 100000 in
/-- C1 at the high-capacity card: the hypotheses hold and the count is `14912 * 1024`. -/
theorem csd_v2_sector_count_witness :
    (SD_ReadConfiguration stdHdr cardHC).1 = true ∧
    ((SD_ReadConfiguration stdHdr cardHC).2.CardConfig.csd 0 >>> 6) &&& 0x3 = 0x1 ∧
    (SD_ReadConfiguration stdHdr cardHC).2.CardConfig.sectorcnt =
      ((specV2Field (SD_ReadConfiguration stdHdr cardHC).2.CardConfig.csd + 1) * 1024) % 2 ^ 32 :=
  ⟨by decide, by decide, (csd_v2_sector_count stdHdr cardHC (by decide) (by decide)).1⟩

/-- C2: after a successful `SD_ReadConfiguration` that stored a CSD whose byte 0 does not
have top bits 01, and for which `readLen + mult >= 7`, the stored sector count is
`(size + 1) << (readLen + mult - 7)` and does not exceed `2^27`. -/
theorem csd_v1_sector_count (k : Hdr) (s : Drv)
    (hok : (SD_ReadConfiguration k s).1 = true)
    (hv1 : ¬ ((SD_ReadConfiguration k s).2.CardConfig.csd 0 >>> 6) &&& 0x3 = 0x1)
    (hge : 7 ≤ specV1ReadLen (SD_ReadConfiguration k s).2.CardConfig.csd +
      specV1Mult (SD_ReadConfiguration k s).2.CardConfig.csd) :
    (SD_ReadConfiguration k s).2.CardConfig.sectorcnt =
      (specV1Size (SD_ReadConfiguration k s).2.CardConfig.csd + 1) <<<
        (specV1ReadLen (SD_ReadConfiguration k s).2.CardConfig.csd +
          specV1Mult (SD_ReadConfiguration k s).2.CardConfig.csd - 7) ∧
    (SD_ReadConfiguration k s).2.CardConfig.sectorcnt ≤ 2 ^ 27 := by
  obtain ⟨-, hcnt, hb⟩ := SD_ReadConfiguration_ok k s hok
  generalize (SD_ReadConfiguration k s).2.CardConfig = c at *
  have h7 := hb 7 (by norm_num)
  have h8 := hb 8 (by norm_num)
  have h10 := hb 10 (by norm_num)
  obtain ⟨bs, bm, br⟩ := specV1_bounds c.csd h7 h8 h10
  have hsh : csdV1Shift c.csd = specV1ReadLen c.csd + specV1Mult c.csd - 7 := by
    have : csdV1ReadLen c.csd = specV1ReadLen c.csd := rfl
    rw [csdV1Shift, csdV1Mult_eq c.csd h10, this]
    norm_num
    omega
  have hle : (specV1Size c.csd + 1) * 2 ^ (specV1ReadLen c.csd + specV1Mult c.csd - 7) ≤
      2 ^ 12 * 2 ^ 15 :=
    Nat.mul_le_mul bs (Nat.pow_le_pow_right (by norm_num) (by omega))
  have h1 : c.sectorcnt =
      (specV1Size c.csd + 1) <<< (specV1ReadLen c.csd + specV1Mult c.csd - 7) := by
    rw [hcnt, csdSectorCount, if_neg hv1, hsh, csdV1Size_eq c.csd h7 h8, shl32,
      if_pos (by omega), Nat.shiftLeft_eq]
    apply Nat.mod_eq_of_lt
    norm_num at hle ⊢
    omega
  refine ⟨h1, ?_⟩
  rw [h1, Nat.shiftLeft_eq]
  norm_num at hle ⊢
  omega

set_option maxRecDepth 100000 in
/-- C2 at the MMC card: the hypotheses hold and the count is `3875 << 9`. -/
theorem csd_v1_sector_count_witness :
    (SD_ReadConfiguration stdHdr cardMMC).1 = true ∧
    ¬ ((SD_ReadConfiguration stdHdr cardMMC).2.CardConfig.csd 0 >>> 6) &&& 0x3 = 0x1 ∧
    7 ≤ specV1ReadLen (SD_ReadConfiguration stdHdr cardMMC).2.CardConfig.csd +
      specV1Mult (SD_ReadConfiguration stdHdr cardMMC).2.CardConfig.csd ∧
    (SD_ReadConfiguration stdHdr cardMMC).2.CardConfig.sectorcnt ≤ 2 ^ 27 :=
  ⟨by decide, by decide, by decide,
    (csd_v1_sector_count stdHdr cardMMC (by decide) (by decide) (by decide)).2⟩

set_option maxRecDepth 100000 in
/-- C3 as stated fails: for the version 2 CSD with size field `0x3A3F` the stored sector
count is not 15,630,336 and the number of capacity units `size + 1` is not 15269. -/
theorem csd_reference_vector_counterexample :
    (SD_ReadConfiguration stdHdr cardHC).1 = true ∧
    specV2Field (SD_ReadConfiguration stdHdr cardHC).2.CardConfig.csd = 0x3A3F ∧
    csdV2Size (SD_ReadConfiguration stdHdr cardHC).2.CardConfig.csd + 1 ≠ 15269 ∧
    (SD_ReadConfiguration stdHdr cardHC).2.CardConfig.sectorcnt ≠ 15630336 := by
  decide

/-- C3 amended: for a version 2 CSD whose 22-bit size field is `0x3A3F`, the decoder
yields `size + 1 = 14912` capacity units and a sector count of 15,269,888. -/
theorem csd_reference_vector (k : Hdr) (s : Drv)
    (hok : (SD_ReadConfiguration k s).1 = true)
    (hv2 : ((SD_ReadConfiguration k s).2.CardConfig.csd 0 >>> 6) &&& 0x3 = 0x1)
    (hf : specV2Field (SD_ReadConfiguration k s).2.CardConfig.csd = 0x3A3F) :
    csdV2Size (SD_ReadConfiguration k s).2.CardConfig.csd + 1 = 14912 ∧
    (SD_ReadConfiguration k s).2.CardConfig.sectorcnt = 15269888 := by
  obtain ⟨-, hcnt, hb⟩ := SD_ReadConfiguration_ok k s hok
  generalize (SD_ReadConfiguration k s).2.CardConfig = c at *
  have hsz := csdV2Size_eq c.csd (hb 8 (by norm_num)) (hb 9 (by norm_num))
  refine ⟨by rw [hsz, hf], ?_⟩
  rw [hcnt, csdSectorCount, if_pos hv2, hsz, hf]
  norm_num

set_option maxRecDepth 100000 in
/-- C3 amended, at the high-capacity card. -/
theorem csd_reference_vector_witness :
    (SD_ReadConfiguration stdHdr cardHC).1 = true ∧
    ((SD_ReadConfiguration stdHdr cardHC).2.CardConfig.csd 0 >>> 6) &&& 0x3 = 0x1 ∧
    specV2Field (SD_ReadConfiguration stdHdr cardHC).2.CardConfig.csd = 0x3A3F ∧
    (SD_ReadConfiguration stdHdr cardHC).2.CardConfig.sectorcnt = 15269888 :=
  ⟨by decide, by decide, by decide,
    (csd_reference_vector stdHdr cardHC (by decide) (by decide) (by decide)).2⟩

/-! ## The adapter (C4, C5, C6) -/

@[simp] theorem SD_ReadConfiguration_keeps (k : Hdr) (s : Drv) :
    (SD_ReadConfiguration k s).2.status = s.status ∧
    (SD_ReadConfiguration k s).2.CardType = s.CardType := by
  simp only [SD_ReadConfiguration, SD_ReadConfiguration_body]
  split_ifs <;> simp [setOcr, setCid, setCsd, setGeometry]

/-- `SD_ReadConfiguration` either leaves the sector size alone or sets it to 512. -/
theorem SD_ReadConfiguration_sectorsize (k : Hdr) (s : Drv) :
    (SD_ReadConfiguration k s).2.CardConfig.sectorsize = s.CardConfig.sectorsize ∨
    (SD_ReadConfiguration k s).2.CardConfig.sectorsize = 512 := by
  simp only [SD_ReadConfiguration, SD_ReadConfiguration_body]
  split_ifs <;> simp [setOcr, setCid, setCsd, setGeometry]

@[simp] theorem MMC_disk_ioctl_keeps (k : Hdr) (cmd : Nat) (buff : Bytes) (s : Drv) :
    (MMC_disk_ioctl k cmd buff s).2.2.status = s.status ∧
    (MMC_disk_ioctl k cmd buff s).2.2.CardType = s.CardType ∧
    (MMC_disk_ioctl k cmd buff s).2.2.CardConfig = s.CardConfig := by
  unfold MMC_disk_ioctl
  simp only []
  repeat' split
  all_goals simp only [SSELUnselect_keeps, SD_WaitForReady_keeps, SSELSelect_keeps, and_self]

@[simp] theorem MMC_disk_read_keeps (k : Hdr) (buff : Bytes) (sector count : Nat) (s : Drv) :
    (MMC_disk_read k buff sector count s).2.2.status = s.status ∧
    (MMC_disk_read k buff sector count s).2.2.CardType = s.CardType ∧
    (MMC_disk_read k buff sector count s).2.2.CardConfig = s.CardConfig := by
  simp only [MMC_disk_read]
  split_ifs <;> simp

@[simp] theorem MMC_disk_write_keeps (k : Hdr) (buff : Bytes) (sector count : Nat) (s : Drv) :
    (MMC_disk_write k buff sector count s).2.status = s.status ∧
    (MMC_disk_write k buff sector count s).2.CardType = s.CardType ∧
    (MMC_disk_write k buff sector count s).2.CardConfig = s.CardConfig := by
  simp only [MMC_disk_write]
  split_ifs <;> simp

theorem clearNoinit_and (k : Hdr) (st : Nat) : clearNoinit k st &&& k.STA_NOINIT = 0 := by
  apply Nat.eq_of_testBit_eq
  intro i
  simp only [clearNoinit, Nat.testBit_and, Nat.testBit_xor, Nat.zero_testBit]
  cases st.testBit i <;> cases k.STA_NOINIT.testBit i <;> rfl

/-- With the not-initialized bit set, the three transfer entry points return at their
first statement. -/
theorem not_ready_returns (k : Hdr) (s : Drv) (h : s.status &&& k.STA_NOINIT ≠ 0) :
    (∀ buff sector count,
      MMC_disk_read k buff sector count s = (DRESULT.RES_NOTRDY, buff, s)) ∧
    (∀ buff sector count, MMC_disk_write k buff sector count s = (DRESULT.RES_NOTRDY, s)) ∧
    (∀ cmd buff, MMC_disk_ioctl k cmd buff s = (DRESULT.RES_NOTRDY, buff, s)) := by
  refine ⟨fun buff sector count => ?_, fun buff sector count => ?_, fun cmd buff => ?_⟩
  · simp [MMC_disk_read, h]
  · simp [MMC_disk_write, h]
  · simp [MMC_disk_ioctl, h]

/-- C4: while `status` has the not-initialized bit set, `MMC_disk_read`, `MMC_disk_write`
and `MMC_disk_ioctl` return `RES_NOTRDY` for all arguments and leave the caller's buffer
and the whole driver state as they were: no frame on the bus, no chip-select edge, no
change of `CardType`, `CardConfig` or `status`. -/
theorem not_ready_short_circuit (k : Hdr) (s : Drv) (h : s.status &&& k.STA_NOINIT ≠ 0) :
    (∀ buff sector count,
      MMC_disk_read k buff sector count s = (DRESULT.RES_NOTRDY, buff, s) ∧
      (MMC_disk_read k buff sector count s).2.2.log = s.log) ∧
    (∀ buff sector count,
      MMC_disk_write k buff sector count s = (DRESULT.RES_NOTRDY, s) ∧
      (MMC_disk_write k buff sector count s).2.log = s.log) ∧
    (∀ cmd buff,
      MMC_disk_ioctl k cmd buff s = (DRESULT.RES_NOTRDY, buff, s) ∧
      (MMC_disk_ioctl k cmd buff s).2.2.log = s.log) := by
  obtain ⟨hr, hw, hi⟩ := not_ready_returns k s h
  exact ⟨fun buff sector count => ⟨hr _ _ _, by rw [hr]⟩,
    fun buff sector count => ⟨hw _ _ _, by rw [hw]⟩, fun cmd buff => ⟨hi _ _, by rw [hi]⟩⟩

/-- C4 in the state at program start, for the get-sector-size request. -/
theorem not_ready_short_circuit_witness :
    (Drv.init stdHdr []).status &&& stdHdr.STA_NOINIT ≠ 0 ∧
    (MMC_disk_ioctl stdHdr stdHdr.GET_SECTOR_SIZE (fun _ => 0) (Drv.init stdHdr [])).2.2.log =
      (Drv.init stdHdr []).log :=
  ⟨by decide,
    ((not_ready_short_circuit stdHdr (Drv.init stdHdr []) (by decide)).2.2
      stdHdr.GET_SECTOR_SIZE (fun _ => 0)).2⟩

/-- Invariant of the adapter: the card is marked not initialized, or the sector size
is 512. -/
theorem step_sectorsize (k : Hdr) (c : Call) (s : Drv)
    (h : s.status &&& k.STA_NOINIT ≠ 0 ∨ s.CardConfig.sectorsize = 512) :
    (Call.step k c s).status &&& k.STA_NOINIT ≠ 0 ∨
      (Call.step k c s).CardConfig.sectorsize = 512 := by
  cases c with
  | status pdrv => exact h
  | init pdrv =>
    simp only [Call.step, disk_initialize]
    split_ifs with h1 h2
    · exact h
    · simp only [ MMC_disk_initialize]
      by_cases hi : (SD_Init k s).1 = true
      · by_cases hc : (SD_ReadConfiguration k (SD_Init k s).2).1 = true
        · right
          simpa [hi, hc] using (SD_ReadConfiguration_ok k _ hc).1
        · rcases SD_ReadConfiguration_sectorsize k (SD_Init k s).2 with e | e
          · simpa [hi, hc, e] using h
          · right
            simpa [hi, hc] using e
      · simpa [hi] using h
    · exact h
  | read pdrv buff sector count =>
    simp only [Call.step, disk_read]
    split_ifs <;> simpa using h
  | write pdrv buff sector count =>
    simp only [Call.step, disk_write]
    split_ifs <;> simpa using h
  | ioctl pdrv cmd buff =>
    simp only [Call.step, disk_ioctl]
    split_ifs <;> simpa using h
  | timerproc => simpa [Call.step, disk_timerproc_eq] using h

theorem run_sectorsize (k : Hdr) (cs : List Call) (s : Drv)
    (h : s.status &&& k.STA_NOINIT ≠ 0 ∨ s.CardConfig.sectorsize = 512) :
    (run k cs s).status &&& k.STA_NOINIT ≠ 0 ∨ (run k cs s).CardConfig.sectorsize = 512 := by
  induction cs generalizing s with
  | nil => exact h
  | cons c cs ih => exact ih _ (step_sectorsize k c s h)

theorem mod_and_self (n : Nat) : (n % 256) &&& n = n % 256 := by
  apply Nat.eq_of_testBit_eq
  intro i
  rw [Nat.testBit_and, show (256 : Nat) = 2 ^ 8 by norm_num, Nat.testBit_mod_two_pow]
  cases n.testBit i <;> simp

/-- C6: in every state reached from program start by any sequence of calls, over any
transport behaviour, if the not-initialized bit is clear then `CardConfig.sectorsize` is
512 and `MMC_disk_ioctl(GET_SECTOR_SIZE)` returns `RES_OK` and stores the 16-bit value 512
in the caller's buffer, whatever the card type. -/
theorem ready_sector_size (k : Hdr) (env : List Ev) (cs : List Call)
    (hflag : k.STA_NOINIT % 256 ≠ 0) (hb : k.GET_SECTOR_SIZE < 256)
    (h1 : k.GET_SECTOR_SIZE ≠ k.CTRL_SYNC) (h2 : k.GET_SECTOR_SIZE ≠ k.GET_SECTOR_COUNT)
    (hready : (run k cs (Drv.init k env)).status &&& k.STA_NOINIT = 0) :
    (run k cs (Drv.init k env)).CardConfig.sectorsize = 512 ∧
    ∀ buff,
      (MMC_disk_ioctl k k.GET_SECTOR_SIZE buff (run k cs (Drv.init k env))).1 =
        DRESULT.RES_OK ∧
      (MMC_disk_ioctl k k.GET_SECTOR_SIZE buff (run k cs (Drv.init k env))).2.1 =
        storeLE 2 512 buff ∧
      loadLE 2 (MMC_disk_ioctl k k.GET_SECTOR_SIZE buff (run k cs (Drv.init k env))).2.1 =
        512 := by
  have h0 : (Drv.init k env).status &&& k.STA_NOINIT ≠ 0 ∨
      (Drv.init k env).CardConfig.sectorsize = 512 := by
    left
    simp only [Drv.init, mod_and_self]
    exact hflag
  have hsz : (run k cs (Drv.init k env)).CardConfig.sectorsize = 512 := by
    rcases run_sectorsize k cs _ h0 with e | e
    · exact absurd hready e
    · exact e
  generalize run k cs (Drv.init k env) = t at hready hsz
  have hm : k.GET_SECTOR_SIZE % 256 = k.GET_SECTOR_SIZE := Nat.mod_eq_of_lt hb
  have hio : ∀ buff, MMC_disk_ioctl k k.GET_SECTOR_SIZE buff t =
      (DRESULT.RES_OK, storeLE 2 512 buff, SSELUnselect t) := by
    intro buff
    unfold MMC_disk_ioctl
    simp only [hm, hready, ne_eq, not_true_eq_false, if_false, h1, h2, if_true, hsz]
  refine ⟨hsz, fun buff => ?_⟩
  rw [hio buff]
  refine ⟨rfl, rfl, ?_⟩
  simp [loadLE, storeLE, poke]

set_option maxRecDepth 100000 in
/-- C6 for the high-capacity card after one `disk_initialize`. -/
theorem ready_sector_size_witness :
    stdHdr.STA_NOINIT % 256 ≠ 0 ∧
    (run stdHdr [Call.init 0] (Drv.init stdHdr (initScriptHC ++ configScriptHC))).status &&&
      stdHdr.STA_NOINIT = 0 ∧
    (run stdHdr [Call.init 0]
      (Drv.init stdHdr (initScriptHC ++ configScriptHC))).CardConfig.sectorsize = 512 :=
  ⟨by decide, by decide,
    (ready_sector_size stdHdr (initScriptHC ++ configScriptHC) [Call.init 0] (by decide)
      (by decide) (by decide) (by decide) (by decide)).1⟩

/-! ## Bus activity of the command layer (C7, C8, C9, C10) -/

theorem recvOnly_nil : recvOnly [] := by
  intro e he; cases he

theorem recvOnly_append {l₁ l₂ : List BusEv} (h₁ : recvOnly l₁) (h₂ : recvOnly l₂) :
    recvOnly (l₁ ++ l₂) := by
  intro e he
  rcases List.mem_append.mp he with h | h
  · exact h₁ e h
  · exact h₂ e h

theorem recvOnly_single (b : Nat) : recvOnly [BusEv.recv b] := by
  intro e he
  exact ⟨b, by simpa using he⟩

theorem sent_append (l₁ l₂ : List BusEv) : sent (l₁ ++ l₂) = sent l₁ ++ sent l₂ := by
  induction l₁ with
  | nil => rfl
  | cons e l ih => cases e <;> simp [sent, ih]

theorem sent_recvOnly {l : List BusEv} (h : recvOnly l) : sent l = [] := by
  induction l with
  | nil => rfl
  | cons e l ih =>
    obtain ⟨b, hb⟩ := h e (List.mem_cons_self _ _)
    subst hb
    simpa [sent] using ih (fun e he => h e (List.mem_cons_of_mem _ he))

theorem ReceiveByte_log (s : Drv) :
    (ReceiveByte s).2.log = s.log ++ [BusEv.recv (ReceiveByte s).1] := by
  simp [ReceiveByte]

theorem SendByte_log (b : Nat) (s : Drv) :
    (SendByte b s).log = s.log ++ [BusEv.send (b % 256)] := by
  simp [SendByte]

/-- A frame that leaves `Timer2` running has used up a script item or a timer tick. -/
theorem ReceiveByte_measure2 (s : Drv) (h : (ReceiveByte s).2.Timer2 ≠ 0) :
    (ReceiveByte s).2.env.length + (ReceiveByte s).2.Timer2 < s.env.length + s.Timer2 := by
  obtain ⟨st, t1, t2, ct, cc, env, log⟩ := s
  cases env with
  | nil =>
    simp only [ReceiveByte, SSP_frame, ticks_eq] at h ⊢
    simp only [List.length_nil] at h ⊢
    omega
  | cons e es =>
    simp only [ReceiveByte, SSP_frame, ticks_eq] at h ⊢
    simp only [List.length_cons] at h ⊢
    omega

/-- The poll of `SD_WaitForReady` only receives; when it gives up, no byte it read was
`0xFF`, and `Timer2` has reached zero provided the iteration bound exceeds the number of
script items and timer ticks left. -/
theorem SD_WaitForReady_loop_log (fuel : Nat) (s : Drv) :
    ∃ l, (SD_WaitForReady_loop fuel s).2.log = s.log ++ l ∧ recvOnly l ∧
      ((SD_WaitForReady_loop fuel s).1 = false →
        (∀ b, BusEv.recv b ∈ l → b ≠ 0xFF) ∧
        (s.env.length + s.Timer2 < fuel → (SD_WaitForReady_loop fuel s).2.Timer2 = 0)) := by
  induction fuel generalizing s with
  | zero =>
    refine ⟨[], by simp [SD_WaitForReady_loop], recvOnly_nil, fun _ => ⟨?_, ?_⟩⟩
    · intro b hb; cases hb
    · intro h; omega
  | succ n ih =>
    simp only [SD_WaitForReady_loop]
    by_cases h1 : (ReceiveByte s).1 = 0xFF
    · rw [if_pos h1]
      exact ⟨[BusEv.recv (ReceiveByte s).1], ReceiveByte_log s, recvOnly_single _,
        fun h => by simp at h⟩
    · rw [if_neg h1]
      by_cases h2 : (ReceiveByte s).2.Timer2 ≠ 0
      · rw [if_pos h2]
        obtain ⟨l, hl, hr, hf⟩ := ih (ReceiveByte s).2
        refine ⟨BusEv.recv (ReceiveByte s).1 :: l, ?_, ?_, ?_⟩
        · rw [hl, ReceiveByte_log]; simp
        · exact recvOnly_append (recvOnly_single _) hr
        · intro hfalse
          obtain ⟨ha, hb⟩ := hf hfalse
          refine ⟨?_, ?_⟩
          · intro b hb'
            rcases List.mem_cons.mp hb' with e | e
            · cases e; exact h1
            · exact ha b e
          · intro hlt
            have hm := ReceiveByte_measure2 s h2
            exact hb (by omega)
      · rw [if_neg h2]
        refine ⟨[BusEv.recv (ReceiveByte s).1], ReceiveByte_log s, recvOnly_single _, ?_⟩
        intro _
        refine ⟨?_, fun _ => by simpa using h2⟩
        intro b hb
        rcases List.mem_cons.mp hb with e | e
        · cases e; exact h1
        · cases e

/-- `SD_WaitForReady` reads one byte it drops and then polls; it only receives.  When it
returns false, none of the polled bytes was `0xFF` and `Timer2` is zero. -/
theorem SD_WaitForReady_log (s : Drv) :
    ∃ b l, (SD_WaitForReady s).2.log = s.log ++ BusEv.recv b :: l ∧ recvOnly l ∧
      ((SD_WaitForReady s).1 = false →
        (∀ c, BusEv.recv c ∈ l → c ≠ 0xFF) ∧ (SD_WaitForReady s).2.Timer2 = 0) := by
  simp only [SD_WaitForReady]
  obtain ⟨l, hl, hr, hf⟩ := SD_WaitForReady_loop_log
    ((ReceiveByte { s with Timer2 := 50 }).2.env.length +
      (ReceiveByte { s with Timer2 := 50 }).2.Timer2 + 1) (ReceiveByte { s with Timer2 := 50 }).2
  refine ⟨(ReceiveByte { s with Timer2 := 50 }).1, l, ?_, hr, ?_⟩
  · rw [hl, ReceiveByte_log]; simp
  · intro h
    exact ⟨(hf h).1, (hf h).2 (Nat.lt_succ_self _)⟩

theorem SD_SendCommand_poll_log (i r1 : Nat) (s : Drv) :
    ∃ l, (SD_SendCommand_poll i r1 s).2.2.log = s.log ++ l ∧ recvOnly l ∧
      (0 < i → l ≠ []) := by
  induction i generalizing r1 s with
  | zero => exact ⟨[], by simp [SD_SendCommand_poll], recvOnly_nil, fun h => by omega⟩
  | succ n ih =>
    simp only [SD_SendCommand_poll]
    split_ifs with h
    · exact ⟨[BusEv.recv (ReceiveByte s).1], by simp [ReceiveByte_log], recvOnly_single _,
        fun _ => by simp⟩
    · obtain ⟨l, hl, hr, -⟩ := ih (ReceiveByte s).1 (ReceiveByte s).2
      exact ⟨BusEv.recv (ReceiveByte s).1 :: l, by rw [hl, ReceiveByte_log]; simp,
        recvOnly_append (recvOnly_single _) hr, fun _ => by simp⟩

theorem recvFrames_log (data : Bytes) (off n : Nat) (s : Drv) :
    ∃ l, (recvFrames data off n s).2.log = s.log ++ l ∧ recvOnly l := by
  induction n generalizing data off s with
  | zero => exact ⟨[], by simp [recvFrames], recvOnly_nil⟩
  | succ n ih =>
    simp only [recvFrames]
    obtain ⟨l, hl, hr⟩ := ih (poke data off (ReceiveByte s).1) (off + 1) (ReceiveByte s).2
    exact ⟨BusEv.recv (ReceiveByte s).1 :: l, by rw [hl, ReceiveByte_log]; simp,
      recvOnly_append (recvOnly_single _) hr⟩

theorem SD_SendCommand_rest_log (n : Nat) (buf : Bytes) (off : Nat) (s : Drv) :
    ∃ l, (SD_SendCommand_rest n buf off s).2.log = s.log ++ l ∧ recvOnly l := by
  induction n generalizing buf off s with
  | zero => exact ⟨[], by simp [SD_SendCommand_rest], recvOnly_nil⟩
  | succ n ih =>
    simp only [SD_SendCommand_rest, ReceiveDatafromSDCard]
    obtain ⟨l₁, h₁, r₁⟩ := recvFrames_log buf off (1 % 256) s
    obtain ⟨l₂, h₂, r₂⟩ := ih (recvFrames buf off (1 % 256) s).1 (off + 1)
      (recvFrames buf off (1 % 256) s).2
    exact ⟨l₁ ++ l₂, by rw [h₂, h₁, List.append_assoc], recvOnly_append r₁ r₂⟩

theorem crcStop_byte (k : Hdr) (cmd : Nat) : crcStop k cmd % 256 = crcStop k cmd := by
  unfold crcStop
  split_ifs <;> rfl

/-- The frame of `SD_SendCommand` for a `uint8_t cmd` and a `uint32_t arg`. -/
theorem sendFrame_log (k : Hdr) (cmd arg : Nat) (s : Drv) (hc : cmd < 256) :
    (sendFrame k cmd arg s).log = s.log ++ (frameBytes k cmd arg).map BusEv.send := by
  have e : (cmd ||| 0x40) % 256 = cmd ||| 0x40 :=
    Nat.mod_eq_of_lt (Nat.or_lt_two_pow (n := 8) hc (by norm_num))
  simp [sendFrame, SendByte_log, frameBytes, crcStop_byte, e]

/-- Bus activity of `SD_SendCommand` after the readiness wait: nothing when the wait
failed, else the six frame bytes followed by received frames only. -/
theorem SD_SendCommand_log (k : Hdr) (cmd arg : Nat) (buf : Option Bytes) (len : Nat)
    (s : Drv) :
    ∃ l, recvOnly l ∧ l ≠ [] ∧
      (SD_SendCommand k cmd arg buf len s).2.2.log =
        (SD_WaitForReady (SSELSelect s)).2.log ++
          (if (SD_WaitForReady (SSELSelect s)).1 = true then
            (frameBytes k (cmd % 256) (arg % 2 ^ 32)).map BusEv.send ++ l
           else []) := by
  have hc : cmd % 256 < 256 := Nat.mod_lt _ (by norm_num)
  by_cases hw : (SD_WaitForReady (SSELSelect s)).1 = true
  · have hw' : ¬ (SD_WaitForReady (SSELSelect s)).1 = false := by simp [hw]
    obtain ⟨l₁, h₁, r₁, n₁⟩ := SD_SendCommand_poll_log 8 ((arg % 2 ^ 32) >>> 8 % 256)
      (sendFrame k (cmd % 256) (arg % 2 ^ 32) (SD_WaitForReady (SSELSelect s)).2)
    rw [sendFrame_log k _ _ _ hc] at h₁
    simp only [SD_SendCommand, if_neg hw', if_pos hw]
    split_ifs with h2 h3
    · exact ⟨l₁, r₁, n₁ (by norm_num), by rw [h₁, List.append_assoc]⟩
    · obtain ⟨l₂, h₂, r₂⟩ := SD_SendCommand_rest_log (len % 2 ^ 32) (buf.getD (fun _ => 0)) 0
        (SD_SendCommand_poll 8 ((arg % 2 ^ 32) >>> 8 % 256)
          (sendFrame k (cmd % 256) (arg % 2 ^ 32) (SD_WaitForReady (SSELSelect s)).2)).2.2
      refine ⟨l₁ ++ l₂, recvOnly_append r₁ r₂, ?_, ?_⟩
      · simp [n₁ (by norm_num)]
      · show (SD_SendCommand_rest _ _ _ _).2.log = _
        rw [h₂, h₁]; simp
    · exact ⟨l₁, r₁, n₁ (by norm_num), by rw [h₁, List.append_assoc]⟩
  · have hw' : (SD_WaitForReady (SSELSelect s)).1 = false := by simpa using hw
    refine ⟨[BusEv.recv 0], recvOnly_single _, by simp, ?_⟩
    simp [SD_SendCommand, hw']

/-- The bytes `SD_SendCommand` transmits: the frame when the card was ready, else none. -/
theorem SD_SendCommand_sent (k : Hdr) (cmd arg : Nat) (buf : Option Bytes) (len : Nat)
    (s : Drv) :
    sent (SD_SendCommand k cmd arg buf len s).2.2.log =
      sent s.log ++
        (if (SD_WaitForReady (SSELSelect s)).1 = true then
          frameBytes k (cmd % 256) (arg % 2 ^ 32)
         else []) := by
  obtain ⟨l, hr, -, hl⟩ := SD_SendCommand_log k cmd arg buf len s
  obtain ⟨b, l', hl', hr', -⟩ := SD_WaitForReady_log (SSELSelect s)
  have hs : ∀ f : List Nat, sent (f.map BusEv.send) = f := by
    intro f
    induction f with
    | nil => rfl
    | cons x f ih => simp [sent, ih]
  rw [hl, hl', sent_append, sent_append]
  have e1 : sent (BusEv.recv b :: l') = [] :=
    sent_recvOnly (l := BusEv.recv b :: l') (recvOnly_append (recvOnly_single b) hr')
  have e2 : sent (SSELSelect s).log = sent s.log := by
    simp [SSELSelect, sent_append, sent]
  rw [e1, e2]
  split_ifs
  · rw [sent_append, hs, sent_recvOnly hr]; simp
  · simp [sent]

set_option maxRecDepth 100000 in
/-- C7, the code at the failing input: the card is ready and answers the read command
with `0xC1` and then `0x00`; `SD_SendCommand` returns `0xC1`, a value with the high bit
set that is neither `0x81` nor `0x82`, though a byte with the high bit clear follows. -/
theorem stray_response_returned :
    (SD_SendCommand stdHdr stdHdr.READ_SINGLE_BLOCK 0 none 0 (Drv.init stdHdr strayScript)).1 =
      0xC1 ∧
    (SD_SendCommand stdHdr stdHdr.READ_SINGLE_BLOCK 0 none 0
      (Drv.init stdHdr strayScript)).2.2.env = quiet [0x00] := by
  decide

/-- C8: when the readiness wait at the start of `SD_SendCommand` fails, the call returns
`0x81` with the response buffer as it was, `Timer2` has reached zero, and the bus saw the
chip-select edge followed by received frames only, of which none after the first read
`0xFF`: no byte of the command frame was transmitted. -/
theorem not_ready_sends_nothing (k : Hdr) (cmd arg : Nat) (buf : Option Bytes) (len : Nat)
    (s : Drv) (h : (SD_WaitForReady (SSELSelect s)).1 = false) :
    (SD_SendCommand k cmd arg buf len s).1 = 0x81 ∧
    (SD_SendCommand k cmd arg buf len s).2.1 = buf ∧
    (SD_SendCommand k cmd arg buf len s).2.2.Timer2 = 0 ∧
    sent (SD_SendCommand k cmd arg buf len s).2.2.log = sent s.log ∧
    ∃ b l, (SD_SendCommand k cmd arg buf len s).2.2.log =
        s.log ++ BusEv.sel :: BusEv.recv b :: l ∧
      recvOnly l ∧ ∀ c, BusEv.recv c ∈ l → c ≠ 0xFF := by
  obtain ⟨b, l, hl, hr, hf⟩ := SD_WaitForReady_log (SSELSelect s)
  have e : SD_SendCommand k cmd arg buf len s = (0x81, buf, (SD_WaitForReady (SSELSelect s)).2) := by
    simp [SD_SendCommand, h]
  refine ⟨by rw [e], by rw [e], by rw [e]; exact (hf h).2, ?_, b, l, ?_, hr, (hf h).1⟩
  · rw [SD_SendCommand_sent, h]; simp
  · rw [e]
    show (SD_WaitForReady (SSELSelect s)).2.log = _
    rw [hl]; simp [SSELSelect]

set_option maxRecDepth 100000 in
/-- C8 for a card that stays busy until `Timer2` runs out. -/
theorem not_ready_sends_nothing_witness :
    (SD_WaitForReady (SSELSelect (Drv.init stdHdr busyScript))).1 = false ∧
    (SD_SendCommand stdHdr stdHdr.READ_SINGLE_BLOCK 0 none 0 (Drv.init stdHdr busyScript)).1 =
      0x81 :=
  ⟨by decide,
    (not_ready_sends_nothing stdHdr stdHdr.READ_SINGLE_BLOCK 0 none 0 (Drv.init stdHdr busyScript)
      (by decide)).1⟩

/-- C9: when the card is ready, `SD_SendCommand(cmd, arg, ..)` transmits exactly six
bytes right after the readiness wait and before it receives anything more: the command
byte `cmd | 0x40`, then `arg >> 24`, `arg >> 16`, `arg >> 8`, `arg`, each truncated to 8
bits, then the trailer byte.  Everything after them is received frames, at least one. -/
theorem ready_sends_frame (k : Hdr) (cmd arg : Nat) (buf : Option Bytes) (len : Nat)
    (s : Drv) (hc : cmd < 256) (ha : arg < 2 ^ 32)
    (h : (SD_WaitForReady (SSELSelect s)).1 = true) :
    (frameBytes k cmd arg).length = 6 ∧
    sent (SD_SendCommand k cmd arg buf len s).2.2.log = sent s.log ++ frameBytes k cmd arg ∧
    ∃ l, recvOnly l ∧ l ≠ [] ∧
      (SD_SendCommand k cmd arg buf len s).2.2.log =
        (SD_WaitForReady (SSELSelect s)).2.log ++
          [BusEv.send (cmd ||| 0x40), BusEv.send ((arg >>> 24) % 256),
            BusEv.send ((arg >>> 16) % 256), BusEv.send ((arg >>> 8) % 256),
            BusEv.send (arg % 256), BusEv.send (crcStop k cmd)] ++ l := by
  have e1 : cmd % 256 = cmd := Nat.mod_eq_of_lt hc
  have e2 : arg % 2 ^ 32 = arg := Nat.mod_eq_of_lt ha
  obtain ⟨l, hr, hn, hl⟩ := SD_SendCommand_log k cmd arg buf len s
  rw [if_pos h, e1, e2] at hl
  refine ⟨rfl, ?_, l, hr, hn, ?_⟩
  · rw [SD_SendCommand_sent, if_pos h, e1, e2]
  · rw [hl]; simp [frameBytes]

set_option maxRecDepth 100000 in
/-- C9 for the read command with argument `0x12345678` on an idle bus. -/
theorem ready_sends_frame_witness :
    (SD_WaitForReady (SSELSelect (Drv.init stdHdr []))).1 = true ∧
    sent (SD_SendCommand stdHdr 17 0x12345678 none 0 (Drv.init stdHdr [])).2.2.log =
      sent (Drv.init stdHdr []).log ++ frameBytes stdHdr 17 0x12345678 :=
  ⟨by decide,
    (ready_sends_frame stdHdr 17 0x12345678 none 0 (Drv.init stdHdr []) (by decide) (by decide)
      (by decide)).2.1⟩

/-- C10: `SD_SendACommand(cmd, arg, buf, len)` first runs `SD_SendCommand(APP_CMD, 0, NULL,
0)`.  If that response is greater than 1 it is returned, `buf` is as it was, the state is
the one the prefix command left, and the only bytes transmitted are those of the prefix
frame (none when the card was not ready).  Otherwise the result, buffer and state are
those of `SD_SendCommand(cmd, arg, buf, len)` run after the prefix command. -/
theorem app_command_wrapper (k : Hdr) (cmd arg : Nat) (buf : Option Bytes) (len : Nat)
    (s : Drv) :
    (1 < (SD_SendCommand k k.APP_CMD 0 none 0 s).1 →
      SD_SendACommand k cmd arg buf len s =
        ((SD_SendCommand k k.APP_CMD 0 none 0 s).1, buf,
          (SD_SendCommand k k.APP_CMD 0 none 0 s).2.2) ∧
      sent (SD_SendACommand k cmd arg buf len s).2.2.log =
        sent s.log ++
          (if (SD_WaitForReady (SSELSelect s)).1 = true then frameBytes k (k.APP_CMD % 256) 0
           else [])) ∧
    ((SD_SendCommand k k.APP_CMD 0 none 0 s).1 ≤ 1 →
      SD_SendACommand k cmd arg buf len s =
        SD_SendCommand k cmd arg buf len (SD_SendCommand k k.APP_CMD 0 none 0 s).2.2) := by
  refine ⟨fun h => ?_, fun h => ?_⟩
  · have e : SD_SendACommand k cmd arg buf len s =
        ((SD_SendCommand k k.APP_CMD 0 none 0 s).1, buf,
          (SD_SendCommand k k.APP_CMD 0 none 0 s).2.2) := by
      simp only [SD_SendACommand]
      rw [if_pos h]
    refine ⟨e, ?_⟩
    rw [e]
    show sent (SD_SendCommand k k.APP_CMD 0 none 0 s).2.2.log = _
    rw [SD_SendCommand_sent]
    norm_num
  · simp only [SD_SendACommand]
    rw [if_neg (by omega)]

set_option maxRecDepth 100000 in
/-- C10 for a card that rejects `APP_CMD` with the illegal-command response `0x05`, and
for one that accepts it. -/
theorem app_command_wrapper_witness :
    1 < (SD_SendCommand stdHdr stdHdr.APP_CMD 0 none 0 (Drv.init stdHdr (cmdScript [0x05]))).1 ∧
    (SD_SendACommand stdHdr stdHdr.SD_SEND_OP_COND 0 none 0
      (Drv.init stdHdr (cmdScript [0x05]))).1 = 0x05 ∧
    (SD_SendCommand stdHdr stdHdr.APP_CMD 0 none 0 (Drv.init stdHdr (cmdScript [0x01]))).1 ≤ 1 ∧
    SD_SendACommand stdHdr stdHdr.SD_SEND_OP_COND 0 none 0 (Drv.init stdHdr (cmdScript [0x01])) =
      SD_SendCommand stdHdr stdHdr.SD_SEND_OP_COND 0 none 0
        (SD_SendCommand stdHdr stdHdr.APP_CMD 0 none 0
          (Drv.init stdHdr (cmdScript [0x01]))).2.2 :=
  ⟨by decide, by decide, by decide,
    (app_command_wrapper stdHdr stdHdr.SD_SEND_OP_COND 0 none 0
      (Drv.init stdHdr (cmdScript [0x01]))).2 (by decide)⟩

/-! ## The iteration bounds of the timed loops are never reached

Each timed polling loop is given a bound above the number of script items and timer
ticks left.  Every iteration that does not end the loop uses up one of them, so a larger
bound gives the same result. -/

theorem le1_refl (s : Drv) : le1 s s := ⟨Nat.le_refl _, Nat.le_refl _⟩

theorem le1_trans {a b c : Drv} (h₁ : le1 a b) (h₂ : le1 b c) : le1 a c :=
  ⟨Nat.le_trans h₂.1 h₁.1, Nat.le_trans h₂.2 h₁.2⟩

theorem lt1_le1 {a b c : Drv} (h₁ : lt1 a b) (h₂ : le1 b c) : lt1 a c := by
  refine ⟨le1_trans h₁.1 h₂, fun h => ?_⟩
  have hb : b.Timer1 ≠ 0 := by have := h₂.1; omega
  have := h₁.2 hb
  have := h₂.2
  omega

theorem le1_lt1 {a b c : Drv} (h₁ : le1 a b) (h₂ : lt1 b c) : lt1 a c := by
  refine ⟨le1_trans h₁ h₂.1, fun h => ?_⟩
  have := h₂.2 h
  have := h₁.2
  omega

theorem SSP_frame_lt1 (s : Drv) : lt1 s (SSP_frame s).2 := by
  obtain ⟨st, t1, t2, ct, cc, env, log⟩ := s
  cases env with
  | nil =>
    simp only [lt1, le1, SSP_frame, ticks_eq, List.length_nil]
    omega
  | cons e es =>
    simp only [lt1, le1, SSP_frame, ticks_eq, List.length_cons]
    omega

theorem ReceiveByte_lt1 (s : Drv) : lt1 s (ReceiveByte s).2 := by
  simpa [ReceiveByte, lt1, le1] using SSP_frame_lt1 s

theorem SendByte_lt1 (b : Nat) (s : Drv) : lt1 s (SendByte b s) := by
  simpa [SendByte, lt1, le1] using SSP_frame_lt1 s

theorem SD_WaitForReady_loop_fuel (fuel : Nat) (s : Drv) (h : s.env.length + s.Timer2 < fuel) :
    SD_WaitForReady_loop (fuel + 1) s = SD_WaitForReady_loop fuel s := by
  induction fuel generalizing s with
  | zero => omega
  | succ n ih =>
    conv_lhs => rw [SD_WaitForReady_loop]
    conv_rhs => rw [SD_WaitForReady_loop]
    by_cases h1 : (ReceiveByte s).1 = 0xFF
    · simp only [if_pos h1]
    · by_cases h2 : (ReceiveByte s).2.Timer2 ≠ 0
      · simp only [if_neg h1, if_pos h2]
        exact ih _ (by have := ReceiveByte_measure2 s h2; omega)
      · simp only [if_neg h1, if_neg h2]

theorem SD_RecvDataBlock_token_fuel (fuel tok : Nat) (s : Drv)
    (h : s.env.length + s.Timer1 < fuel) :
    SD_RecvDataBlock_token (fuel + 1) tok s = SD_RecvDataBlock_token fuel tok s := by
  induction fuel generalizing tok s with
  | zero => omega
  | succ n ih =>
    conv_lhs => rw [SD_RecvDataBlock_token]
    conv_rhs => rw [SD_RecvDataBlock_token]
    by_cases h1 : (ReceiveByte s).1 = 0xFE
    · simp only [if_pos h1]
    · by_cases h2 : (ReceiveByte s).2.Timer1 ≠ 0
      · simp only [if_neg h1, if_pos h2]
        exact ih _ _ (by have := (ReceiveByte_lt1 s).2 h2; omega)
      · simp only [if_neg h1, if_neg h2]

theorem SD_SendDataBlock_busy_fuel (fuel recv : Nat) (s : Drv)
    (h : s.env.length + s.Timer1 < fuel) :
    SD_SendDataBlock_busy (fuel + 1) recv s = SD_SendDataBlock_busy fuel recv s := by
  induction fuel generalizing recv s with
  | zero => omega
  | succ n ih =>
    conv_lhs => rw [SD_SendDataBlock_busy]
    conv_rhs => rw [SD_SendDataBlock_busy]
    by_cases h1 : (ReceiveByte s).1 = 0xFF
    · simp only [if_pos h1]
    · by_cases h2 : (ReceiveByte s).2.Timer1 ≠ 0
      · simp only [if_neg h1, if_pos h2]
        exact ih _ _ (by have := (ReceiveByte_lt1 s).2 h2; omega)
      · simp only [if_neg h1, if_neg h2]

theorem SD_WaitForReady_loop_le1 (fuel : Nat) (s : Drv) :
    le1 s (SD_WaitForReady_loop fuel s).2 := by
  induction fuel generalizing s with
  | zero => exact le1_refl s
  | succ n ih =>
    simp only [SD_WaitForReady_loop]
    split_ifs
    · exact (ReceiveByte_lt1 s).1
    · exact le1_trans (ReceiveByte_lt1 s).1 (ih _)
    · exact (ReceiveByte_lt1 s).1

theorem SD_WaitForReady_lt1 (s : Drv) : lt1 s (SD_WaitForReady s).2 := by
  simp only [SD_WaitForReady]
  have h0 : lt1 s (ReceiveByte { s with Timer2 := 50 }).2 := by
    simpa [lt1, le1] using ReceiveByte_lt1 { s with Timer2 := 50 }
  exact lt1_le1 h0 (SD_WaitForReady_loop_le1 _ _)

theorem SD_SendCommand_poll_le1 (i r1 : Nat) (s : Drv) :
    le1 s (SD_SendCommand_poll i r1 s).2.2 := by
  induction i generalizing r1 s with
  | zero => exact le1_refl s
  | succ n ih =>
    simp only [SD_SendCommand_poll]
    split_ifs
    · exact (ReceiveByte_lt1 s).1
    · exact le1_trans (ReceiveByte_lt1 s).1 (ih _ _)

theorem recvFrames_le1 (data : Bytes) (off n : Nat) (s : Drv) :
    le1 s (recvFrames data off n s).2 := by
  induction n generalizing data off s with
  | zero => exact le1_refl s
  | succ n ih =>
    simp only [recvFrames]
    exact le1_trans (ReceiveByte_lt1 s).1 (ih _ _ _)

theorem SD_SendCommand_rest_le1 (n : Nat) (buf : Bytes) (off : Nat) (s : Drv) :
    le1 s (SD_SendCommand_rest n buf off s).2 := by
  induction n generalizing buf off s with
  | zero => exact le1_refl s
  | succ n ih =>
    simp only [SD_SendCommand_rest, ReceiveDatafromSDCard]
    exact le1_trans (recvFrames_le1 _ _ _ _) (ih _ _ _)

theorem sendFrame_le1 (k : Hdr) (cmd arg : Nat) (s : Drv) : le1 s (sendFrame k cmd arg s) := by
  simp only [sendFrame]
  exact le1_trans (SendByte_lt1 _ _).1 (le1_trans (SendByte_lt1 _ _).1
    (le1_trans (SendByte_lt1 _ _).1 (le1_trans (SendByte_lt1 _ _).1
      (le1_trans (SendByte_lt1 _ _).1 (SendByte_lt1 _ _).1))))

/-- Every `SD_SendCommand` puts at least one frame on the bus. -/
theorem SD_SendCommand_lt1 (k : Hdr) (cmd arg : Nat) (buf : Option Bytes) (len : Nat)
    (s : Drv) : lt1 s (SD_SendCommand k cmd arg buf len s).2.2 := by
  have hw : lt1 s (SD_WaitForReady (SSELSelect s)).2 := by
    simpa [lt1, le1, SSELSelect] using SD_WaitForReady_lt1 (SSELSelect s)
  simp only [SD_SendCommand]
  split_ifs
  · exact hw
  · exact lt1_le1 hw (le1_trans (sendFrame_le1 _ _ _ _) (SD_SendCommand_poll_le1 _ _ _))
  · exact lt1_le1 hw (le1_trans (sendFrame_le1 _ _ _ _)
      (le1_trans (SD_SendCommand_poll_le1 _ _ _) (SD_SendCommand_rest_le1 _ _ _ _)))
  · exact lt1_le1 hw (le1_trans (sendFrame_le1 _ _ _ _) (SD_SendCommand_poll_le1 _ _ _))

theorem SD_SendACommand_lt1 (k : Hdr) (cmd arg : Nat) (buf : Option Bytes) (len : Nat)
    (s : Drv) : lt1 s (SD_SendACommand k cmd arg buf len s).2.2 := by
  simp only [SD_SendACommand]
  split_ifs
  · exact SD_SendCommand_lt1 _ _ _ _ _ _
  · exact lt1_le1 (SD_SendCommand_lt1 _ _ _ _ _ _) (SD_SendCommand_lt1 _ _ _ _ _ _).1

theorem SD_Init_v2loop_fuel (k : Hdr) (fuel : Nat) (s : Drv)
    (h : s.env.length + s.Timer1 < fuel) :
    SD_Init_v2loop k (fuel + 1) s = SD_Init_v2loop k fuel s := by
  induction fuel generalizing s with
  | zero => omega
  | succ n ih =>
    conv_lhs => rw [SD_Init_v2loop]
    conv_rhs => rw [SD_Init_v2loop]
    split_ifs with h1 h2 h3
    · rfl
    · rfl
    · refine ih _ ?_
      have := (SD_SendACommand_lt1 k k.SD_SEND_OP_COND 0x40000000 none 0 s).2 h3
      omega
    · rfl

theorem SD_Init_mmcloop_fuel (k : Hdr) (fuel : Nat) (s : Drv)
    (h : s.env.length + s.Timer1 < fuel) :
    SD_Init_mmcloop k (fuel + 1) s = SD_Init_mmcloop k fuel s := by
  induction fuel generalizing s with
  | zero => omega
  | succ n ih =>
    conv_lhs => rw [SD_Init_mmcloop]
    conv_rhs => rw [SD_Init_mmcloop]
    simp only []
    split_ifs with h1 h2
    · by_cases h3 : (SD_SendCommand k k.SEND_OP_COND 0 none 0 s).2.2.Timer1 = 0
      · cases n with
        | zero => simp [SD_Init_mmcloop, h3]
        | succ m => simp [SD_Init_mmcloop, h3]
      · refine ih _ ?_
        have := (SD_SendCommand_lt1 k k.SEND_OP_COND 0 none 0 s).2 h3
        omega
    all_goals rfl

theorem SD_Init_sdloop_fuel (k : Hdr) (fuel : Nat) (s : Drv)
    (h : s.env.length + s.Timer1 < fuel) :
    SD_Init_sdloop k (fuel + 1) s = SD_Init_sdloop k fuel s := by
  induction fuel generalizing s with
  | zero => omega
  | succ n ih =>
    conv_lhs => rw [SD_Init_sdloop]
    conv_rhs => rw [SD_Init_sdloop]
    simp only []
    split_ifs with h1 h2
    · by_cases h3 : (SD_SendACommand k k.SD_SEND_OP_COND 0 none 0 s).2.2.Timer1 = 0
      · cases n with
        | zero => simp [SD_Init_sdloop, h3]
        | succ m => simp [SD_Init_sdloop, h3]
      · refine ih _ ?_
        have := (SD_SendACommand_lt1 k k.SD_SEND_OP_COND 0 none 0 s).2 h3
        omega
    all_goals rfl

/-! ## Transmitted bytes of the transfer layer -/

@[simp] theorem ReceiveByte_sent (s : Drv) : sent (ReceiveByte s).2.log = sent s.log := by
  rw [ReceiveByte_log, sent_append]; simp [sent]

@[simp] theorem SendByte_sent (b : Nat) (s : Drv) :
    sent (SendByte b s).log = sent s.log ++ [b % 256] := by
  rw [SendByte_log, sent_append]; simp [sent]

@[simp] theorem recvFrames_sent (data : Bytes) (off n : Nat) (s : Drv) :
    sent (recvFrames data off n s).2.log = sent s.log := by
  induction n generalizing data off s with
  | zero => simp [recvFrames]
  | succ n ih => simp [recvFrames, ih]

@[simp] theorem ReceiveDatafromSDCard_sent (data : Bytes) (off size : Nat) (s : Drv) :
    sent (ReceiveDatafromSDCard data off size s).2.log = sent s.log := by
  simp [ReceiveDatafromSDCard]

@[simp] theorem ReceiveDiscard_sent (size : Nat) (s : Drv) :
    sent (ReceiveDiscard size s).log = sent s.log := by
  simp [ReceiveDiscard]

@[simp] theorem SSELSelect_sent (s : Drv) : sent (SSELSelect s).log = sent s.log := by
  simp [SSELSelect, sent_append, sent]

@[simp] theorem SSELUnselect_sent (s : Drv) : sent (SSELUnselect s).log = sent s.log := by
  simp [SSELUnselect, sent_append, sent]

@[simp] theorem SD_WaitForReady_loop_sent (fuel : Nat) (s : Drv) :
    sent (SD_WaitForReady_loop fuel s).2.log = sent s.log := by
  induction fuel generalizing s with
  | zero => simp [SD_WaitForReady_loop]
  | succ n ih =>
    simp only [SD_WaitForReady_loop]
    split_ifs <;> simp [ih]

@[simp] theorem SD_WaitForReady_sent (s : Drv) :
    sent (SD_WaitForReady s).2.log = sent s.log := by
  simp [SD_WaitForReady]

@[simp] theorem SD_RecvDataBlock_token_sent (fuel tok : Nat) (s : Drv) :
    sent (SD_RecvDataBlock_token fuel tok s).2.log = sent s.log := by
  induction fuel generalizing tok s with
  | zero => simp [SD_RecvDataBlock_token]
  | succ n ih =>
    simp only [SD_RecvDataBlock_token]
    split_ifs <;> simp [ih]

@[simp] theorem SD_RecvDataBlock_bytes_sent (n : Nat) (buf : Bytes) (i : Nat) (s : Drv) :
    sent (SD_RecvDataBlock_bytes n buf i s).2.log = sent s.log := by
  induction n generalizing buf i s with
  | zero => simp [SD_RecvDataBlock_bytes]
  | succ n ih => simp [SD_RecvDataBlock_bytes, ih]

@[simp] theorem SD_RecvDataBlock_sent (k : Hdr) (buf : Bytes) (off len : Nat) (s : Drv) :
    sent (SD_RecvDataBlock k buf off len s).2.2.log = sent s.log := by
  simp only [SD_RecvDataBlock]
  split_ifs <;> simp

@[simp] theorem SD_SendDataBlock_busy_sent (fuel recv : Nat) (s : Drv) :
    sent (SD_SendDataBlock_busy fuel recv s).2.log = sent s.log := by
  induction fuel generalizing recv s with
  | zero => simp [SD_SendDataBlock_busy]
  | succ n ih =>
    simp only [SD_SendDataBlock_busy]
    split_ifs <;> simp [ih]

@[simp] theorem purge_sent (i : Nat) (s : Drv) : sent (purge i s).log = sent s.log := by
  induction i generalizing s with
  | zero => simp [purge]
  | succ n ih => simp [purge, ih]

@[simp] theorem SD_ReadSector_loop_sent (k : Hdr) (cnt : Nat) (buf : Bytes) (off : Nat)
    (s : Drv) : sent (SD_ReadSector_loop k cnt buf off s).2.2.log = sent s.log := by
  induction cnt generalizing buf off s with
  | zero => simp [SD_ReadSector_loop]
  | succ n ih =>
    simp only [SD_ReadSector_loop]
    split_ifs <;> simp [ih]

/-- The bytes `SD_ReadSector` transmits: the frame of the read command when the card was
ready for it and, on the multiple block path once the command was accepted, the frame of
the stop command when the card was ready for that. -/
theorem SD_ReadSector_sent (k : Hdr) (sect : Nat) (buf : Bytes) (cnt : Nat) (s : Drv) :
    sent (SD_ReadSector k sect buf cnt s).2.2.log =
      sent s.log ++
        (if (SD_WaitForReady (SSELSelect s)).1 = true then
          frameBytes k
            ((if cnt % 2 ^ 32 > 1 then k.READ_MULTIPLE_BLOCK else k.READ_SINGLE_BLOCK) % 256)
            (sectAddr k s sect % 2 ^ 32)
         else []) ++
        (if cnt % 2 ^ 32 > 1 ∧
            (SD_SendCommand k k.READ_MULTIPLE_BLOCK (sectAddr k s sect) none 0 s).1 =
              k.R1_NO_ERROR then
          (if (SD_WaitForReady (SSELSelect
              (SD_ReadSector_loop k (cnt % 2 ^ 32) buf 0
                (SD_SendCommand k k.READ_MULTIPLE_BLOCK (sectAddr k s sect) none 0
                  s).2.2).2.2)).1 = true then
            frameBytes k (k.STOP_TRANSMISSION % 256) 0
           else [])
         else []) := by
  simp only [SD_ReadSector]
  split_ifs <;> simp_all [SD_SendCommand_sent] <;> omega

@[simp] theorem sendFrames_sent (data : Bytes) (off n : Nat) (s : Drv) :
    sent (sendFrames data off n s).log = sent s.log ++ payload data off n := by
  induction n generalizing off s with
  | zero => simp [sendFrames, payload]
  | succ n ih => simp [sendFrames, payload, ih]

@[simp] theorem SendDatatoSDCard_sent (data : Bytes) (off size : Nat) (s : Drv) :
    sent (SendDatatoSDCard data off size s).log = sent s.log ++ payload data off (size % 256) := by
  simp [SendDatatoSDCard]

@[simp] theorem SD_SendDataBlock_bytes_sent (n : Nat) (buf : Bytes) (i : Nat) (s : Drv) :
    sent (SD_SendDataBlock_bytes n buf i s).log = sent s.log ++ payload buf i n := by
  induction n generalizing i s with
  | zero => simp [SD_SendDataBlock_bytes, payload]
  | succ n ih => simp [SD_SendDataBlock_bytes, payload, ih]

/-- `SD_SendDataBlock` is its first part followed by the check of the data response and
the busy wait. -/
theorem SD_SendDataBlock_eq (k : Hdr) (buf : Bytes) (off tkn len : Nat) (s : Drv) :
    SD_SendDataBlock k buf off tkn len s =
      (if (SD_SendDataBlock_resp k buf off tkn len s).1 &&& 0x0F ≠ 0x05 then
        (false, (SD_SendDataBlock_resp k buf off tkn len s).2)
       else
        (if (SD_SendDataBlock_busy
              ((SD_SendDataBlock_resp k buf off tkn len s).2.env.length + 20 + 1)
              (SD_SendDataBlock_resp k buf off tkn len s).1
              { (SD_SendDataBlock_resp k buf off tkn len s).2 with Timer1 := 20 }).1 = 0xFF then
          (true, (SD_SendDataBlock_busy
              ((SD_SendDataBlock_resp k buf off tkn len s).2.env.length + 20 + 1)
              (SD_SendDataBlock_resp k buf off tkn len s).1
              { (SD_SendDataBlock_resp k buf off tkn len s).2 with Timer1 := 20 }).2)
         else
          (false, (SD_SendDataBlock_busy
              ((SD_SendDataBlock_resp k buf off tkn len s).2.env.length + 20 + 1)
              (SD_SendDataBlock_resp k buf off tkn len s).1
              { (SD_SendDataBlock_resp k buf off tkn len s).2 with Timer1 := 20 }).2))) := by
  rfl

/-- The bytes `SD_SendDataBlock` transmits: start token, payload, two dummy CRC bytes. -/
theorem SD_SendDataBlock_sent (k : Hdr) (buf : Bytes) (off tkn len : Nat) (s : Drv) :
    sent (SD_SendDataBlock k buf off tkn len s).2.log =
      sent s.log ++ [tkn % 256] ++
        (if k.USE_FIFO = true then payload buf off (len % 2 ^ 32 % 256)
         else payload buf off (len % 2 ^ 32)) ++ [0xFF, 0xFF] := by
  simp only [SD_SendDataBlock]
  split_ifs <;> simp_all

theorem SD_WriteSector_loop_sent (k : Hdr) (buf : Bytes) (cnt off : Nat) (s : Drv) :
    ∃ l, sent (SD_WriteSector_loop k buf cnt off s).2.log = sent s.log ++ l := by
  induction cnt generalizing off s with
  | zero => exact ⟨[], by simp [SD_WriteSector_loop]⟩
  | succ n ih =>
    simp only [SD_WriteSector_loop]
    split_ifs
    · exact ⟨_, by rw [SD_SendDataBlock_sent, List.append_assoc, List.append_assoc]⟩
    · obtain ⟨l, hl⟩ := ih (off + k.SECTOR_SIZE)
        (SD_SendDataBlock k buf off 0xFC k.SECTOR_SIZE s).2
      exact ⟨_, by rw [hl, SD_SendDataBlock_sent, List.append_assoc, List.append_assoc,
        List.append_assoc]⟩

/-- The bytes `SD_WriteSector` transmits start with the frame of the write command when
the card was ready for it. -/
theorem SD_WriteSector_sent (k : Hdr) (sect : Nat) (buf : Bytes) (cnt : Nat) (s : Drv) :
    ∃ rest, sent (SD_WriteSector k sect buf cnt s).2.log =
      sent s.log ++
        (if (SD_WaitForReady (SSELSelect s)).1 = true then
          frameBytes k
            ((if cnt % 2 ^ 32 > 1 then k.WRITE_MULTIPLE_BLOCK else k.WRITE_SINGLE_BLOCK) % 256)
            (sectAddr k s sect % 2 ^ 32)
         else []) ++ rest := by
  by_cases h1 : cnt % 2 ^ 32 > 1
  · have e : ∃ rest, sent (SD_WriteSector k sect buf cnt s).2.log =
        sent (SD_SendCommand k k.WRITE_MULTIPLE_BLOCK (sectAddr k s sect) none 0 s).2.2.log ++
          rest := by
      unfold SD_WriteSector
      simp only []
      rw [if_pos h1]
      by_cases h2 : (SD_SendCommand k k.WRITE_MULTIPLE_BLOCK (sectAddr k s sect) none 0 s).1 =
          k.R1_NO_ERROR
      · rw [if_pos h2]
        obtain ⟨l, hl⟩ := SD_WriteSector_loop_sent k buf (cnt % 2 ^ 32) 0
          (SD_SendCommand k k.WRITE_MULTIPLE_BLOCK (sectAddr k s sect) none 0 s).2.2
        refine ⟨l ++ [0xFD], ?_⟩
        simp only [SSELUnselect_sent, SD_WaitForReady_sent, SendByte_sent]
        rw [hl, List.append_assoc]
      · rw [if_neg h2]
        exact ⟨[], by simp⟩
    obtain ⟨rest, hr⟩ := e
    exact ⟨rest, by rw [hr, SD_SendCommand_sent, if_pos h1]⟩
  · have e : ∃ rest, sent (SD_WriteSector k sect buf cnt s).2.log =
        sent (SD_SendCommand k k.WRITE_SINGLE_BLOCK (sectAddr k s sect) none 0 s).2.2.log ++
          rest := by
      unfold SD_WriteSector
      simp only []
      rw [if_neg h1]
      by_cases h2 : (SD_SendCommand k k.WRITE_SINGLE_BLOCK (sectAddr k s sect) none 0 s).1 =
          k.R1_NO_ERROR
      · rw [if_pos h2]
        refine ⟨[0xFE % 256] ++
          ((if k.USE_FIFO = true then payload buf 0 (k.SECTOR_SIZE % 2 ^ 32 % 256)
            else payload buf 0 (k.SECTOR_SIZE % 2 ^ 32)) ++ [0xFF, 0xFF]), ?_⟩
        simp only [SSELUnselect_sent, SD_SendDataBlock_sent, List.append_assoc]
      · rw [if_neg h2]
        exact ⟨[], by simp⟩
    obtain ⟨rest, hr⟩ := e
    exact ⟨rest, by rw [hr, SD_SendCommand_sent, if_neg h1]⟩

/-! ## Sector addressing and chip-select (C11, C12) -/

theorem sectAddr_eq (k : Hdr) (s : Drv) (sect : Nat) (hs : sect < 2 ^ 32) :
    sectAddr k s sect % 2 ^ 32 = blockAddr k s sect := by
  have e : sect % 2 ^ 32 = sect := Nat.mod_eq_of_lt hs
  simp only [sectAddr, blockAddr, e, Nat.shiftLeft_eq]
  by_cases h : s.CardType = k.CARDTYPE_SDV2_HC
  · rw [if_neg (by simpa using h), if_pos h, e]
  · rw [if_pos h, if_neg h, Nat.mod_mod]

/-- C11: when the card is ready for the command, the frame `SD_ReadSector` and
`SD_WriteSector` transmit first is the one of the single or multiple block command
(chosen by the count) whose 32-bit argument is the sector number itself when `CardType` is
SDv2-HC and `sector * 512 mod 2^32` for every other card type.  `SD_ReadSector` transmits
nothing else but, possibly, the stop command with argument 0: the conversion is applied
once. -/
theorem sector_address (k : Hdr) (sect : Nat) (buf : Bytes) (cnt : Nat) (s : Drv)
    (hs : sect < 2 ^ 32) (hrdy : (SD_WaitForReady (SSELSelect s)).1 = true) :
    (∃ rest, sent (SD_ReadSector k sect buf cnt s).2.2.log =
        sent s.log ++ frameBytes k (readCmd k (cnt % 2 ^ 32) % 256) (blockAddr k s sect) ++ rest ∧
      (rest = [] ∨ rest = frameBytes k (k.STOP_TRANSMISSION % 256) 0)) ∧
    (∃ rest, sent (SD_WriteSector k sect buf cnt s).2.log =
        sent s.log ++ frameBytes k (writeCmd k (cnt % 2 ^ 32) % 256) (blockAddr k s sect) ++
          rest) := by
  refine ⟨?_, ?_⟩
  · have h := SD_ReadSector_sent k sect buf cnt s
    rw [if_pos hrdy, sectAddr_eq k s sect hs] at h
    refine ⟨_, h, ?_⟩
    split_ifs
    · right; rfl
    · left; rfl
    · left; rfl
  · obtain ⟨rest, hr⟩ := SD_WriteSector_sent k sect buf cnt s
    rw [if_pos hrdy, sectAddr_eq k s sect hs] at hr
    exact ⟨rest, hr⟩

set_option maxRecDepth 100000 in
/-- C11 on the high-capacity card (sector 5 is sent as 5) and on the MMC card (sector 5
is sent as 2560). -/
theorem sector_address_witness :
    (5 : Nat) < 2 ^ 32 ∧ (SD_WaitForReady (SSELSelect cardReady)).1 = true ∧
    blockAddr stdHdr cardReady 5 = 5 ∧ blockAddr stdHdr mmcReady 5 = 2560 ∧
    ∃ rest, sent (SD_WriteSector stdHdr 5 (fun _ => 0) 1 cardReady).2.log =
      sent cardReady.log ++ frameBytes stdHdr (writeCmd stdHdr (1 % 2 ^ 32) % 256)
        (blockAddr stdHdr cardReady 5) ++ rest :=
  ⟨by decide, by decide, by decide, by decide,
    (sector_address stdHdr 5 (fun _ => 0) 1 cardReady (by decide) (by decide)).2⟩

theorem SSELUnselect_log (s : Drv) :
    ∃ b, (SSELUnselect s).log = s.log ++ [BusEv.unsel, BusEv.recv b] := by
  refine ⟨(ReceiveByte { s with log := s.log ++ [BusEv.unsel] }).1, ?_⟩
  simp [SSELUnselect, ReceiveDiscard, ReceiveDatafromSDCard, recvFrames, ReceiveByte_log]

theorem csAsserted_unsel (pre : List BusEv) (b : Nat) :
    csAsserted (pre ++ [BusEv.unsel, BusEv.recv b]) = false := by
  simp [csAsserted, List.foldl_append]

/-- A state left by `SSELUnselect`: the log ends with the chip-select release and one
received frame, and chip-select is high. -/
theorem released_of_unselect {t : Drv} (h : ∃ x, t = SSELUnselect x) :
    (∃ pre b, t.log = pre ++ [BusEv.unsel, BusEv.recv b]) ∧ csAsserted t.log = false := by
  obtain ⟨x, rfl⟩ := h
  obtain ⟨b, hb⟩ := SSELUnselect_log x
  exact ⟨⟨x.log, b, hb⟩, by rw [hb]; exact csAsserted_unsel _ _⟩

/-- C12: when `SD_ReadSector`, `SD_WriteSector`, `SD_Init` and `SD_ReadConfiguration`
return, whatever the arguments, the card type and the transport did, the last chip-select
edge is the release, and the bus activity ends with that release followed by exactly one
received (dummy) frame. -/
theorem chip_select_released (k : Hdr) (sect : Nat) (buf : Bytes) (cnt : Nat) (s : Drv) :
    ((∃ pre b, (SD_ReadSector k sect buf cnt s).2.2.log = pre ++ [BusEv.unsel, BusEv.recv b]) ∧
      csAsserted (SD_ReadSector k sect buf cnt s).2.2.log = false) ∧
    ((∃ pre b, (SD_WriteSector k sect buf cnt s).2.log = pre ++ [BusEv.unsel, BusEv.recv b]) ∧
      csAsserted (SD_WriteSector k sect buf cnt s).2.log = false) ∧
    ((∃ pre b, (SD_Init k s).2.log = pre ++ [BusEv.unsel, BusEv.recv b]) ∧
      csAsserted (SD_Init k s).2.log = false) ∧
    ((∃ pre b, (SD_ReadConfiguration k s).2.log = pre ++ [BusEv.unsel, BusEv.recv b]) ∧
      csAsserted (SD_ReadConfiguration k s).2.log = false) := by
  refine ⟨released_of_unselect ?_, released_of_unselect ?_, released_of_unselect ?_,
    released_of_unselect ?_⟩
  · simp only [SD_ReadSector]
    split_ifs <;> exact ⟨_, rfl⟩
  · simp only [SD_WriteSector]
    split_ifs <;> exact ⟨_, rfl⟩
  · simp only [SD_Init]
    split_ifs <;> exact ⟨_, rfl⟩
  · exact ⟨_, rfl⟩

/-! ## Rejected data response (C13) -/

theorem SD_SendDataBlock_resp_log (k : Hdr) (buf : Bytes) (off tkn len : Nat) (s : Drv) :
    ∃ pre, (SD_SendDataBlock_resp k buf off tkn len s).2.log =
      pre ++ [BusEv.recv (SD_SendDataBlock_resp k buf off tkn len s).1] := by
  simp only [SD_SendDataBlock_resp]
  exact ⟨_, ReceiveByte_log _⟩

theorem SD_SendDataBlock_rejected (k : Hdr) (buf : Bytes) (off tkn len : Nat) (s : Drv)
    (h : (SD_SendDataBlock_resp k buf off tkn len s).1 &&& 0x0F ≠ 0x05) :
    SD_SendDataBlock k buf off tkn len s =
      (false, (SD_SendDataBlock_resp k buf off tkn len s).2) := by
  rw [SD_SendDataBlock_eq, if_pos h]

theorem SD_WriteSector_loop_rejected (k : Hdr) (buf : Bytes) (cnt off : Nat) (s : Drv)
    (h : ∃ b ∈ SD_WriteSector_loop_resps k buf cnt off s, b &&& 0x0F ≠ 0x05) :
    (SD_WriteSector_loop k buf cnt off s).1 ≠ 0 := by
  induction cnt generalizing off s with
  | zero =>
    obtain ⟨b, hb, -⟩ := h
    simp [SD_WriteSector_loop_resps] at hb
  | succ n ih =>
    obtain ⟨b, hb, hrej⟩ := h
    simp only [SD_WriteSector_loop_resps] at hb
    simp only [SD_WriteSector_loop]
    by_cases hf : (SD_SendDataBlock k buf off 0xFC k.SECTOR_SIZE s).1 = false
    · rw [if_pos hf]
      exact Nat.succ_ne_zero n
    · rw [if_neg hf]
      rw [if_neg hf] at hb
      rcases List.mem_cons.mp hb with e | e
      · subst e
        exact absurd (by rw [SD_SendDataBlock_rejected k buf off 0xFC k.SECTOR_SIZE s hrej]) hf
      · exact ih _ _ ⟨b, e, hrej⟩

/-- C13: if the data response byte that `SD_SendDataBlock` reads after the two dummy CRC
bytes has a low nibble other than `0x05`, the function returns false in the state it had
on reading that byte, the response being the last thing on the bus (no busy poll).  And
`SD_WriteSector` returns false, for every count, whenever the data response of one of the
blocks it sends is rejected. -/
theorem rejected_data_response (k : Hdr) (buf : Bytes) :
    (∀ off tkn len s, (SD_SendDataBlock_resp k buf off tkn len s).1 &&& 0x0F ≠ 0x05 →
      SD_SendDataBlock k buf off tkn len s =
        (false, (SD_SendDataBlock_resp k buf off tkn len s).2) ∧
      ∃ pre, (SD_SendDataBlock k buf off tkn len s).2.log =
        pre ++ [BusEv.recv (SD_SendDataBlock_resp k buf off tkn len s).1]) ∧
    (∀ sect cnt s, (∃ b ∈ SD_WriteSector_resps k sect buf cnt s, b &&& 0x0F ≠ 0x05) →
      (SD_WriteSector k sect buf cnt s).1 = false) := by
  refine ⟨fun off tkn len s h => ?_, fun sect cnt s h => ?_⟩
  · have e := SD_SendDataBlock_rejected k buf off tkn len s h
    refine ⟨e, ?_⟩
    rw [e]
    exact SD_SendDataBlock_resp_log k buf off tkn len s
  · simp only [SD_WriteSector_resps] at h
    simp only [SD_WriteSector]
    by_cases h1 : cnt % 2 ^ 32 > 1
    · rw [if_pos h1] at h ⊢
      by_cases h2 : (SD_SendCommand k k.WRITE_MULTIPLE_BLOCK (sectAddr k s sect) none 0 s).1 =
          k.R1_NO_ERROR
      · rw [if_pos h2] at h ⊢
        have hne := SD_WriteSector_loop_rejected k buf _ _ _ h
        show (_ && decide (_ = 0)) = false
        rw [decide_eq_false hne, Bool.and_false]
      · rw [if_neg h2]
    · rw [if_neg h1] at h ⊢
      by_cases h2 : (SD_SendCommand k k.WRITE_SINGLE_BLOCK (sectAddr k s sect) none 0 s).1 =
          k.R1_NO_ERROR
      · rw [if_pos h2] at h ⊢
        obtain ⟨b, hb, hrej⟩ := h
        rw [List.mem_singleton] at hb
        subst hb
        show (SD_SendDataBlock k buf 0 0xFE k.SECTOR_SIZE _).1 = false
        rw [SD_SendDataBlock_rejected k buf 0 0xFE k.SECTOR_SIZE _ hrej]
      · rw [if_neg h2]

set_option maxRecDepth 1000000 in
/-- C13 for a single block write whose data response is `0x0B`. -/
theorem rejected_data_response_witness :
    (∃ b ∈ SD_WriteSector_resps stdHdr 0 (fun _ => 0) 1 (Drv.init stdHdr rejectScript),
      b &&& 0x0F ≠ 0x05) ∧
    (SD_WriteSector stdHdr 0 (fun _ => 0) 1 (Drv.init stdHdr rejectScript)).1 = false :=
  ⟨by decide,
    (rejected_data_response stdHdr (fun _ => 0)).2 0 1 (Drv.init stdHdr rejectScript)
      (by decide)⟩

/-! ## Erase block size and SD status (C14, C15) -/

theorem SD_SendCommand_ready (k : Hdr) (cmd arg : Nat) (buf : Option Bytes) (len : Nat)
    (s : Drv) (h : (SD_SendCommand k cmd arg buf len s).1 ≠ 0x81) :
    (SD_WaitForReady (SSELSelect s)).1 = true := by
  by_contra hw
  have hw' : (SD_WaitForReady (SSELSelect s)).1 = false := by simpa using hw
  exact h (by simp [SD_SendCommand, hw'])

theorem SD_SendCommand_sent_ok (k : Hdr) (cmd arg : Nat) (buf : Option Bytes) (len : Nat)
    (s : Drv) (h : (SD_SendCommand k cmd arg buf len s).1 ≠ 0x81) :
    sent (SD_SendCommand k cmd arg buf len s).2.2.log =
      sent s.log ++ frameBytes k (cmd % 256) (arg % 2 ^ 32) := by
  rw [SD_SendCommand_sent, if_pos (SD_SendCommand_ready k cmd arg buf len s h)]

theorem SD_SendACommand_sent_ok (k : Hdr) (cmd arg : Nat) (buf : Option Bytes) (len : Nat)
    (s : Drv) (h : (SD_SendACommand k cmd arg buf len s).1 ≤ 1) :
    sent (SD_SendACommand k cmd arg buf len s).2.2.log =
      sent s.log ++ frameBytes k (k.APP_CMD % 256) 0 ++
        frameBytes k (cmd % 256) (arg % 2 ^ 32) := by
  simp only [SD_SendACommand] at h ⊢
  by_cases h1 : (SD_SendCommand k k.APP_CMD 0 none 0 s).1 > 1
  · rw [if_pos h1] at h
    exact absurd h (by simpa using h1)
  · rw [if_neg h1] at h ⊢
    rw [SD_SendCommand_sent_ok k cmd arg buf len _ (by omega),
      SD_SendCommand_sent_ok k k.APP_CMD 0 none 0 s (by omega)]
    rfl

theorem shl32_16 (b : Nat) (hb : b < 256) : shl32 16 (b >>> 4) = 16 <<< (b >>> 4) := by
  have hn : b >>> 4 ≤ 15 := by
    rw [Nat.shiftRight_eq_div_pow]; norm_num; omega
  have hp : 2 ^ (b >>> 4) ≤ 2 ^ 15 := Nat.pow_le_pow_right (by norm_num) hn
  rw [shl32, if_pos (by omega), Nat.shiftLeft_eq]
  apply Nat.mod_eq_of_lt
  norm_num at hp ⊢
  omega

/-- The `switch` of `SD_ReadConfiguration` for an SD version 1 card: no bus activity. -/
theorem SD_ReadConfiguration_erase_sd1 (k : Hdr) (s : Drv)
    (hc : s.CardType = k.CARDTYPE_SDV1) (h1 : k.CARDTYPE_SDV1 ≠ k.CARDTYPE_SDV2_SC)
    (h2 : k.CARDTYPE_SDV1 ≠ k.CARDTYPE_SDV2_HC) (h3 : k.CARDTYPE_SDV1 ≠ k.CARDTYPE_MMC) :
    SD_ReadConfiguration_erase k s = (true, setBlocksize s (sdv1BlockSize s.CardConfig.csd)) := by
  simp [SD_ReadConfiguration_erase, hc, h1, h2, h3]

set_option maxRecDepth 100000 in
/-- C14 as stated fails: for the SD version 1 card `SD_ReadConfiguration` succeeds having
transmitted the three register reads only, no `SD_STATUS` app-command; the SD status the
card holds ready (allocation unit nibble 9) stays unread, and the erase block size is 32,
not `16 << 9`. -/
theorem sdv1_erase_block_counterexample :
    cardSD1.CardType = stdHdr.CARDTYPE_SDV1 ∧
    (SD_ReadConfiguration stdHdr cardSD1).1 = true ∧
    sent (SD_ReadConfiguration stdHdr cardSD1).2.log =
      sent cardSD1.log ++ frameBytes stdHdr stdHdr.READ_OCR 0 ++
        frameBytes stdHdr stdHdr.SEND_CID 0 ++ frameBytes stdHdr stdHdr.SEND_CSD 0 ∧
    (SD_ReadConfiguration stdHdr cardSD1).2.env = sdStatusScript ∧
    (SD_ReadConfiguration stdHdr cardSD1).2.CardConfig.blocksize = 32 ∧
    (32 : Nat) ≠ 16 <<< 9 := by
  decide

theorem recvFrames_stored (n : Nat) (data : Bytes) (off : Nat) (s : Drv) :
    (recvFrames data off n s).2.log =
      s.log ++ (List.range n).map (fun i => BusEv.recv ((recvFrames data off n s).1 (off + i))) := by
  induction n generalizing data off s with
  | zero => simp [recvFrames]
  | succ n ih =>
    simp only [recvFrames]
    rw [ih, ReceiveByte_log, List.range_succ_eq_map, List.map_cons, List.map_map,
      List.append_assoc]
    congr 1
    simp only [List.singleton_append, Nat.add_zero]
    rw [recvFrames_below _ _ _ _ _ (by omega)]
    congr 1
    · simp [poke]
    · apply List.map_congr_left
      intro i _
      simp only [Function.comp, Nat.succ_eq_add_one]
      rw [show off + 1 + i = off + (i + 1) by omega]

theorem SD_RecvDataBlock_bytes_stored (n : Nat) (buf : Bytes) (off : Nat) (s : Drv) :
    (SD_RecvDataBlock_bytes n buf off s).2.log =
      s.log ++ (List.range n).map
        (fun i => BusEv.recv ((SD_RecvDataBlock_bytes n buf off s).1 (off + i))) := by
  induction n generalizing buf off s with
  | zero => simp [SD_RecvDataBlock_bytes]
  | succ n ih =>
    simp only [SD_RecvDataBlock_bytes]
    rw [ih, List.range_succ_eq_map, List.map_cons, List.map_map]
    rw [SD_RecvDataBlock_bytes_below _ _ _ _ _ (by omega)]
    simp only [ReceiveDatafromSDCard, Nat.one_mod, recvFrames, ReceiveByte_log,
      List.append_assoc, List.singleton_append, Nat.add_zero]
    congr 2
    · simp [poke]
    · apply List.map_congr_left
      intro i _
      simp only [Function.comp, Nat.succ_eq_add_one]
      rw [show off + 1 + i = off + (i + 1) by omega]

theorem SD_RecvDataBlock_token_log (fuel tok : Nat) (s : Drv) (hf : 0 < fuel) :
    ∃ pre, (SD_RecvDataBlock_token fuel tok s).2.log =
      pre ++ [BusEv.recv (SD_RecvDataBlock_token fuel tok s).1] := by
  induction fuel generalizing tok s with
  | zero => omega
  | succ n ih =>
    simp only [SD_RecvDataBlock_token]
    split_ifs with h1 h2
    · exact ⟨_, ReceiveByte_log s⟩
    · cases n with
      | zero => exact ⟨_, by simpa [SD_RecvDataBlock_token] using ReceiveByte_log s⟩
      | succ m => exact ih _ _ (by omega)
    · exact ⟨_, ReceiveByte_log s⟩

/-- What a successful `SD_RecvDataBlock` of 16 bytes leaves in the buffer: the 16 bytes
received on the bus right after the start token `0xFE`, before the two CRC bytes. -/
theorem SD_RecvDataBlock_16_log (k : Hdr) (buf : Bytes) (s : Drv)
    (h : (SD_RecvDataBlock k buf 0 16 s).1 = true) :
    ∃ pre c1 c2, (SD_RecvDataBlock k buf 0 16 s).2.2.log =
      pre ++ [BusEv.recv 0xFE] ++
        (List.range 16).map (fun i => BusEv.recv ((SD_RecvDataBlock k buf 0 16 s).2.1 i)) ++
        [BusEv.recv c1, BusEv.recv c2] := by
  have e : (16 : Nat) % 2 ^ 32 = 16 := by norm_num
  have e2 : (16 : Nat) % 256 = 16 := by norm_num
  simp only [SD_RecvDataBlock, e] at h ⊢
  obtain ⟨pre, hpre⟩ := SD_RecvDataBlock_token_log
    (({ s with Timer1 := 10 } : Drv).env.length + ({ s with Timer1 := 10 } : Drv).Timer1 + 1) 0
    { s with Timer1 := 10 } (by omega)
  by_cases h1 : (SD_RecvDataBlock_token
      (({ s with Timer1 := 10 } : Drv).env.length + ({ s with Timer1 := 10 } : Drv).Timer1 + 1) 0
      { s with Timer1 := 10 }).1 ≠ 0xFE
  · rw [if_pos h1] at h
    exact absurd h (by simp)
  · rw [if_neg h1]
    rw [not_not.mp h1] at hpre
    generalize SD_RecvDataBlock_token _ _ _ = T at hpre ⊢
    by_cases hf : k.USE_FIFO = true
    · simp only [hf, if_true, ReceiveDatafromSDCard, e2, ReceiveByte_log]
      refine ⟨pre, (ReceiveByte (recvFrames buf 0 16 T.2).2).1,
        (ReceiveByte (ReceiveByte (recvFrames buf 0 16 T.2).2).2).1, ?_⟩
      rw [recvFrames_stored, hpre]
      simp
    · simp only [hf, Bool.false_eq_true, if_false, ReceiveByte_log]
      refine ⟨pre, (ReceiveByte (SD_RecvDataBlock_bytes 16 buf 0 T.2).2).1,
        (ReceiveByte (ReceiveByte (SD_RecvDataBlock_bytes 16 buf 0 T.2).2).2).1, ?_⟩
      rw [SD_RecvDataBlock_bytes_stored, hpre]
      simp

/-- When the body of `SD_ReadConfiguration` succeeds it has transmitted the frames of the
three register reads and reached the `switch` in the state `SD_ReadConfiguration_regs`, with
the card type it started with. -/
theorem SD_ReadConfiguration_regs_sent (k : Hdr) (s : Drv) (hR : k.R1_NO_ERROR ≠ 0x81)
    (h : (SD_ReadConfiguration_body k s).1 = true) :
    (SD_ReadConfiguration_regs k s).CardType = s.CardType ∧
    sent (SD_ReadConfiguration_regs k s).log =
      sent s.log ++ frameBytes k (k.READ_OCR % 256) 0 ++
        frameBytes k (k.SEND_CID % 256) 0 ++ frameBytes k (k.SEND_CSD % 256) 0 ∧
    SD_ReadConfiguration_body k s =
      SD_ReadConfiguration_erase k (SD_ReadConfiguration_regs k s) := by
  simp only [SD_ReadConfiguration_body, SD_ReadConfiguration_regs] at h ⊢
  split_ifs at h ⊢ with h1 h2 h3 h4 h5
  refine ⟨?_, ?_, rfl⟩
  · simp [setGeometry, setCsd, setCid, setOcr]
  · have e1 := SD_SendCommand_sent_ok k k.READ_OCR 0 (some s.CardConfig.ocr) 4 s
      (by rw [not_not.mp h1]; exact hR)
    have e2 := SD_SendCommand_sent_ok k k.SEND_CID 0 none 0 _ (by rw [not_not.mp h2]; exact hR)
    have e3 := SD_SendCommand_sent_ok k k.SEND_CSD 0 none 0 _ (by rw [not_not.mp h4]; exact hR)
    simp only [setGeometry, setCsd, setCid, setOcr, SD_RecvDataBlock_sent] at e1 e2 e3 ⊢
    rw [e3, e2, e1]
    rfl

/-- The `switch` of `SD_ReadConfiguration` for an SD version 2 card: the erase block size
comes from byte 10 of the buffer that the call `SD_RecvDataBlock(buf, 16)` after the
`SD_STATUS` app-command filled, and nothing is transmitted after that command. -/
theorem SD_ReadConfiguration_erase_status (k : Hdr) (s : Drv) (hR : k.R1_NO_ERROR ≤ 1)
    (hc : s.CardType = k.CARDTYPE_SDV2_SC ∨ s.CardType = k.CARDTYPE_SDV2_HC)
    (h : (SD_ReadConfiguration_erase k s).1 = true) :
    (SD_RecvDataBlock k
      ((SD_SendACommand k k.SD_STATUS 0 (some fun _ => 0) 1 s).2.1.getD fun _ => 0) 0 16
      (SD_SendACommand k k.SD_STATUS 0 (some fun _ => 0) 1 s).2.2).1 = true ∧
    (SD_ReadConfiguration_erase k s).2.CardConfig.blocksize =
      16 <<< ((SD_RecvDataBlock k
        ((SD_SendACommand k k.SD_STATUS 0 (some fun _ => 0) 1 s).2.1.getD fun _ => 0) 0 16
        (SD_SendACommand k k.SD_STATUS 0 (some fun _ => 0) 1 s).2.2).2.1 10 >>> 4) ∧
    sent (SD_ReadConfiguration_erase k s).2.log =
      sent s.log ++ frameBytes k (k.APP_CMD % 256) 0 ++ frameBytes k (k.SD_STATUS % 256) 0 ∧
    sent (SD_RecvDataBlock k
      ((SD_SendACommand k k.SD_STATUS 0 (some fun _ => 0) 1 s).2.1.getD fun _ => 0) 0 16
      (SD_SendACommand k k.SD_STATUS 0 (some fun _ => 0) 1 s).2.2).2.2.log =
      sent (SD_ReadConfiguration_erase k s).2.log := by
  simp only [SD_ReadConfiguration_erase, if_pos hc] at h ⊢
  split_ifs at h ⊢ with h1 h2
  have hr : (SD_RecvDataBlock k
      ((SD_SendACommand k k.SD_STATUS 0 (some fun _ => 0) 1 s).2.1.getD fun _ => 0) 0 16
      (SD_SendACommand k k.SD_STATUS 0 (some fun _ => 0) 1 s).2.2).1 = true := by
    simpa using h2
  have hb := SD_RecvDataBlock_16 k _ _ hr
  refine ⟨hr, ?_, ?_, ?_⟩
  · simp only [setBlocksize]
    exact shl32_16 _ (hb 10 (by norm_num))
  · have e := SD_SendACommand_sent_ok k k.SD_STATUS 0 (some fun _ => 0) 1 s
      (by rw [not_not.mp h1]; exact hR)
    simp only [setBlocksize, purge_sent, SD_RecvDataBlock_sent]
    rw [e]
    rfl
  · simp only [setBlocksize, purge_sent, SD_RecvDataBlock_sent]

/-- C14 amended: after a successful `SD_ReadConfiguration` on an SDv2-SC or SDv2-HC card,
the frames transmitted are those of the three register reads followed by `APP_CMD` and
`SD_STATUS`; the call `SD_RecvDataBlock(buf, 16)` that follows the `SD_STATUS` app-command
has succeeded, the 16 bytes it left in `buf` are the bytes received on the bus right after
the start token (after the last frame transmitted), and the erase block size is `16 << n`,
`n` being the high nibble of byte 10 of those.  On an SDv1 card no SD status is read: only
the three register reads are transmitted and the erase block size is the value computed
from bytes 10, 11 and 13 of the CSD. -/
theorem erase_block_size (k : Hdr) (s : Drv) (hR : k.R1_NO_ERROR ≤ 1)
    (hok : (SD_ReadConfiguration k s).1 = true) :
    (s.CardType = k.CARDTYPE_SDV2_SC ∨ s.CardType = k.CARDTYPE_SDV2_HC →
      (SD_ReadConfiguration_status16 k s).1 = true ∧
      (∀ i, i < 16 → (SD_ReadConfiguration_status16 k s).2.1 i < 256) ∧
      (∃ pre c1 c2, (SD_ReadConfiguration_status16 k s).2.2.log =
        pre ++ [BusEv.recv 0xFE] ++
          (List.range 16).map (fun i => BusEv.recv ((SD_ReadConfiguration_status16 k s).2.1 i)) ++
          [BusEv.recv c1, BusEv.recv c2]) ∧
      sent (SD_ReadConfiguration_status16 k s).2.2.log =
        sent (SD_ReadConfiguration k s).2.log ∧
      (SD_ReadConfiguration k s).2.CardConfig.blocksize =
        16 <<< ((SD_ReadConfiguration_status16 k s).2.1 10 >>> 4) ∧
      sent (SD_ReadConfiguration k s).2.log =
        sent s.log ++ frameBytes k (k.READ_OCR % 256) 0 ++
          frameBytes k (k.SEND_CID % 256) 0 ++ frameBytes k (k.SEND_CSD % 256) 0 ++
          frameBytes k (k.APP_CMD % 256) 0 ++ frameBytes k (k.SD_STATUS % 256) 0) ∧
    (s.CardType = k.CARDTYPE_SDV1 → k.CARDTYPE_SDV1 ≠ k.CARDTYPE_SDV2_SC →
      k.CARDTYPE_SDV1 ≠ k.CARDTYPE_SDV2_HC → k.CARDTYPE_SDV1 ≠ k.CARDTYPE_MMC →
      (SD_ReadConfiguration k s).2.CardConfig.blocksize =
        sdv1BlockSize (SD_ReadConfiguration k s).2.CardConfig.csd ∧
      sent (SD_ReadConfiguration k s).2.log =
        sent s.log ++ frameBytes k (k.READ_OCR % 256) 0 ++
          frameBytes k (k.SEND_CID % 256) 0 ++ frameBytes k (k.SEND_CSD % 256) 0) := by
  simp only [SD_ReadConfiguration] at hok ⊢
  obtain ⟨hct, hsent, hbody⟩ := SD_ReadConfiguration_regs_sent k s (by omega) hok
  rw [hbody] at hok ⊢
  simp only [SSELUnselect_keeps, SSELUnselect_sent]
  unfold SD_ReadConfiguration_status16 SD_ReadConfiguration_acmd13
  generalize SD_ReadConfiguration_regs k s = s3 at hct hsent hok ⊢
  refine ⟨fun hc => ?_, fun hc h1 h2 h3 => ?_⟩
  · obtain ⟨hr, hbs, hs, hs2⟩ :=
      SD_ReadConfiguration_erase_status k s3 hR (by rw [hct]; exact hc) hok
    exact ⟨hr, SD_RecvDataBlock_16 k _ _ hr, SD_RecvDataBlock_16_log k _ _ hr, hs2, hbs,
      by rw [hs, hsent]⟩
  · have e := SD_ReadConfiguration_erase_sd1 k s3 (by rw [hct]; exact hc) h1 h2 h3
    have hcsd : (SD_ReadConfiguration_erase k s3).2.CardConfig.csd = s3.CardConfig.csd :=
      (SD_ReadConfiguration_erase_keeps k s3).2.2.2.2.2.2.1
    refine ⟨?_, ?_⟩
    · rw [hcsd, e]
      rfl
    · rw [e]
      exact hsent

set_option maxRecDepth 100000 in
/-- C14 amended, at the high-capacity card, whose SD status has `0x90` in byte 10. -/
theorem erase_block_size_witness :
    stdHdr.R1_NO_ERROR ≤ 1 ∧ (SD_ReadConfiguration stdHdr cardHC).1 = true ∧
    cardHC.CardType = stdHdr.CARDTYPE_SDV2_HC ∧
    (SD_ReadConfiguration_status16 stdHdr cardHC).2.1 10 = 0x90 ∧
    (SD_ReadConfiguration stdHdr cardHC).2.CardConfig.blocksize = 16 <<< 9 ∧
    (SD_ReadConfiguration stdHdr cardHC).2.CardConfig.blocksize =
      16 <<< ((SD_ReadConfiguration_status16 stdHdr cardHC).2.1 10 >>> 4) :=
  ⟨by decide, by decide, by decide, by decide, by decide,
    ((erase_block_size stdHdr cardHC (by decide) (by decide)).1
      (Or.inr (by decide))).2.2.2.2.1⟩

theorem SD_ReadConfiguration_sdstatus (k : Hdr) (s : Drv) :
    (SD_ReadConfiguration k s).2.CardConfig.status = s.CardConfig.status := by
  simp only [SD_ReadConfiguration, SD_ReadConfiguration_body]
  split_ifs <;> simp [setOcr, setCid, setCsd, setGeometry]

/-- No call on the driver ever writes `CardConfig.status`. -/
theorem step_sdstatus (k : Hdr) (c : Call) (s : Drv) :
    (Call.step k c s).CardConfig.status = s.CardConfig.status := by
  cases c with
  | status pdrv => rfl
  | init pdrv =>
    simp only [Call.step, disk_initialize, MMC_disk_initialize]
    split_ifs <;> simp [SD_ReadConfiguration_sdstatus]
  | read pdrv buff sector count =>
    simp only [Call.step, disk_read]
    split_ifs <;> simp
  | write pdrv buff sector count =>
    simp only [Call.step, disk_write]
    split_ifs <;> simp
  | ioctl pdrv cmd buff =>
    simp only [Call.step, disk_ioctl]
    split_ifs <;> simp
  | timerproc => simp [Call.step, disk_timerproc_eq]

theorem run_sdstatus (k : Hdr) (cs : List Call) (s : Drv) :
    (run k cs s).CardConfig.status = s.CardConfig.status := by
  induction cs generalizing s with
  | nil => rfl
  | cons c cs ih => rw [run, ih, step_sdstatus]

set_option maxRecDepth 100000 in
/-- C15, the code at the failing input: the high-capacity card sent `0x90` in every one
of the first 16 bytes of its SD status during a successful initialization, yet
`MMC_disk_ioctl(MMC_GET_SDSTAT)` returns `RES_OK` with zeros in the caller's buffer, the
never written content of `CardConfig.status`, where `MMC_GET_CSD` returns the CSD
received. -/
theorem sd_status_not_stored :
    cardReady.status &&& stdHdr.STA_NOINIT = 0 ∧
    (MMC_disk_ioctl stdHdr stdHdr.MMC_GET_SDSTAT (fun _ => 0xAA) cardReady).1 = DRESULT.RES_OK ∧
    (MMC_disk_ioctl stdHdr stdHdr.MMC_GET_SDSTAT (fun _ => 0xAA) cardReady).2.1 0 = 0 ∧
    (MMC_disk_ioctl stdHdr stdHdr.MMC_GET_SDSTAT (fun _ => 0xAA) cardReady).2.1 10 = 0 ∧
    (MMC_disk_ioctl stdHdr stdHdr.MMC_GET_SDSTAT (fun _ => 0xAA) cardReady).2.1 63 = 0 ∧
    (MMC_disk_ioctl stdHdr stdHdr.MMC_GET_CSD (fun _ => 0xAA) cardReady).2.1 9 = 0x3F ∧
    cardReady.CardConfig.blocksize = 16 <<< (0x90 >>> 4) := by
  decide

/-! ## The timer service (C16) -/

/-- C16: one call of `disk_timerproc` maps `(Timer1, Timer2)` to `(max (Timer1 - 1) 0,
max (Timer2 - 1) 0)`: a nonzero timer goes down by one, a timer at zero stays at zero (a
16-bit timer stays 16-bit, it does not wrap to `0xFFFF`), each timer's new value depends
on its own old value only, and nothing else in the driver state changes. -/
theorem timerproc_floor (s : Drv) :
    ((disk_timerproc s).Timer1 : Int) = max ((s.Timer1 : Int) - 1) 0 ∧
    ((disk_timerproc s).Timer2 : Int) = max ((s.Timer2 : Int) - 1) 0 ∧
    (s.Timer1 ≠ 0 → (disk_timerproc s).Timer1 + 1 = s.Timer1) ∧
    (s.Timer2 ≠ 0 → (disk_timerproc s).Timer2 + 1 = s.Timer2) ∧
    (s.Timer1 = 0 → (disk_timerproc s).Timer1 = 0) ∧
    (s.Timer2 = 0 → (disk_timerproc s).Timer2 = 0) ∧
    (s.Timer1 < 2 ^ 16 → (disk_timerproc s).Timer1 < 2 ^ 16 - 1) ∧
    (s.Timer2 < 2 ^ 16 → (disk_timerproc s).Timer2 < 2 ^ 16 - 1) ∧
    disk_timerproc s =
      { s with Timer1 := (disk_timerproc s).Timer1, Timer2 := (disk_timerproc s).Timer2 } := by
  rw [disk_timerproc_eq]
  simp only []
  refine ⟨by omega, by omega, by omega, by omega, by omega, by omega, ?_, ?_, trivial⟩
  · intro h; norm_num at h ⊢; omega
  · intro h; norm_num at h ⊢; omega

/-! ## A card that never answers (C17) -/

theorem frames_append (l₁ l₂ : List BusEv) : frames (l₁ ++ l₂) = frames l₁ + frames l₂ := by
  induction l₁ with
  | nil => simp [frames]
  | cons e l ih => cases e <;> simp [frames, ih] <;> omega

theorem SSP_frame_allFF (s : Drv) (h : allFF s.env) :
    (SSP_frame s).1 = 0xFF ∧ allFF (SSP_frame s).2.env := by
  obtain ⟨st, t1, t2, ct, cc, env, log⟩ := s
  cases env with
  | nil => simp [SSP_frame, ticks_eq, allFF]
  | cons e es =>
    simp only [SSP_frame, ticks_eq]
    exact ⟨h e (List.mem_cons_self _ _), fun x hx => h x (List.mem_cons_of_mem _ hx)⟩

theorem ReceiveByte_allFF (s : Drv) (h : allFF s.env) :
    (ReceiveByte s).1 = 0xFF ∧ allFF (ReceiveByte s).2.env ∧
    frames (ReceiveByte s).2.log = frames s.log + 1 := by
  obtain ⟨h1, h2⟩ := SSP_frame_allFF s h
  refine ⟨by simpa [ReceiveByte] using h1, by simpa [ReceiveByte] using h2, ?_⟩
  rw [ReceiveByte_log, frames_append]
  simp [frames]

theorem SendByte_allFF (b : Nat) (s : Drv) (h : allFF s.env) :
    allFF (SendByte b s).env ∧ frames (SendByte b s).log = frames s.log + 1 := by
  obtain ⟨-, h2⟩ := SSP_frame_allFF s h
  refine ⟨by simpa [SendByte] using h2, ?_⟩
  rw [SendByte_log, frames_append]
  simp [frames]

theorem SD_WaitForReady_allFF (s : Drv) (h : allFF s.env) :
    (SD_WaitForReady s).1 = true ∧ allFF (SD_WaitForReady s).2.env ∧
    frames (SD_WaitForReady s).2.log = frames s.log + 2 := by
  have h0 : allFF ({ s with Timer2 := 50 } : Drv).env := h
  obtain ⟨-, a2, a3⟩ := ReceiveByte_allFF _ h0
  obtain ⟨b1, b2, b3⟩ := ReceiveByte_allFF _ a2
  simp only [SD_WaitForReady, SD_WaitForReady_loop, if_pos b1]
  exact ⟨trivial, b2, by rw [b3, a3]⟩

theorem SD_SendCommand_poll_allFF (i r1 : Nat) (s : Drv) (h : allFF s.env) :
    (SD_SendCommand_poll i r1 s).1 = 0 ∧ allFF (SD_SendCommand_poll i r1 s).2.2.env ∧
    frames (SD_SendCommand_poll i r1 s).2.2.log = frames s.log + i := by
  induction i generalizing r1 s with
  | zero => exact ⟨rfl, h, rfl⟩
  | succ n ih =>
    obtain ⟨a1, a2, a3⟩ := ReceiveByte_allFF s h
    obtain ⟨b1, b2, b3⟩ := ih (ReceiveByte s).1 (ReceiveByte s).2 a2
    simp only [SD_SendCommand_poll]
    rw [if_neg (by simpa using a1)]
    exact ⟨b1, b2, by rw [b3, a3]; omega⟩

theorem sendFrame_allFF (k : Hdr) (cmd arg : Nat) (s : Drv) (h : allFF s.env) :
    allFF (sendFrame k cmd arg s).env ∧
    frames (sendFrame k cmd arg s).log = frames s.log + 6 := by
  simp only [sendFrame]
  obtain ⟨a1, b1⟩ := SendByte_allFF (cmd ||| 0x40) s h
  obtain ⟨a2, b2⟩ := SendByte_allFF (arg >>> 24) _ a1
  obtain ⟨a3, b3⟩ := SendByte_allFF (arg >>> 16) _ a2
  obtain ⟨a4, b4⟩ := SendByte_allFF (arg >>> 8) _ a3
  obtain ⟨a5, b5⟩ := SendByte_allFF arg _ a4
  obtain ⟨a6, b6⟩ := SendByte_allFF (crcStop k cmd) _ a5
  exact ⟨a6, by rw [b6, b5, b4, b3, b2, b1]⟩

/-- On a bus that reads `0xFF` throughout, `SD_SendCommand` finds the card ready, sends
the frame, polls eight times and returns the response time-out `0x82`: 16 frames. -/
theorem SD_SendCommand_allFF (k : Hdr) (cmd arg : Nat) (buf : Option Bytes) (len : Nat)
    (s : Drv) (h : allFF s.env) :
    (SD_SendCommand k cmd arg buf len s).1 = 0x82 ∧
    allFF (SD_SendCommand k cmd arg buf len s).2.2.env ∧
    frames (SD_SendCommand k cmd arg buf len s).2.2.log = frames s.log + 16 := by
  have h0 : allFF (SSELSelect s).env := h
  obtain ⟨a1, a2, a3⟩ := SD_WaitForReady_allFF _ h0
  obtain ⟨b2, b3⟩ := sendFrame_allFF k (cmd % 256) (arg % 2 ^ 32) _ a2
  obtain ⟨c1, c2, c3⟩ := SD_SendCommand_poll_allFF 8 ((arg % 2 ^ 32) >>> 8 % 256) _ b2
  have e : frames (SSELSelect s).log = frames s.log := by
    simp [SSELSelect, frames_append, frames]
  simp only [SD_SendCommand]
  rw [if_neg (by simp [a1]), if_pos c1]
  exact ⟨rfl, c2, by rw [c3, b3, a3, e]⟩

theorem SSELUnselect_allFF (s : Drv) (h : allFF s.env) :
    allFF (SSELUnselect s).env ∧ frames (SSELUnselect s).log = frames s.log + 1 := by
  have h0 : allFF ({ s with log := s.log ++ [BusEv.unsel] } : Drv).env := h
  obtain ⟨-, a2, a3⟩ := ReceiveByte_allFF _ h0
  simp only [SSELUnselect, ReceiveDiscard, ReceiveDatafromSDCard, recvFrames]
  refine ⟨a2, ?_⟩
  rw [a3]
  simp [frames_append, frames]

theorem SD_Init_clocks_allFF (buf : Bytes) (n : Nat) (s : Drv) (h : allFF s.env) :
    allFF (SD_Init_clocks buf n s).env ∧
    frames (SD_Init_clocks buf n s).log = frames s.log + n ∧
    sent (SD_Init_clocks buf n s).log = sent s.log ++ List.replicate n (buf 0 % 256) := by
  induction n generalizing s with
  | zero => exact ⟨h, rfl, by simp [SD_Init_clocks]⟩
  | succ n ih =>
    obtain ⟨a1, a2⟩ := SendByte_allFF (buf 0) s h
    have e : SendDatatoSDCard buf 0 1 s = SendByte (buf 0) s := rfl
    simp only [SD_Init_clocks, e]
    obtain ⟨b1, b2, b3⟩ := ih (SendByte (buf 0) s) a1
    refine ⟨b1, by rw [b2, a2]; omega, ?_⟩
    rw [b3, SendByte_sent, List.replicate_succ]
    simp

/-- `SD_Init` on a bus that reads `0xFF` throughout: the reset command times out, nothing
else is sent, 28 frames in all, and the card type is left Unknown. -/
theorem SD_Init_allFF (k : Hdr) (s : Drv) (h : allFF s.env)
    (hu : k.CARDTYPE_UNKNOWN < 256) (hidle : k.R1_IN_IDLE_STATE ≠ 0x82) :
    (SD_Init k s).1 = false ∧ (SD_Init k s).2.CardType = k.CARDTYPE_UNKNOWN ∧
    frames (SD_Init k s).2.log = frames s.log + 28 ∧
    sent (SD_Init k s).2.log =
      sent s.log ++ List.replicate 10 0xFF ++ frameBytes k (k.GO_IDLE_STATE % 256) 0 ∧
    (SD_SendCommand k k.GO_IDLE_STATE 0 none 0
      (SD_Init_clocks (poke (fun _ => 0) 0 0xFF) 10
        (SSELUnselect (setCardType s k.CARDTYPE_UNKNOWN)))).1 = 0x82 := by
  have h0 : allFF (setCardType s k.CARDTYPE_UNKNOWN).env := h
  obtain ⟨a1, a2⟩ := SSELUnselect_allFF _ h0
  obtain ⟨b1, b2, b3⟩ := SD_Init_clocks_allFF (poke (fun _ => 0) 0 0xFF) 10 _ a1
  obtain ⟨c1, c2, c3⟩ := SD_SendCommand_allFF k k.GO_IDLE_STATE 0 none 0 _ b1
  have hbody : SD_Init_body k s =
      (SD_SendCommand k k.GO_IDLE_STATE 0 none 0
        (SD_Init_clocks (poke (fun _ => 0) 0 0xFF) 10
          (SSELUnselect (setCardType s k.CARDTYPE_UNKNOWN)))).2.2 := by
    simp only [SD_Init_body]
    rw [if_pos (by rw [c1]; exact fun e => hidle e.symm)]
  obtain ⟨d1, d2⟩ := SSELUnselect_allFF _ c2
  have hct : (SSELUnselect (SD_Init_body k s)).CardType = k.CARDTYPE_UNKNOWN := by
    rw [hbody]
    simp [setCardType, Nat.mod_eq_of_lt hu]
  have hf0 : frames (setCardType s k.CARDTYPE_UNKNOWN).log = frames s.log := rfl
  have hs0 : sent (setCardType s k.CARDTYPE_UNKNOWN).log = sent s.log := rfl
  have hready := SD_SendCommand_ready k k.GO_IDLE_STATE 0 none 0
    (SD_Init_clocks (poke (fun _ => 0) 0 0xFF) 10
      (SSELUnselect (setCardType s k.CARDTYPE_UNKNOWN))) (by rw [c1]; norm_num)
  simp only [SD_Init]
  rw [if_pos hct]
  refine ⟨rfl, hct, ?_, ?_, c1⟩
  · show frames (SSELUnselect (SD_Init_body k s)).log = _
    rw [hbody, d2, c3, b2, a2, hf0]
  · show sent (SSELUnselect (SD_Init_body k s)).log = _
    rw [hbody, SSELUnselect_sent, SD_SendCommand_sent, if_pos hready, b3, SSELUnselect_sent, hs0]
    simp [poke]

/-- C17: from the state at program start, on a transport whose every received byte is
`0xFF` and whatever the timer interrupts do, `MMC_disk_initialize` returns after exactly
28 bus transfers: the reset command is answered by the response time-out `0x82`, no other
command is sent, `CardType` is left Unknown and the returned status has the
not-initialized bit set. -/
theorem dead_card_init (k : Hdr) (env : List Ev) (hff : allFF env)
    (hflag : k.STA_NOINIT % 256 ≠ 0) (hu : k.CARDTYPE_UNKNOWN < 256)
    (hidle : k.R1_IN_IDLE_STATE ≠ 0x82) :
    frames ( MMC_disk_initialize k (Drv.init k env)).2.log = 28 ∧
    sent ( MMC_disk_initialize k (Drv.init k env)).2.log =
      List.replicate 10 0xFF ++ frameBytes k (k.GO_IDLE_STATE % 256) 0 ∧
    (SD_SendCommand k k.GO_IDLE_STATE 0 none 0
      (SD_Init_clocks (poke (fun _ => 0) 0 0xFF) 10
        (SSELUnselect (setCardType (Drv.init k env) k.CARDTYPE_UNKNOWN)))).1 = 0x82 ∧
    ( MMC_disk_initialize k (Drv.init k env)).2.CardType = k.CARDTYPE_UNKNOWN ∧
    ( MMC_disk_initialize k (Drv.init k env)).1 &&& k.STA_NOINIT ≠ 0 := by
  obtain ⟨i1, i2, i3, i4, i5⟩ := SD_Init_allFF k (Drv.init k env) hff hu hidle
  have e : MMC_disk_initialize k (Drv.init k env) =
      ((SD_Init k (Drv.init k env)).2.status, (SD_Init k (Drv.init k env)).2) := by
    simp [ MMC_disk_initialize, i1]
  rw [e]
  refine ⟨by simpa [Drv.init, frames] using i3, by simpa [Drv.init, sent] using i4, i5, i2, ?_⟩
  show (SD_Init k (Drv.init k env)).2.status &&& k.STA_NOINIT ≠ 0
  rw [(SD_Init_keeps k _).1]
  simp only [Drv.init, mod_and_self]
  exact hflag

set_option maxRecDepth 100000 in
/-- C17 on an idle bus with timer interrupts at irregular moments. -/
theorem dead_card_init_witness :
    allFF deadScript ∧ stdHdr.STA_NOINIT % 256 ≠ 0 ∧ stdHdr.CARDTYPE_UNKNOWN < 256 ∧
    stdHdr.R1_IN_IDLE_STATE ≠ 0x82 ∧
    frames ( MMC_disk_initialize stdHdr (Drv.init stdHdr deadScript)).2.log = 28 :=
  ⟨by simp [allFF, deadScript], by decide, by decide, by decide,
    (dead_card_init stdHdr deadScript (by simp [allFF, deadScript]) (by decide) (by decide)
      (by decide)).1⟩

/-! ## Command byte and trailer (C18, C19) -/

set_option maxRecDepth 100000 in
theorem cmd_byte : ∀ cmd, cmd < 64 →
    cmd ||| 0x40 = cmd + 0x40 ∧ (cmd ||| 0x40) &&& 0xC0 = 0x40 ∧
    (cmd ||| 0x40) &&& 0x80 = 0 ∧ (cmd ||| 0x40) &&& 0x40 = 0x40 := by
  decide

set_option maxRecDepth 100000 in
/-- C18 as stated fails: the command byte transmitted for command index 0 is `0x40`,
whose top bit is clear. -/
theorem command_byte_counterexample :
    sent (SD_SendCommand stdHdr 0 0 none 0 (Drv.init stdHdr [])).2.2.log =
      [0x40, 0x00, 0x00, 0x00, 0x00, 0x95] ∧
    (0x40 : Nat) &&& 0x80 = 0 ∧ (0x40 : Nat) &&& 0xC0 ≠ 0xC0 := by
  decide

/-- C18 amended: for every command index in 0..63, the first byte of the frame
`SD_SendCommand` transmits is `0x40 + index`: its top two bits are 01, bit 7 clear and bit
6 set. -/
theorem command_byte (k : Hdr) (cmd arg : Nat) (buf : Option Bytes) (len : Nat) (s : Drv)
    (hc : cmd < 64) (hrdy : (SD_WaitForReady (SSELSelect s)).1 = true) :
    (∃ rest, sent (SD_SendCommand k cmd arg buf len s).2.2.log =
      sent s.log ++ (0x40 + cmd) :: rest ∧ rest.length = 5) ∧
    (0x40 + cmd) &&& 0xC0 = 0x40 ∧ (0x40 + cmd) &&& 0x80 = 0 ∧ (0x40 + cmd) &&& 0x40 = 0x40 := by
  obtain ⟨e1, e2, e4, e5⟩ := cmd_byte cmd hc
  have hm : cmd % 256 = cmd := Nat.mod_eq_of_lt (by omega)
  have e3 : 0x40 + cmd = cmd ||| 0x40 := by rw [e1]; omega
  refine ⟨⟨(frameBytes k cmd (arg % 2 ^ 32)).tail, ?_, rfl⟩, ?_, ?_, ?_⟩
  · rw [SD_SendCommand_sent, if_pos hrdy, hm, e3]
    rfl
  · rw [e3]; exact e2
  · rw [e3]; exact e4
  · rw [e3]; exact e5

set_option maxRecDepth 100000 in
/-- C18 amended, for command index 17 on an idle bus. -/
theorem command_byte_witness :
    (17 : Nat) < 64 ∧ (SD_WaitForReady (SSELSelect (Drv.init stdHdr []))).1 = true ∧
    (0x40 + 17) &&& 0xC0 = 0x40 :=
  ⟨by decide, by decide,
    (command_byte stdHdr 17 0 none 0 (Drv.init stdHdr []) (by decide) (by decide)).2.1⟩

theorem framesOf_append (k : Hdr) (a b : List (Nat × Nat)) :
    framesOf k (a ++ b) = framesOf k a ++ framesOf k b := by
  induction a with
  | nil => rfl
  | cons c cs ih => simp [framesOf, ih]

theorem Issued.of_eq (k : Hdr) {l l' : List BusEv} (h : sent l' = sent l) : Issued k l l' :=
  ⟨[], by simp, by simp [framesOf, h]⟩

theorem Issued.trans {k : Hdr} {a b c : List BusEv} (h₁ : Issued k a b) (h₂ : Issued k b c) :
    Issued k a c := by
  obtain ⟨c₁, m₁, e₁⟩ := h₁
  obtain ⟨c₂, m₂, e₂⟩ := h₂
  refine ⟨c₁ ++ c₂, ?_, by rw [e₂, e₁, framesOf_append, List.append_assoc]⟩
  intro c hc
  rcases List.mem_append.mp hc with h | h
  · exact m₁ c h
  · exact m₂ c h

theorem SD_SendCommand_issued (k : Hdr) (cmd arg : Nat) (buf : Option Bytes) (len : Nat)
    (s : Drv) (h : (cmd, arg) ∈ initCmds k) :
    Issued k s.log (SD_SendCommand k cmd arg buf len s).2.2.log := by
  by_cases hw : (SD_WaitForReady (SSELSelect s)).1 = true
  · refine ⟨[(cmd, arg)], by simpa using h, ?_⟩
    rw [SD_SendCommand_sent, if_pos hw]
    simp [framesOf]
  · exact Issued.of_eq k (by rw [SD_SendCommand_sent, if_neg hw]; simp)

theorem SD_SendACommand_issued (k : Hdr) (cmd arg : Nat) (buf : Option Bytes) (len : Nat)
    (s : Drv) (h : (cmd, arg) ∈ initCmds k) :
    Issued k s.log (SD_SendACommand k cmd arg buf len s).2.2.log := by
  have ha : (k.APP_CMD, 0) ∈ initCmds k := by simp [initCmds]
  simp only [SD_SendACommand]
  split_ifs
  · exact SD_SendCommand_issued k _ _ _ _ s ha
  · exact (SD_SendCommand_issued k _ _ _ _ s ha).trans (SD_SendCommand_issued k _ _ _ _ _ h)

theorem SD_Init_v2loop_issued (k : Hdr) (fuel : Nat) (s : Drv) :
    Issued k s.log (SD_Init_v2loop k fuel s).2.log := by
  have hm : (k.SD_SEND_OP_COND, 0x40000000) ∈ initCmds k := by simp [initCmds]
  induction fuel generalizing s with
  | zero => exact Issued.of_eq k rfl
  | succ n ih =>
    simp only [SD_Init_v2loop]
    split_ifs
    · exact SD_SendACommand_issued k _ _ _ _ s hm
    · exact SD_SendACommand_issued k _ _ _ _ s hm
    · exact (SD_SendACommand_issued k _ _ _ _ s hm).trans (ih _)
    · exact SD_SendACommand_issued k _ _ _ _ s hm

theorem SD_Init_mmcloop_issued (k : Hdr) (fuel : Nat) (s : Drv) :
    Issued k s.log (SD_Init_mmcloop k fuel s).log := by
  have hm : (k.SEND_OP_COND, 0) ∈ initCmds k := by simp [initCmds]
  induction fuel generalizing s with
  | zero => exact Issued.of_eq k rfl
  | succ n ih =>
    simp only [SD_Init_mmcloop]
    split_ifs
    · exact (SD_SendCommand_issued k _ _ _ _ s hm).trans (ih _)
    · exact SD_SendCommand_issued k _ _ _ _ s hm
    · exact Issued.of_eq k rfl

theorem SD_Init_sdloop_issued (k : Hdr) (fuel : Nat) (s : Drv) :
    Issued k s.log (SD_Init_sdloop k fuel s).log := by
  have hm : (k.SD_SEND_OP_COND, 0) ∈ initCmds k := by simp [initCmds]
  induction fuel generalizing s with
  | zero => exact Issued.of_eq k rfl
  | succ n ih =>
    simp only [SD_Init_sdloop]
    split_ifs
    · exact (SD_SendACommand_issued k _ _ _ _ s hm).trans (ih _)
    · exact SD_SendACommand_issued k _ _ _ _ s hm
    · exact Issued.of_eq k rfl

theorem SD_Init_blocklen_issued (k : Hdr) (s : Drv) :
    Issued k s.log (SD_Init_blocklen k s).log := by
  have hm : (k.SET_BLOCKLEN, k.SECTOR_SIZE) ∈ initCmds k := by simp [initCmds]
  simp only [SD_Init_blocklen]
  split_ifs
  · exact SD_SendCommand_issued k _ _ _ _ s hm
  · exact SD_SendCommand_issued k _ _ _ _ s hm
  · exact Issued.of_eq k rfl

theorem SD_Init_v2_issued (k : Hdr) (buf : Bytes) (s : Drv) :
    Issued k s.log (SD_Init_v2 k buf s).log := by
  have hm : (k.READ_OCR, 0) ∈ initCmds k := by simp [initCmds]
  unfold SD_Init_v2
  simp only []
  by_cases h1 : buf 2 ≠ 0x01 ∨ buf 3 ≠ 0xAA
  · rw [if_pos h1]
    exact Issued.of_eq k rfl
  · rw [if_neg h1]
    have hl := SD_Init_v2loop_issued k (s.env.length + s.Timer1 + 1) s
    generalize SD_Init_v2loop k (s.env.length + s.Timer1 + 1) s = L at hl ⊢
    by_cases h2 : L.1 = true
    · rw [if_pos h2]
      exact hl
    · rw [if_neg h2]
      by_cases h3 : L.2.Timer1 ≠ 0
      · rw [if_pos h3]
        have ho := SD_SendCommand_issued k k.READ_OCR 0 (some buf) 4 L.2 hm
        generalize SD_SendCommand k k.READ_OCR 0 (some buf) 4 L.2 = O at ho ⊢
        by_cases h4 : O.1 = k.R1_NO_ERROR
        · rw [if_pos h4]
          generalize (if (O.2.1.getD buf) 0 &&& 0x40 ≠ 0 then k.CARDTYPE_SDV2_HC
            else k.CARDTYPE_SDV2_SC) = v
          have hb := SD_Init_blocklen_issued k (setCardType O.2.2 v)
          exact hl.trans (ho.trans hb)
        · rw [if_neg h4]
          exact hl.trans (ho.trans (SD_Init_blocklen_issued k O.2.2))
      · rw [if_neg h3]
        exact hl.trans (SD_Init_blocklen_issued k L.2)

theorem SD_Init_legacy_issued (k : Hdr) (s : Drv) :
    Issued k s.log (SD_Init_legacy k s).log := by
  have hm : (k.APP_CMD, 0) ∈ initCmds k := by simp [initCmds]
  have h0 := SD_SendCommand_issued k k.APP_CMD 0 none 0 s hm
  unfold SD_Init_legacy
  simp only []
  generalize SD_SendCommand k k.APP_CMD 0 none 0 s = P at h0 ⊢
  have hl : Issued k s.log
      (if P.1 &&& k.R1_ILLEGAL_CMD ≠ 0 then
        SD_Init_mmcloop k ((setCardType P.2.2 k.CARDTYPE_MMC).env.length +
          (setCardType P.2.2 k.CARDTYPE_MMC).Timer1 + 1) (setCardType P.2.2 k.CARDTYPE_MMC)
       else
        SD_Init_sdloop k ((setCardType P.2.2 k.CARDTYPE_SDV1).env.length +
          (setCardType P.2.2 k.CARDTYPE_SDV1).Timer1 + 1)
          (setCardType P.2.2 k.CARDTYPE_SDV1)).log := by
    by_cases h1 : P.1 &&& k.R1_ILLEGAL_CMD ≠ 0
    · rw [if_pos h1]
      exact h0.trans (SD_Init_mmcloop_issued k _ (setCardType P.2.2 k.CARDTYPE_MMC))
    · rw [if_neg h1]
      exact h0.trans (SD_Init_sdloop_issued k _ (setCardType P.2.2 k.CARDTYPE_SDV1))
  generalize (if P.1 &&& k.R1_ILLEGAL_CMD ≠ 0 then
        SD_Init_mmcloop k ((setCardType P.2.2 k.CARDTYPE_MMC).env.length +
          (setCardType P.2.2 k.CARDTYPE_MMC).Timer1 + 1) (setCardType P.2.2 k.CARDTYPE_MMC)
       else
        SD_Init_sdloop k ((setCardType P.2.2 k.CARDTYPE_SDV1).env.length +
          (setCardType P.2.2 k.CARDTYPE_SDV1).Timer1 + 1)
          (setCardType P.2.2 k.CARDTYPE_SDV1)) = L at hl ⊢
  by_cases h2 : L.Timer1 = 0
  · rw [if_pos h2]
    exact hl.trans (SD_Init_blocklen_issued k (setCardType L k.CARDTYPE_UNKNOWN))
  · rw [if_neg h2]
    exact hl.trans (SD_Init_blocklen_issued k L)

theorem SD_Init_clocks_sent (buf : Bytes) (n : Nat) (s : Drv) :
    sent (SD_Init_clocks buf n s).log = sent s.log ++ List.replicate n (buf 0 % 256) := by
  induction n generalizing s with
  | zero => simp [SD_Init_clocks]
  | succ n ih =>
    simp only [SD_Init_clocks]
    rw [ih, SendDatatoSDCard_sent, List.replicate_succ]
    simp [payload]

theorem SD_Init_body_issued (k : Hdr) (s : Drv) :
    Issued k
      (SD_Init_clocks (poke (fun _ => 0) 0 0xFF) 10
        (SSELUnselect (setCardType s k.CARDTYPE_UNKNOWN))).log
      (SD_Init_body k s).log := by
  have hm0 : (k.GO_IDLE_STATE, 0) ∈ initCmds k := by simp [initCmds]
  have hm8 : (k.SEND_IF_COND, 0x1AA) ∈ initCmds k := by simp [initCmds]
  unfold SD_Init_body
  simp only []
  generalize SD_Init_clocks (poke (fun _ => 0) 0 0xFF) 10
    (SSELUnselect (setCardType s k.CARDTYPE_UNKNOWN)) = s2
  have h0 := SD_SendCommand_issued k k.GO_IDLE_STATE 0 none 0 s2 hm0
  generalize SD_SendCommand k k.GO_IDLE_STATE 0 none 0 s2 = C0 at h0 ⊢
  by_cases h1 : C0.1 ≠ k.R1_IN_IDLE_STATE
  · rw [if_pos h1]
    exact h0
  · rw [if_neg h1]
    have h8 := SD_SendCommand_issued k k.SEND_IF_COND 0x1AA
      (some (poke (fun _ => 0) 0 0xFF)) 4 C0.2.2 hm8
    generalize SD_SendCommand k k.SEND_IF_COND 0x1AA (some (poke (fun _ => 0) 0 0xFF)) 4
      C0.2.2 = C8 at h8 ⊢
    by_cases h2 : C8.1 &&& 0x80 ≠ 0
    · rw [if_pos h2]
      exact h0.trans h8
    · rw [if_neg h2]
      by_cases h3 : C8.1 = k.R1_IN_IDLE_STATE
      · rw [if_pos h3]
        exact h0.trans (h8.trans
          (SD_Init_v2_issued k (C8.2.1.getD (poke (fun _ => 0) 0 0xFF))
            { C8.2.2 with Timer1 := 100 }))
      · rw [if_neg h3]
        exact h0.trans (h8.trans (SD_Init_legacy_issued k { C8.2.2 with Timer1 := 100 }))

/-- The bytes `SD_Init` transmits: ten `0xFF` and then frames of commands of `initCmds`. -/
theorem SD_Init_sent (k : Hdr) (s : Drv) :
    ∃ cs, (∀ c ∈ cs, c ∈ initCmds k) ∧
      sent (SD_Init k s).2.log = sent s.log ++ List.replicate 10 0xFF ++ framesOf k cs := by
  obtain ⟨cs, hc, hs⟩ := SD_Init_body_issued k s
  refine ⟨cs, hc, ?_⟩
  have e : sent (SD_Init k s).2.log = sent (SD_Init_body k s).log := by
    simp only [SD_Init]
    split_ifs <;> simp
  rw [e, hs, SD_Init_clocks_sent, SSELUnselect_sent]
  simp [setCardType, poke]

theorem SD_ReadConfiguration_erase_issued (k : Hdr) (s : Drv) :
    Issued k s.log (SD_ReadConfiguration_erase k s).2.log := by
  have hm : (k.SD_STATUS, 0) ∈ initCmds k := by simp [initCmds]
  unfold SD_ReadConfiguration_erase
  simp only []
  by_cases h1 : s.CardType = k.CARDTYPE_SDV2_SC ∨ s.CardType = k.CARDTYPE_SDV2_HC
  · rw [if_pos h1]
    have ha := SD_SendACommand_issued k k.SD_STATUS 0 (some fun _ => 0) 1 s hm
    generalize SD_SendACommand k k.SD_STATUS 0 (some fun _ => 0) 1 s = A at ha ⊢
    by_cases h2 : A.1 ≠ k.R1_NO_ERROR
    · rw [if_pos h2]
      exact ha
    · rw [if_neg h2]
      by_cases h3 : (SD_RecvDataBlock k (A.2.1.getD fun _ => 0) 0 16 A.2.2).1 = false
      · rw [if_pos h3]
        exact ha.trans (Issued.of_eq k (by simp))
      · rw [if_neg h3]
        exact ha.trans (Issued.of_eq k (by simp [setBlocksize]))
  · rw [if_neg h1]
    split_ifs <;> exact Issued.of_eq k rfl

theorem SD_ReadConfiguration_issued (k : Hdr) (s : Drv) :
    Issued k s.log (SD_ReadConfiguration k s).2.log := by
  have hmo : (k.READ_OCR, 0) ∈ initCmds k := by simp [initCmds]
  have hmi : (k.SEND_CID, 0) ∈ initCmds k := by simp [initCmds]
  have hms : (k.SEND_CSD, 0) ∈ initCmds k := by simp [initCmds]
  have hu : ∀ x : Bool × Drv, Issued k s.log x.2.log → Issued k s.log (x.1, SSELUnselect x.2).2.log :=
    fun x hx => hx.trans (Issued.of_eq k (by simp))
  unfold SD_ReadConfiguration
  simp only []
  apply hu
  unfold SD_ReadConfiguration_body
  simp only []
  have ho := SD_SendCommand_issued k k.READ_OCR 0 (some s.CardConfig.ocr) 4 s hmo
  generalize SD_SendCommand k k.READ_OCR 0 (some s.CardConfig.ocr) 4 s = O at ho ⊢
  by_cases h1 : O.1 ≠ k.R1_NO_ERROR
  · rw [if_pos h1]
    exact ho
  · rw [if_neg h1]
    have hs1 : Issued k s.log (setOcr O.2.2 (O.2.1.getD s.CardConfig.ocr)).log := ho
    generalize setOcr O.2.2 (O.2.1.getD s.CardConfig.ocr) = s1 at hs1 ⊢
    have hc := SD_SendCommand_issued k k.SEND_CID 0 none 0 s1 hmi
    generalize SD_SendCommand k k.SEND_CID 0 none 0 s1 = C at hc ⊢
    by_cases h2 : C.1 ≠ k.R1_NO_ERROR
    · rw [if_pos h2]
      exact hs1.trans hc
    · rw [if_neg h2]
      have hr : Issued k s.log
          (setCid (SD_RecvDataBlock k C.2.2.CardConfig.cid 0 16 C.2.2).2.2
            (SD_RecvDataBlock k C.2.2.CardConfig.cid 0 16 C.2.2).2.1).log :=
        (hs1.trans hc).trans (Issued.of_eq k (by simp [setCid]))
      by_cases h3 : (SD_RecvDataBlock k C.2.2.CardConfig.cid 0 16 C.2.2).1 = false
      · rw [if_pos h3]
        exact hr
      · rw [if_neg h3]
        generalize setCid (SD_RecvDataBlock k C.2.2.CardConfig.cid 0 16 C.2.2).2.2
            (SD_RecvDataBlock k C.2.2.CardConfig.cid 0 16 C.2.2).2.1 = s2 at hr ⊢
        have hd := SD_SendCommand_issued k k.SEND_CSD 0 none 0 s2 hms
        generalize SD_SendCommand k k.SEND_CSD 0 none 0 s2 = D at hd ⊢
        by_cases h4 : D.1 ≠ k.R1_NO_ERROR
        · rw [if_pos h4]
          exact hr.trans hd
        · rw [if_neg h4]
          have hq : Issued k s.log
              (setCsd (SD_RecvDataBlock k D.2.2.CardConfig.csd 0 16 D.2.2).2.2
                (SD_RecvDataBlock k D.2.2.CardConfig.csd 0 16 D.2.2).2.1).log :=
            (hr.trans hd).trans (Issued.of_eq k (by simp [setCsd]))
          by_cases h5 : (SD_RecvDataBlock k D.2.2.CardConfig.csd 0 16 D.2.2).1 = false
          · rw [if_pos h5]
            exact hq
          · rw [if_neg h5]
            generalize setCsd (SD_RecvDataBlock k D.2.2.CardConfig.csd 0 16 D.2.2).2.2
                (SD_RecvDataBlock k D.2.2.CardConfig.csd 0 16 D.2.2).2.1 = s3 at hq ⊢
            have hg : Issued k s.log (setGeometry s3).log := hq
            exact hg.trans (SD_ReadConfiguration_erase_issued k (setGeometry s3))

/-- The bytes one `MMC_disk_initialize` transmits: ten `0xFF` and then frames of commands
of `initCmds`. -/
theorem MMC_disk_initialize_sent (k : Hdr) (s : Drv) :
    ∃ cs, (∀ c ∈ cs, c ∈ initCmds k) ∧
      sent ( MMC_disk_initialize k s).2.log =
        sent s.log ++ List.replicate 10 0xFF ++ framesOf k cs := by
  obtain ⟨cs, hc, hs⟩ := SD_Init_sent k s
  obtain ⟨cs', hc', hs'⟩ := SD_ReadConfiguration_issued k (SD_Init k s).2
  by_cases h1 : (SD_Init k s).1 = true
  · refine ⟨cs ++ cs', ?_, ?_⟩
    · intro c hcm
      rcases List.mem_append.mp hcm with h | h
      · exact hc c h
      · exact hc' c h
    · have e : sent ( MMC_disk_initialize k s).2.log =
          sent (SD_ReadConfiguration k (SD_Init k s).2).2.log := by
        simp only [ MMC_disk_initialize, if_pos h1]
        split_ifs <;> rfl
      rw [e, hs', hs, framesOf_append]
      simp only [List.append_assoc]
  · refine ⟨cs, hc, ?_⟩
    have e : sent ( MMC_disk_initialize k s).2.log = sent (SD_Init k s).2.log := by
      simp only [ MMC_disk_initialize, if_neg h1]
    rw [e, hs]

theorem initCmds_args (k : Hdr) (h0 : k.GO_IDLE_STATE = 0) (h8 : k.SEND_IF_COND = 8)
    (hoth : ∀ c ∈ [k.APP_CMD, k.SD_SEND_OP_COND, k.READ_OCR, k.SEND_OP_COND, k.SET_BLOCKLEN,
      k.SEND_CID, k.SEND_CSD, k.SD_STATUS], c % 256 ≠ 0 ∧ c % 256 ≠ 8) :
    ∀ c ∈ initCmds k, (c.1 % 256 = 0 → c.2 % 2 ^ 32 = 0) ∧
      (c.1 % 256 = 8 → c.2 % 2 ^ 32 = 0x1AA) := by
  have a1 := hoth k.APP_CMD (by simp)
  have a2 := hoth k.SD_SEND_OP_COND (by simp)
  have a3 := hoth k.READ_OCR (by simp)
  have a4 := hoth k.SEND_OP_COND (by simp)
  have a5 := hoth k.SET_BLOCKLEN (by simp)
  have a6 := hoth k.SEND_CID (by simp)
  have a7 := hoth k.SEND_CSD (by simp)
  have a8 := hoth k.SD_STATUS (by simp)
  intro c hc
  simp only [initCmds, List.mem_cons, List.mem_singleton, List.not_mem_nil, or_false] at hc
  rcases hc with rfl | rfl | rfl | rfl | rfl | rfl | rfl | rfl | rfl | rfl | rfl
  · simp [h0]
  · simp [h8]
  · exact ⟨fun h => absurd h a1.1, fun h => absurd h a1.2⟩
  · exact ⟨fun h => absurd h a2.1, fun h => absurd h a2.2⟩
  · exact ⟨fun h => absurd h a2.1, fun h => absurd h a2.2⟩
  · exact ⟨fun h => absurd h a3.1, fun h => absurd h a3.2⟩
  · exact ⟨fun h => absurd h a4.1, fun h => absurd h a4.2⟩
  · exact ⟨fun h => absurd h a5.1, fun h => absurd h a5.2⟩
  · exact ⟨fun h => absurd h a6.1, fun h => absurd h a6.2⟩
  · exact ⟨fun h => absurd h a7.1, fun h => absurd h a7.2⟩
  · exact ⟨fun h => absurd h a8.1, fun h => absurd h a8.2⟩

set_option maxRecDepth 100000 in
/-- C19: with the reset command at index 0 and the interface-condition command at index
8, the trailer of the reset frame with argument 0 is `0x95` and that of the
interface-condition frame with argument `0x1AA` is `0x87`, each `(crc7 << 1) | 1` for the
CRC-7 (polynomial `x^7 + x^3 + 1`, initial value 0) of the five bytes before it; for every
other command index and every argument the trailer is `0x01`.  And in the frames an
initialization transmits, index 0 occurs with argument 0 only and index 8 with argument
`0x1AA` only. -/
theorem trailer_crc (k : Hdr) (h0 : k.GO_IDLE_STATE = 0) (h8 : k.SEND_IF_COND = 8)
    (hoth : ∀ c ∈ [k.APP_CMD, k.SD_SEND_OP_COND, k.READ_OCR, k.SEND_OP_COND, k.SET_BLOCKLEN,
      k.SEND_CID, k.SEND_CSD, k.SD_STATUS], c % 256 ≠ 0 ∧ c % 256 ≠ 8) :
    (frameBytes k 0 0 = [0x40, 0x00, 0x00, 0x00, 0x00, 0x95] ∧
      crcStop k 0 = (crc7 ((frameBytes k 0 0).take 5) <<< 1) ||| 1) ∧
    (frameBytes k 8 0x1AA = [0x48, 0x00, 0x00, 0x01, 0xAA, 0x87] ∧
      crcStop k 8 = (crc7 ((frameBytes k 8 0x1AA).take 5) <<< 1) ||| 1) ∧
    (∀ cmd arg, cmd ≠ 0 → cmd ≠ 8 →
      crcStop k cmd = 0x01 ∧ (frameBytes k cmd arg).getLast? = some 0x01) ∧
    (∀ s, ∃ cs,
      sent ( MMC_disk_initialize k s).2.log =
        sent s.log ++ List.replicate 10 0xFF ++ framesOf k cs ∧
      ∀ c ∈ cs, (c.1 % 256 = 0 → c.2 % 2 ^ 32 = 0) ∧
        (c.1 % 256 = 8 → c.2 % 2 ^ 32 = 0x1AA)) := by
  have c0 : crcStop k 0 = 0x95 := by simp [crcStop, h0]
  have c8 : crcStop k 8 = 0x87 := by simp [crcStop, h0, h8]
  have f0 : frameBytes k 0 0 = [0x40, 0x00, 0x00, 0x00, 0x00, 0x95] := by
    simp [frameBytes, c0]
  have f8 : frameBytes k 8 0x1AA = [0x48, 0x00, 0x00, 0x01, 0xAA, 0x87] := by
    simp only [frameBytes, c8]
    decide
  refine ⟨⟨f0, ?_⟩, ⟨f8, ?_⟩, ?_, ?_⟩
  · rw [f0, c0]
    decide
  · rw [f8, c8]
    decide
  · intro cmd arg hc0 hc8
    have e : crcStop k cmd = 0x01 := by
      simp [crcStop, h0, h8, hc0, hc8]
    exact ⟨e, by simp [frameBytes, e]⟩
  · intro s
    obtain ⟨cs, hc, hs⟩ := MMC_disk_initialize_sent k s
    exact ⟨cs, hs, fun c hcm => initCmds_args k h0 h8 hoth c (hc c hcm)⟩

set_option maxRecDepth 100000 in
/-- C19 with the command indices of the SD specification. -/
theorem trailer_crc_witness :
    stdHdr.GO_IDLE_STATE = 0 ∧ stdHdr.SEND_IF_COND = 8 ∧
    (∀ c ∈ [stdHdr.APP_CMD, stdHdr.SD_SEND_OP_COND, stdHdr.READ_OCR, stdHdr.SEND_OP_COND,
      stdHdr.SET_BLOCKLEN, stdHdr.SEND_CID, stdHdr.SEND_CSD, stdHdr.SD_STATUS],
      c % 256 ≠ 0 ∧ c % 256 ≠ 8) ∧
    crc7 [0x40, 0x00, 0x00, 0x00, 0x00] = 0x4A ∧ crc7 [0x48, 0x00, 0x00, 0x01, 0xAA] = 0x43 ∧
    crcStop stdHdr 0 = (crc7 ((frameBytes stdHdr 0 0).take 5) <<< 1) ||| 1 :=
  ⟨by decide, by decide, by decide, by decide, by decide,
    (trailer_crc stdHdr (by decide) (by decide) (by decide)).1.2⟩

/-! ## Stop transmission (C20) -/

set_option maxRecDepth 100000 in
/-- C20 as stated fails: the multiple block read of two sectors is accepted, the first
block fails (no data token), and the card is not ready when the stop command is due; the
only frame transmitted by the call is the one of the read command, no stop frame. -/
theorem stop_frame_counterexample :
    cardReadyStop.status &&& stdHdr.STA_NOINIT = 0 ∧
    (SD_SendCommand stdHdr stdHdr.READ_MULTIPLE_BLOCK 0 none 0 cardReadyStop).1 =
      stdHdr.R1_NO_ERROR ∧
    (SD_ReadSector stdHdr 0 (fun _ => 0) 2 cardReadyStop).1 = false ∧
    sent (SD_ReadSector stdHdr 0 (fun _ => 0) 2 cardReadyStop).2.2.log =
      sent cardReadyStop.log ++ frameBytes stdHdr stdHdr.READ_MULTIPLE_BLOCK 0 ∧
    frameBytes stdHdr stdHdr.STOP_TRANSMISSION 0 ≠ [] := by
  decide

/-- C20 amended: for every count above 1, once the multiple block read command has been
accepted, `SD_ReadSector` calls `SD_SendCommand(STOP_TRANSMISSION, 0, NULL, 0)` after the
receive loop however the loop ended (all blocks received or one failed).  The frame of the
stop command is transmitted when the readiness wait of that call succeeds; otherwise
nothing is transmitted after the loop. -/
theorem stop_transmission (k : Hdr) (sect : Nat) (buf : Bytes) (cnt : Nat) (s : Drv)
    (hc : cnt % 2 ^ 32 > 1)
    (hacc : (SD_SendCommand k k.READ_MULTIPLE_BLOCK (sectAddr k s sect) none 0 s).1 =
      k.R1_NO_ERROR) :
    (SD_ReadSector k sect buf cnt s).2.2 =
      SSELUnselect (SD_WaitForReady (SD_SendCommand k k.STOP_TRANSMISSION 0 none 0
        (SD_ReadSector_loop k (cnt % 2 ^ 32) buf 0
          (SD_SendCommand k k.READ_MULTIPLE_BLOCK (sectAddr k s sect) none 0
            s).2.2).2.2).2.2).2 ∧
    sent (SD_ReadSector k sect buf cnt s).2.2.log =
      sent (SD_ReadSector_loop k (cnt % 2 ^ 32) buf 0
          (SD_SendCommand k k.READ_MULTIPLE_BLOCK (sectAddr k s sect) none 0 s).2.2).2.2.log ++
        (if (SD_WaitForReady (SSELSelect
            (SD_ReadSector_loop k (cnt % 2 ^ 32) buf 0
              (SD_SendCommand k k.READ_MULTIPLE_BLOCK (sectAddr k s sect) none 0
                s).2.2).2.2)).1 = true then
          frameBytes k (k.STOP_TRANSMISSION % 256) 0
         else []) := by
  have e : (SD_ReadSector k sect buf cnt s).2.2 =
      SSELUnselect (SD_WaitForReady (SD_SendCommand k k.STOP_TRANSMISSION 0 none 0
        (SD_ReadSector_loop k (cnt % 2 ^ 32) buf 0
          (SD_SendCommand k k.READ_MULTIPLE_BLOCK (sectAddr k s sect) none 0
            s).2.2).2.2).2.2).2 := by
    unfold SD_ReadSector
    simp only []
    rw [if_pos hc, if_pos hacc]
  refine ⟨e, ?_⟩
  rw [e, SSELUnselect_sent, SD_WaitForReady_sent, SD_SendCommand_sent]
  rfl

set_option maxRecDepth 100000 in
/-- C20 amended, for the card of `stopScript`. -/
theorem stop_transmission_witness :
    2 % 2 ^ 32 > 1 ∧
    (SD_SendCommand stdHdr stdHdr.READ_MULTIPLE_BLOCK (sectAddr stdHdr cardReadyStop 0) none 0
      cardReadyStop).1 = stdHdr.R1_NO_ERROR ∧
    sent (SD_ReadSector stdHdr 0 (fun _ => 0) 2 cardReadyStop).2.2.log =
      sent (SD_ReadSector_loop stdHdr (2 % 2 ^ 32) (fun _ => 0) 0
          (SD_SendCommand stdHdr stdHdr.READ_MULTIPLE_BLOCK (sectAddr stdHdr cardReadyStop 0)
            none 0 cardReadyStop).2.2).2.2.log ++
        (if (SD_WaitForReady (SSELSelect
            (SD_ReadSector_loop stdHdr (2 % 2 ^ 32) (fun _ => 0) 0
              (SD_SendCommand stdHdr stdHdr.READ_MULTIPLE_BLOCK
                (sectAddr stdHdr cardReadyStop 0) none 0 cardReadyStop).2.2).2.2)).1 = true then
          frameBytes stdHdr (stdHdr.STOP_TRANSMISSION % 256) 0
         else []) :=
  ⟨by decide, by decide,
    (stop_transmission stdHdr 0 (fun _ => 0) 2 cardReadyStop (by decide) (by decide)).2⟩

/-! ## Multiple block transfers (C21) -/

/-- The block loop of `SD_ReadSector` stops at the first call of `SD_RecvDataBlock` that
returns false: it returns the count left, and the buffer and state of that call. -/
theorem SD_ReadSector_loop_stop (k : Hdr) (cnt j : Nat) (buf : Bytes) (off : Nat) (s : Drv)
    (hj : j < cnt) (hok : ∀ i, i < j → (SD_ReadSector_nth k i buf off s).1 = true)
    (hf : (SD_ReadSector_nth k j buf off s).1 = false) :
    SD_ReadSector_loop k cnt buf off s =
      (cnt - j, (SD_ReadSector_nth k j buf off s).2.1, (SD_ReadSector_nth k j buf off s).2.2) := by
  induction cnt generalizing j buf off s with
  | zero => omega
  | succ n ih =>
    cases j with
    | zero =>
      simp only [SD_ReadSector_nth] at hf ⊢
      simp only [SD_ReadSector_loop]
      rw [if_pos hf]
      rfl
    | succ j =>
      have h0 : (SD_RecvDataBlock k buf off k.SECTOR_SIZE s).1 = true := hok 0 (by omega)
      simp only [SD_ReadSector_nth] at hf ⊢
      simp only [SD_ReadSector_loop]
      rw [if_neg (by rw [h0]; simp)]
      rw [ih j _ _ _ (by omega) (fun i hi => hok (i + 1) (by omega)) hf]
      congr 1
      omega

/-- When every call of `SD_RecvDataBlock` returns true, the block loop of `SD_ReadSector`
makes `cnt` of them: it returns 0, and the buffer and state of the last one. -/
theorem SD_ReadSector_loop_all (k : Hdr) (n : Nat) (buf : Bytes) (off : Nat) (s : Drv)
    (hok : ∀ i, i < n + 1 → (SD_ReadSector_nth k i buf off s).1 = true) :
    SD_ReadSector_loop k (n + 1) buf off s =
      (0, (SD_ReadSector_nth k n buf off s).2.1, (SD_ReadSector_nth k n buf off s).2.2) := by
  induction n generalizing buf off s with
  | zero =>
    have h0 : (SD_RecvDataBlock k buf off k.SECTOR_SIZE s).1 = true := hok 0 (by omega)
    simp only [SD_ReadSector_loop, SD_ReadSector_nth]
    rw [if_neg (by rw [h0]; simp)]
  | succ n ih =>
    have h0 : (SD_RecvDataBlock k buf off k.SECTOR_SIZE s).1 = true := hok 0 (by omega)
    rw [SD_ReadSector_loop]
    rw [if_neg (by rw [h0]; simp)]
    rw [ih _ _ _ (fun i hi => hok (i + 1) (by omega))]
    rfl

theorem SD_ReadSector_loop_zero (k : Hdr) (cnt : Nat) (buf : Bytes) (off : Nat) (s : Drv) :
    (SD_ReadSector_loop k cnt buf off s).1 = 0 ↔
      ∀ i, i < cnt → (SD_ReadSector_nth k i buf off s).1 = true := by
  induction cnt generalizing buf off s with
  | zero => simp [SD_ReadSector_loop]
  | succ n ih =>
    simp only [SD_ReadSector_loop]
    by_cases h : (SD_RecvDataBlock k buf off k.SECTOR_SIZE s).1 = false
    · rw [if_pos h]
      constructor
      · intro h0
        exact absurd h0 (Nat.succ_ne_zero n)
      · intro hall
        have := hall 0 (by omega)
        simp only [SD_ReadSector_nth] at this
        rw [h] at this
        exact absurd this (by simp)
    · rw [if_neg h, ih]
      constructor
      · intro hall i hi
        cases i with
        | zero => simpa [SD_ReadSector_nth] using h
        | succ i => exact hall i (by omega)
      · intro hall i hi
        exact hall (i + 1) (by omega)

/-- The block loop of `SD_WriteSector` stops at the first call of `SD_SendDataBlock` that
returns false: it returns the count left and the state of that call. -/
theorem SD_WriteSector_loop_stop (k : Hdr) (buf : Bytes) (cnt j off : Nat) (s : Drv)
    (hj : j < cnt) (hok : ∀ i, i < j → (SD_WriteSector_nth k buf i off s).1 = true)
    (hf : (SD_WriteSector_nth k buf j off s).1 = false) :
    SD_WriteSector_loop k buf cnt off s = (cnt - j, (SD_WriteSector_nth k buf j off s).2) := by
  induction cnt generalizing j off s with
  | zero => omega
  | succ n ih =>
    cases j with
    | zero =>
      simp only [SD_WriteSector_nth] at hf ⊢
      simp only [SD_WriteSector_loop]
      rw [if_pos hf]
      rfl
    | succ j =>
      have h0 : (SD_SendDataBlock k buf off 0xFC k.SECTOR_SIZE s).1 = true := hok 0 (by omega)
      simp only [SD_WriteSector_nth] at hf ⊢
      simp only [SD_WriteSector_loop]
      rw [if_neg (by rw [h0]; simp)]
      rw [ih j _ _ (by omega) (fun i hi => hok (i + 1) (by omega)) hf]
      congr 1
      omega

/-- When every call of `SD_SendDataBlock` returns true, the block loop of `SD_WriteSector`
makes `cnt` of them: it returns 0 and the state of the last one. -/
theorem SD_WriteSector_loop_all (k : Hdr) (buf : Bytes) (n off : Nat) (s : Drv)
    (hok : ∀ i, i < n + 1 → (SD_WriteSector_nth k buf i off s).1 = true) :
    SD_WriteSector_loop k buf (n + 1) off s = (0, (SD_WriteSector_nth k buf n off s).2) := by
  induction n generalizing off s with
  | zero =>
    have h0 : (SD_SendDataBlock k buf off 0xFC k.SECTOR_SIZE s).1 = true := hok 0 (by omega)
    simp only [SD_WriteSector_loop, SD_WriteSector_nth]
    rw [if_neg (by rw [h0]; simp)]
  | succ n ih =>
    have h0 : (SD_SendDataBlock k buf off 0xFC k.SECTOR_SIZE s).1 = true := hok 0 (by omega)
    rw [SD_WriteSector_loop]
    rw [if_neg (by rw [h0]; simp)]
    rw [ih _ _ (fun i hi => hok (i + 1) (by omega))]
    rfl

theorem SD_WriteSector_loop_zero (k : Hdr) (buf : Bytes) (cnt off : Nat) (s : Drv) :
    (SD_WriteSector_loop k buf cnt off s).1 = 0 ↔
      ∀ i, i < cnt → (SD_WriteSector_nth k buf i off s).1 = true := by
  induction cnt generalizing off s with
  | zero => simp [SD_WriteSector_loop]
  | succ n ih =>
    simp only [SD_WriteSector_loop]
    by_cases h : (SD_SendDataBlock k buf off 0xFC k.SECTOR_SIZE s).1 = false
    · rw [if_pos h]
      constructor
      · intro h0
        exact absurd h0 (Nat.succ_ne_zero n)
      · intro hall
        have := hall 0 (by omega)
        simp only [SD_WriteSector_nth] at this
        rw [h] at this
        exact absurd this (by simp)
    · rw [if_neg h, ih]
      constructor
      · intro hall i hi
        cases i with
        | zero => simpa [SD_WriteSector_nth] using h
        | succ i => exact hall i (by omega)
      · intro hall i hi
        exact hall (i + 1) (by omega)

/-- Buffer and state that a multiple block `SD_ReadSector` returns once its command was
accepted: those the block loop left, followed by the stop command, the readiness wait and
the chip-select release. -/
theorem SD_ReadSector_multi_state (k : Hdr) (sect : Nat) (buf : Bytes) (cnt : Nat) (s : Drv)
    (h1 : 1 < cnt % 2 ^ 32) (h2 : (SD_ReadSector_multi k sect s).1 = k.R1_NO_ERROR) :
    (SD_ReadSector k sect buf cnt s).2 =
      ((SD_ReadSector_loop k (cnt % 2 ^ 32) buf 0 (SD_ReadSector_multi k sect s).2.2).2.1,
        SSELUnselect (SD_WaitForReady (SD_SendCommand k k.STOP_TRANSMISSION 0 none 0
          (SD_ReadSector_loop k (cnt % 2 ^ 32) buf 0
            (SD_ReadSector_multi k sect s).2.2).2.2).2.2).2) := by
  unfold SD_ReadSector_multi at h2 ⊢
  unfold SD_ReadSector
  simp only []
  rw [if_pos h1, if_pos h2]

/-- State that a multiple block `SD_WriteSector` returns once its command was accepted:
the one the block loop left, followed by the stop token, the readiness wait and the
chip-select release. -/
theorem SD_WriteSector_multi_state (k : Hdr) (sect : Nat) (buf : Bytes) (cnt : Nat) (s : Drv)
    (h1 : 1 < cnt % 2 ^ 32) (h2 : (SD_WriteSector_multi k sect s).1 = k.R1_NO_ERROR) :
    (SD_WriteSector k sect buf cnt s).2 =
      SSELUnselect (SD_WaitForReady (SendByte 0xFD
        (SD_WriteSector_loop k buf (cnt % 2 ^ 32) 0 (SD_WriteSector_multi k sect s).2.2).2)).2 := by
  unfold SD_WriteSector_multi at h2 ⊢
  unfold SD_WriteSector
  simp only []
  rw [if_pos h1, if_pos h2]

theorem SD_ReadSector_multi_flag (k : Hdr) (sect : Nat) (buf : Bytes) (cnt : Nat) (s : Drv)
    (h1 : 1 < cnt % 2 ^ 32) :
    (SD_ReadSector k sect buf cnt s).1 =
      (decide ((SD_ReadSector_multi k sect s).1 = k.R1_NO_ERROR) &&
        (SD_ReadSector_wait k sect buf cnt s &&
          decide ((SD_ReadSector_loop k (cnt % 2 ^ 32) buf 0
            (SD_ReadSector_multi k sect s).2.2).1 = 0))) := by
  unfold SD_ReadSector SD_ReadSector_wait SD_ReadSector_multi
  simp only []
  rw [if_pos h1]
  by_cases h2 : (SD_SendCommand k k.READ_MULTIPLE_BLOCK (sectAddr k s sect) none 0 s).1 =
      k.R1_NO_ERROR
  · rw [if_pos h2, decide_eq_true h2, Bool.true_and]
  · rw [if_neg h2, decide_eq_false h2, Bool.false_and]

theorem SD_WriteSector_multi_flag (k : Hdr) (sect : Nat) (buf : Bytes) (cnt : Nat) (s : Drv)
    (h1 : 1 < cnt % 2 ^ 32) :
    (SD_WriteSector k sect buf cnt s).1 =
      (decide ((SD_WriteSector_multi k sect s).1 = k.R1_NO_ERROR) &&
        (SD_WriteSector_wait k sect buf cnt s &&
          decide ((SD_WriteSector_loop k buf (cnt % 2 ^ 32) 0
            (SD_WriteSector_multi k sect s).2.2).1 = 0))) := by
  unfold SD_WriteSector SD_WriteSector_wait SD_WriteSector_multi
  simp only []
  rw [if_pos h1]
  by_cases h2 : (SD_SendCommand k k.WRITE_MULTIPLE_BLOCK (sectAddr k s sect) none 0 s).1 =
      k.R1_NO_ERROR
  · rw [if_pos h2, decide_eq_true h2, Bool.true_and]
  · rw [if_neg h2, decide_eq_false h2, Bool.false_and]

/-- C21: for every count above 1 (a `uint32_t`), with `R1_NO_ERROR = 0`, `SD_ReadSector`
returns true if and only if the multiple block command was answered with 0, each of the
`count` block transfers (calls of `SD_RecvDataBlock`) returned true and the readiness wait
after the stop command succeeded; it has then made exactly `count` transfers.  If block
`j < count` is the first whose transfer returns false, `SD_ReadSector` returns false, and
the buffer and state it returns are those that failed transfer left, followed by the stop
command, the readiness wait and the chip-select release only: the loop stopped at that
block and no later block was transferred.  The same holds for `SD_WriteSector` with
`SD_SendDataBlock` and the stop token. -/
theorem multi_block_all_or_nothing (k : Hdr) (sect : Nat) (buf : Bytes) (cnt : Nat) (s : Drv)
    (hk : k.R1_NO_ERROR = 0) (h1 : 1 < cnt) (h2 : cnt < 2 ^ 32) :
    (((SD_ReadSector k sect buf cnt s).1 = true ↔
        (SD_ReadSector_multi k sect s).1 = 0 ∧
        (∀ i, i < cnt → (SD_ReadSector_block k sect buf i s).1 = true) ∧
        SD_ReadSector_wait k sect buf cnt s = true) ∧
      ((SD_ReadSector_multi k sect s).1 = 0 →
        (∀ i, i < cnt → (SD_ReadSector_block k sect buf i s).1 = true) →
        (SD_ReadSector k sect buf cnt s).2.1 = (SD_ReadSector_block k sect buf (cnt - 1) s).2.1 ∧
        (SD_ReadSector k sect buf cnt s).2.2 =
          SSELUnselect (SD_WaitForReady (SD_SendCommand k k.STOP_TRANSMISSION 0 none 0
            (SD_ReadSector_block k sect buf (cnt - 1) s).2.2).2.2).2) ∧
      (∀ j, j < cnt → (∀ i, i < j → (SD_ReadSector_block k sect buf i s).1 = true) →
        (SD_ReadSector_block k sect buf j s).1 = false →
        (SD_ReadSector k sect buf cnt s).1 = false ∧
        ((SD_ReadSector_multi k sect s).1 = 0 →
          (SD_ReadSector k sect buf cnt s).2.1 = (SD_ReadSector_block k sect buf j s).2.1 ∧
          (SD_ReadSector k sect buf cnt s).2.2 =
            SSELUnselect (SD_WaitForReady (SD_SendCommand k k.STOP_TRANSMISSION 0 none 0
              (SD_ReadSector_block k sect buf j s).2.2).2.2).2))) ∧
    (((SD_WriteSector k sect buf cnt s).1 = true ↔
        (SD_WriteSector_multi k sect s).1 = 0 ∧
        (∀ i, i < cnt → (SD_WriteSector_block k sect buf i s).1 = true) ∧
        SD_WriteSector_wait k sect buf cnt s = true) ∧
      ((SD_WriteSector_multi k sect s).1 = 0 →
        (∀ i, i < cnt → (SD_WriteSector_block k sect buf i s).1 = true) →
        (SD_WriteSector k sect buf cnt s).2 =
          SSELUnselect (SD_WaitForReady (SendByte 0xFD
            (SD_WriteSector_block k sect buf (cnt - 1) s).2)).2) ∧
      (∀ j, j < cnt → (∀ i, i < j → (SD_WriteSector_block k sect buf i s).1 = true) →
        (SD_WriteSector_block k sect buf j s).1 = false →
        (SD_WriteSector k sect buf cnt s).1 = false ∧
        ((SD_WriteSector_multi k sect s).1 = 0 →
          (SD_WriteSector k sect buf cnt s).2 =
            SSELUnselect (SD_WaitForReady (SendByte 0xFD
              (SD_WriteSector_block k sect buf j s).2)).2))) := by
  have e : cnt % 2 ^ 32 = cnt := Nat.mod_eq_of_lt h2
  have h1' : 1 < cnt % 2 ^ 32 := by rw [e]; exact h1
  obtain ⟨n, hn⟩ : ∃ n, cnt = n + 1 := ⟨cnt - 1, by omega⟩
  refine ⟨⟨?_, fun hc hall => ?_, fun j hj hok hf => ⟨?_, fun hc => ?_⟩⟩,
    ⟨?_, fun hc hall => ?_, fun j hj hok hf => ⟨?_, fun hc => ?_⟩⟩⟩
  · rw [SD_ReadSector_multi_flag k sect buf cnt s h1', hk]
    simp only [Bool.and_eq_true, decide_eq_true_eq, SD_ReadSector_block]
    rw [SD_ReadSector_loop_zero, e]
    tauto
  · have hs := SD_ReadSector_multi_state k sect buf cnt s h1' (by rw [hc, hk])
    rw [e] at hs
    have hl : SD_ReadSector_loop k cnt buf 0 (SD_ReadSector_multi k sect s).2.2 =
        (0, (SD_ReadSector_block k sect buf (cnt - 1) s).2.1,
          (SD_ReadSector_block k sect buf (cnt - 1) s).2.2) := by
      subst hn
      exact SD_ReadSector_loop_all k n buf 0 _ hall
    rw [hl] at hs
    rw [hs]
    exact ⟨rfl, rfl⟩
  · have hl := SD_ReadSector_loop_stop k cnt j buf 0 (SD_ReadSector_multi k sect s).2.2 hj hok hf
    rw [SD_ReadSector_multi_flag k sect buf cnt s h1', e, hl]
    have : ¬ cnt - j = 0 := by omega
    rw [decide_eq_false this, Bool.and_false, Bool.and_false]
  · have hs := SD_ReadSector_multi_state k sect buf cnt s h1' (by rw [hc, hk])
    have hl := SD_ReadSector_loop_stop k cnt j buf 0 (SD_ReadSector_multi k sect s).2.2 hj hok hf
    rw [e, hl] at hs
    rw [hs]
    exact ⟨rfl, rfl⟩
  · rw [SD_WriteSector_multi_flag k sect buf cnt s h1', hk]
    simp only [Bool.and_eq_true, decide_eq_true_eq, SD_WriteSector_block]
    rw [SD_WriteSector_loop_zero, e]
    tauto
  · have hs := SD_WriteSector_multi_state k sect buf cnt s h1' (by rw [hc, hk])
    rw [e] at hs
    have hl : SD_WriteSector_loop k buf cnt 0 (SD_WriteSector_multi k sect s).2.2 =
        (0, (SD_WriteSector_block k sect buf (cnt - 1) s).2) := by
      subst hn
      exact SD_WriteSector_loop_all k buf n 0 _ hall
    rw [hl] at hs
    exact hs
  · have hl := SD_WriteSector_loop_stop k buf cnt j 0 (SD_WriteSector_multi k sect s).2.2 hj hok hf
    rw [SD_WriteSector_multi_flag k sect buf cnt s h1', e, hl]
    have : ¬ cnt - j = 0 := by omega
    rw [decide_eq_false this, Bool.and_false, Bool.and_false]
  · have hs := SD_WriteSector_multi_state k sect buf cnt s h1' (by rw [hc, hk])
    have hl := SD_WriteSector_loop_stop k buf cnt j 0 (SD_WriteSector_multi k sect s).2.2 hj hok hf
    rw [e, hl] at hs
    exact hs

set_option maxRecDepth 1000000 in
/-- C21 on the high-capacity card.  A read of two blocks that the card delivers returns
true.  A read of three blocks of which the card delivers the first only returns false with
the buffer as the failed second transfer left it.  A read of three blocks from a card
that starts sending 100 ms late returns false with the buffer as the failed first transfer
left it: one more transfer would have succeeded and stored `0xA5` at offset 512, where the
buffer returned still has 0. -/
theorem multi_block_all_or_nothing_witness :
    stdHdr.R1_NO_ERROR = 0 ∧ ((1 : Nat) < 2 ∧ (2 : Nat) < 2 ^ 32) ∧
    ((1 : Nat) < 3 ∧ (3 : Nat) < 2 ^ 32) ∧
    (SD_ReadSector stdHdr 7 (fun _ => 0) 2 cardReadyTwo).1 = true ∧
    ((SD_ReadSector_block stdHdr 7 (fun _ => 0) 0 cardReadyOne).1 = true ∧
      (SD_ReadSector_block stdHdr 7 (fun _ => 0) 1 cardReadyOne).1 = false ∧
      (SD_ReadSector stdHdr 7 (fun _ => 0) 3 cardReadyOne).1 = false ∧
      (SD_ReadSector stdHdr 7 (fun _ => 0) 3 cardReadyOne).2.1 =
        (SD_ReadSector_block stdHdr 7 (fun _ => 0) 1 cardReadyOne).2.1) ∧
    ((SD_ReadSector_block stdHdr 7 (fun _ => 0) 0 cardReadyLate).1 = false ∧
      (SD_ReadSector_block stdHdr 7 (fun _ => 0) 1 cardReadyLate).1 = true ∧
      (SD_ReadSector_block stdHdr 7 (fun _ => 0) 1 cardReadyLate).2.1 512 = 0xA5 ∧
      (SD_ReadSector stdHdr 7 (fun _ => 0) 3 cardReadyLate).2.1 512 = 0 ∧
      (SD_ReadSector stdHdr 7 (fun _ => 0) 3 cardReadyLate).1 = false ∧
      (SD_ReadSector stdHdr 7 (fun _ => 0) 3 cardReadyLate).2.1 =
        (SD_ReadSector_block stdHdr 7 (fun _ => 0) 0 cardReadyLate).2.1) :=
  ⟨rfl, by decide, by decide,
    (multi_block_all_or_nothing stdHdr 7 (fun _ => 0) 2 cardReadyTwo rfl (by decide)
      (by decide)).1.1.mpr ⟨by decide, by decide, by decide⟩,
    ⟨by decide, by decide,
      ((multi_block_all_or_nothing stdHdr 7 (fun _ => 0) 3 cardReadyOne rfl (by decide)
        (by decide)).1.2.2 1 (by decide) (by decide) (by decide)).1,
      (((multi_block_all_or_nothing stdHdr 7 (fun _ => 0) 3 cardReadyOne rfl (by decide)
        (by decide)).1.2.2 1 (by decide) (by decide) (by decide)).2 (by decide)).1⟩,
    ⟨by decide, by decide, by decide, by decide,
      ((multi_block_all_or_nothing stdHdr 7 (fun _ => 0) 3 cardReadyLate rfl (by decide)
        (by decide)).1.2.2 0 (by decide) (by decide) (by decide)).1,
      (((multi_block_all_or_nothing stdHdr 7 (fun _ => 0) 3 cardReadyLate rfl (by decide)
        (by decide)).1.2.2 0 (by decide) (by decide) (by decide)).2 (by decide)).1⟩⟩

/-! ## The result of `SD_Init` (C22) -/

theorem SD_Init_state (k : Hdr) (s : Drv) : (SD_Init k s).2 = SSELUnselect (SD_Init_body k s) := by
  simp only [SD_Init]
  split_ifs <;> rfl

theorem SD_Init_flag (k : Hdr) (s : Drv) :
    (SD_Init k s).1 = true ↔ (SD_Init k s).2.CardType ≠ k.CARDTYPE_UNKNOWN := by
  simp only [SD_Init]
  split_ifs with h
  · simpa using h
  · simpa using h

theorem SD_Init_reset_cardType (k : Hdr) (s : Drv) :
    (SD_Init_reset k s).2.2.CardType = k.CARDTYPE_UNKNOWN % 256 := by
  simp [SD_Init_reset, setCardType]

theorem SD_Init_body_reset (k : Hdr) (s : Drv)
    (h : (SD_Init_reset k s).1 ≠ k.R1_IN_IDLE_STATE) :
    SD_Init_body k s = (SD_Init_reset k s).2.2 := by
  unfold SD_Init_reset at h
  unfold SD_Init_body SD_Init_reset
  simp only []
  rw [if_pos h]

/-- C22: `SD_Init` returns true if and only if `CardType` is not `CARDTYPE_UNKNOWN` when
it returns.  With `CARDTYPE_UNKNOWN` a byte value and `R1_IN_IDLE_STATE = 0x01`: whenever
the response of the reset command is not `0x01`, `SD_Init` does nothing after that
command but release chip-select (it transmits no further byte), leaves `CardType` at
`CARDTYPE_UNKNOWN` and returns false. -/
theorem init_result (k : Hdr) (s : Drv) (hu : k.CARDTYPE_UNKNOWN < 256)
    (hidle : k.R1_IN_IDLE_STATE = 0x01) :
    ((SD_Init k s).1 = true ↔ (SD_Init k s).2.CardType ≠ k.CARDTYPE_UNKNOWN) ∧
    ((SD_Init_reset k s).1 ≠ 0x01 →
      (SD_Init k s).2 = SSELUnselect (SD_Init_reset k s).2.2 ∧
      sent (SD_Init k s).2.log = sent (SD_Init_reset k s).2.2.log ∧
      (SD_Init k s).2.CardType = k.CARDTYPE_UNKNOWN ∧
      (SD_Init k s).1 = false) := by
  refine ⟨SD_Init_flag k s, fun h => ?_⟩
  have hb : SD_Init_body k s = (SD_Init_reset k s).2.2 :=
    SD_Init_body_reset k s (by rw [hidle]; exact h)
  have hs : (SD_Init k s).2 = SSELUnselect (SD_Init_reset k s).2.2 := by
    rw [SD_Init_state, hb]
  have hc : (SD_Init k s).2.CardType = k.CARDTYPE_UNKNOWN := by
    rw [hs, (SSELUnselect_keeps _).2.1, SD_Init_reset_cardType, Nat.mod_eq_of_lt hu]
  refine ⟨hs, by rw [hs, SSELUnselect_sent], hc, ?_⟩
  have := (SD_Init_flag k s).not.mpr (by simpa using hc)
  simpa using this

set_option maxRecDepth 100000 in
/-- C22 on a card that stays busy (the reset command returns `0x81`) and on a card that
answers the reset command with `0x05`. -/
theorem init_result_witness :
    stdHdr.CARDTYPE_UNKNOWN < 256 ∧ stdHdr.R1_IN_IDLE_STATE = 0x01 ∧
    (SD_Init_reset stdHdr (Drv.init stdHdr resetBusyScript)).1 = 0x81 ∧
    (SD_Init stdHdr (Drv.init stdHdr resetBusyScript)).1 = false ∧
    (SD_Init_reset stdHdr (Drv.init stdHdr resetIllegalScript)).1 = 0x05 ∧
    (SD_Init stdHdr (Drv.init stdHdr resetIllegalScript)).2.CardType =
      stdHdr.CARDTYPE_UNKNOWN :=
  ⟨by decide, rfl, by decide,
    ((init_result stdHdr (Drv.init stdHdr resetBusyScript) (by decide) rfl).2
      (by decide)).2.2.2,
    by decide,
    ((init_result stdHdr (Drv.init stdHdr resetIllegalScript) (by decide) rfl).2
      (by decide)).2.2.1⟩

/-! ## Card type on the V2 path (C23) -/

theorem SD_Init_v2loop_r1_zero (k : Hdr) (fuel r0 : Nat) (s : Drv) (h0 : r0 ≠ 0)
    (h : SD_Init_v2loop_r1 k fuel r0 s = 0) : (SD_Init_v2loop k fuel s).1 = false := by
  induction fuel generalizing r0 s with
  | zero => exact absurd h h0
  | succ n ih =>
    simp only [SD_Init_v2loop_r1] at h
    simp only [SD_Init_v2loop]
    by_cases h1 : (SD_SendACommand k k.SD_SEND_OP_COND 0x40000000 none 0 s).1 = 0x00
    · rw [if_pos h1]
    · rw [if_neg h1] at h ⊢
      by_cases h2 : (SD_SendACommand k k.SD_SEND_OP_COND 0x40000000 none 0 s).1 > 0x01
      · rw [if_pos h2] at h
        exact absurd h h1
      · rw [if_neg h2] at h ⊢
        by_cases h3 : (SD_SendACommand k k.SD_SEND_OP_COND 0x40000000 none 0 s).2.2.Timer1 ≠ 0
        · rw [if_pos h3] at h ⊢
          exact ih _ _ h1 h
        · rw [if_neg h3] at h
          exact absurd h h1

theorem SD_Init_body_eq (k : Hdr) (s : Drv) :
    SD_Init_body k s =
      if (SD_Init_reset k s).1 ≠ k.R1_IN_IDLE_STATE then (SD_Init_reset k s).2.2
      else if (SD_Init_ifcond k s).1 &&& 0x80 ≠ 0 then (SD_Init_ifcond k s).2.2
      else if (SD_Init_ifcond k s).1 = k.R1_IN_IDLE_STATE then
        SD_Init_v2 k (SD_Init_echo k s) (SD_Init_timed k s)
      else SD_Init_legacy k (SD_Init_timed k s) := by
  rfl

/-- The V2 path once the echo matched, the negotiation loop was left through `break` with
`Timer1` running and the OCR was read: the card type assignment and the block length
step. -/
theorem SD_Init_v2_classified (k : Hdr) (buf : Bytes) (t : Drv)
    (he : buf 2 = 0x01 ∧ buf 3 = 0xAA)
    (hl : (SD_Init_v2loop k (t.env.length + t.Timer1 + 1) t).1 = false)
    (ht : (SD_Init_v2loop k (t.env.length + t.Timer1 + 1) t).2.Timer1 ≠ 0)
    (ho : (SD_SendCommand k k.READ_OCR 0 (some buf) 4
      (SD_Init_v2loop k (t.env.length + t.Timer1 + 1) t).2).1 = k.R1_NO_ERROR) :
    SD_Init_v2 k buf t =
      SD_Init_blocklen k
        (setCardType
          (SD_SendCommand k k.READ_OCR 0 (some buf) 4
            (SD_Init_v2loop k (t.env.length + t.Timer1 + 1) t).2).2.2
          (if ((SD_SendCommand k k.READ_OCR 0 (some buf) 4
              (SD_Init_v2loop k (t.env.length + t.Timer1 + 1) t).2).2.1.getD buf) 0 &&& 0x40 ≠
              0 then
            k.CARDTYPE_SDV2_HC
           else k.CARDTYPE_SDV2_SC)) := by
  generalize hf : t.env.length + t.Timer1 + 1 = fuel at hl ht ho ⊢
  unfold SD_Init_v2
  simp only []
  rw [if_neg (by rw [he.1, he.2]; simp), hf, if_neg (by rw [hl]; simp), if_pos ht, if_pos ho]

/-- On the V2 path with the negotiation finished in time and the OCR read, the body of
`SD_Init` ends with the card type assignment followed by the block length step. -/
theorem SD_Init_body_v2 (k : Hdr) (s : Drv)
    (h0 : (SD_Init_reset k s).1 = k.R1_IN_IDLE_STATE)
    (h8 : (SD_Init_ifcond k s).1 = k.R1_IN_IDLE_STATE)
    (h80 : (SD_Init_ifcond k s).1 &&& 0x80 = 0)
    (he : SD_Init_echo k s 2 = 0x01 ∧ SD_Init_echo k s 3 = 0xAA)
    (hl : (SD_Init_opcond k s).1 = false)
    (ht : (SD_Init_opcond k s).2.Timer1 ≠ 0)
    (ho : (SD_Init_ocr k s).1 = k.R1_NO_ERROR) :
    SD_Init_body k s =
      SD_Init_blocklen k
        (setCardType (SD_Init_ocr k s).2.2
          (if SD_Init_ocr0 k s &&& 0x40 ≠ 0 then k.CARDTYPE_SDV2_HC
           else k.CARDTYPE_SDV2_SC)) := by
  rw [SD_Init_body_eq, if_neg (not_not.mpr h0), if_neg (not_not.mpr h80), if_pos h8]
  unfold SD_Init_ocr0
  unfold SD_Init_ocr at ho ⊢
  unfold SD_Init_opcond at hl ht ho ⊢
  generalize SD_Init_timed k s = t at hl ht ho ⊢
  generalize SD_Init_echo k s = buf at he ho ⊢
  exact SD_Init_v2_classified k buf t he hl ht ho

theorem SD_Init_blocklen_hc (k : Hdr) (s : Drv) (hhc : k.CARDTYPE_SDV2_HC < 256)
    (hd : k.CARDTYPE_SDV2_HC ≠ k.CARDTYPE_MMC ∧ k.CARDTYPE_SDV2_HC ≠ k.CARDTYPE_SDV1 ∧
      k.CARDTYPE_SDV2_HC ≠ k.CARDTYPE_SDV2_SC) :
    SD_Init_blocklen k (setCardType s k.CARDTYPE_SDV2_HC) = setCardType s k.CARDTYPE_SDV2_HC := by
  have e : (setCardType s k.CARDTYPE_SDV2_HC).CardType = k.CARDTYPE_SDV2_HC := by
    simp [setCardType, Nat.mod_eq_of_lt hhc]
  unfold SD_Init_blocklen
  simp only []
  rw [if_neg]
  rw [e]
  exact fun h => h.elim hd.1 (fun h => h.elim hd.2.1 hd.2.2)

theorem SD_Init_blocklen_sc (k : Hdr) (s : Drv) (hsc : k.CARDTYPE_SDV2_SC < 256) :
    SD_Init_blocklen k (setCardType s k.CARDTYPE_SDV2_SC) =
      if (SD_SendCommand k k.SET_BLOCKLEN k.SECTOR_SIZE none 0
          (setCardType s k.CARDTYPE_SDV2_SC)).1 ≠ k.R1_NO_ERROR then
        setCardType (SD_SendCommand k k.SET_BLOCKLEN k.SECTOR_SIZE none 0
          (setCardType s k.CARDTYPE_SDV2_SC)).2.2 k.CARDTYPE_UNKNOWN
      else (SD_SendCommand k k.SET_BLOCKLEN k.SECTOR_SIZE none 0
          (setCardType s k.CARDTYPE_SDV2_SC)).2.2 := by
  have e : (setCardType s k.CARDTYPE_SDV2_SC).CardType = k.CARDTYPE_SDV2_SC := by
    simp [setCardType, Nat.mod_eq_of_lt hsc]
  generalize setCardType s k.CARDTYPE_SDV2_SC = t at e ⊢
  unfold SD_Init_blocklen
  simp only []
  rw [if_pos (Or.inr (Or.inr e))]

theorem setCardType_sent (s : Drv) (v : Nat) : sent (setCardType s v).log = sent s.log := rfl

/-- C23: on the V2 path of `SD_Init` (reset answered `0x01`, interface-condition command
answered `0x01` with the echo bytes `0x01`, `0xAA` in `buf[2]`, `buf[3]`), when the last
operating-condition app-command returned `0x00` with `Timer1` still running and the
read-OCR command returned 0: if bit `0x40` of the first OCR byte is set, `CardType` ends
as SDv2-HC and `SD_Init` transmits nothing after the read-OCR command (no set-block-length
command); otherwise the set-block-length command with argument 512 is issued after the
read-OCR command and is the last thing transmitted, and `CardType` ends as SDv2-SC if it
returns 0 and as Unknown if it returns anything else.  The header constants are taken as
`R1_IN_IDLE_STATE = 1`, `R1_NO_ERROR = 0`, `SECTOR_SIZE = 512`, the card types as byte
values with SDv2-HC different from MMC, SDv1 and SDv2-SC. -/
theorem v2_classification (k : Hdr) (s : Drv)
    (hidle : k.R1_IN_IDLE_STATE = 0x01) (hok : k.R1_NO_ERROR = 0) (hsz : k.SECTOR_SIZE = 512)
    (hhc : k.CARDTYPE_SDV2_HC < 256) (hsc : k.CARDTYPE_SDV2_SC < 256)
    (hun : k.CARDTYPE_UNKNOWN < 256)
    (hd : k.CARDTYPE_SDV2_HC ≠ k.CARDTYPE_MMC ∧ k.CARDTYPE_SDV2_HC ≠ k.CARDTYPE_SDV1 ∧
      k.CARDTYPE_SDV2_HC ≠ k.CARDTYPE_SDV2_SC)
    (h0 : (SD_Init_reset k s).1 = 0x01) (h8 : (SD_Init_ifcond k s).1 = 0x01)
    (he : SD_Init_echo k s 2 = 0x01 ∧ SD_Init_echo k s 3 = 0xAA)
    (hr : SD_Init_opcond_r1 k s = 0x00) (ht : (SD_Init_opcond k s).2.Timer1 ≠ 0)
    (ho : (SD_Init_ocr k s).1 = 0) :
    (SD_Init_ocr0 k s &&& 0x40 ≠ 0 →
      (SD_Init k s).2.CardType = k.CARDTYPE_SDV2_HC ∧
      (SD_Init k s).2 = SSELUnselect (setCardType (SD_Init_ocr k s).2.2 k.CARDTYPE_SDV2_HC) ∧
      sent (SD_Init k s).2.log = sent (SD_Init_ocr k s).2.2.log) ∧
    (SD_Init_ocr0 k s &&& 0x40 = 0 →
      SD_Init_setblocklen k s =
        SD_SendCommand k k.SET_BLOCKLEN 512 none 0
          (setCardType (SD_Init_ocr k s).2.2 k.CARDTYPE_SDV2_SC) ∧
      sent (SD_Init k s).2.log = sent (SD_Init_setblocklen k s).2.2.log ∧
      ((SD_Init_setblocklen k s).1 = 0 → (SD_Init k s).2.CardType = k.CARDTYPE_SDV2_SC) ∧
      ((SD_Init_setblocklen k s).1 ≠ 0 → (SD_Init k s).2.CardType = k.CARDTYPE_UNKNOWN)) := by
  have hl : (SD_Init_opcond k s).1 = false :=
    SD_Init_v2loop_r1_zero k _ _ _ (by rw [h8]; decide) hr
  have hb := SD_Init_body_v2 k s (by rw [h0, hidle]) (by rw [h8, hidle])
    (by rw [h8]; decide) he hl ht (by rw [ho, hok])
  refine ⟨fun hbit => ?_, fun hbit => ?_⟩
  · rw [if_pos hbit, SD_Init_blocklen_hc k _ hhc hd] at hb
    have hs : (SD_Init k s).2 =
        SSELUnselect (setCardType (SD_Init_ocr k s).2.2 k.CARDTYPE_SDV2_HC) := by
      rw [SD_Init_state, hb]
    refine ⟨?_, hs, ?_⟩
    · rw [hs, (SSELUnselect_keeps _).2.1]
      simp [setCardType, Nat.mod_eq_of_lt hhc]
    · rw [hs, SSELUnselect_sent, setCardType_sent]
  · rw [if_neg (not_not.mpr hbit), SD_Init_blocklen_sc k _ hsc] at hb
    have hdef : SD_SendCommand k k.SET_BLOCKLEN k.SECTOR_SIZE none 0
        (setCardType (SD_Init_ocr k s).2.2 k.CARDTYPE_SDV2_SC) = SD_Init_setblocklen k s := by
      rw [SD_Init_setblocklen]
    have hc : (SD_Init_setblocklen k s).2.2.CardType = k.CARDTYPE_SDV2_SC := by
      rw [← hdef, (SD_SendCommand_keeps _ _ _ _ _ _).2.1]
      simp [setCardType, Nat.mod_eq_of_lt hsc]
    have h512 : SD_Init_setblocklen k s =
        SD_SendCommand k k.SET_BLOCKLEN 512 none 0
          (setCardType (SD_Init_ocr k s).2.2 k.CARDTYPE_SDV2_SC) := by
      rw [← hdef, hsz]
    rw [hdef, hok] at hb
    have hst := SD_Init_state k s
    rw [hb] at hst
    generalize SD_Init_setblocklen k s = c at hc hst h512 ⊢
    generalize (SD_Init k s).2 = r at hst ⊢
    refine ⟨h512, ?_, fun h => ?_, fun h => ?_⟩
    · rw [hst, SSELUnselect_sent]
      split_ifs
      · rw [setCardType_sent]
      · rfl
    · rw [if_neg (not_not.mpr h)] at hst
      rw [hst, (SSELUnselect_keeps _).2.1]
      exact hc
    · rw [if_pos h] at hst
      rw [hst, (SSELUnselect_keeps _).2.1]
      simp [setCardType, Nat.mod_eq_of_lt hun]

set_option maxRecDepth 100000 in
/-- C23 on the high-capacity card (`CardType` ends as SDv2-HC) and on two
standard-capacity cards, one accepting the set-block-length command (SDv2-SC) and one
answering it with `0x04` (Unknown). -/
theorem v2_classification_witness :
    (stdHdr.R1_IN_IDLE_STATE = 0x01 ∧ stdHdr.R1_NO_ERROR = 0 ∧ stdHdr.SECTOR_SIZE = 512 ∧
      stdHdr.CARDTYPE_SDV2_HC < 256 ∧ stdHdr.CARDTYPE_SDV2_SC < 256 ∧
      stdHdr.CARDTYPE_UNKNOWN < 256 ∧
      (stdHdr.CARDTYPE_SDV2_HC ≠ stdHdr.CARDTYPE_MMC ∧
        stdHdr.CARDTYPE_SDV2_HC ≠ stdHdr.CARDTYPE_SDV1 ∧
        stdHdr.CARDTYPE_SDV2_HC ≠ stdHdr.CARDTYPE_SDV2_SC)) ∧
    ((SD_Init_reset stdHdr (Drv.init stdHdr initScriptHC)).1 = 0x01 ∧
      (SD_Init_ifcond stdHdr (Drv.init stdHdr initScriptHC)).1 = 0x01 ∧
      (SD_Init_echo stdHdr (Drv.init stdHdr initScriptHC) 2 = 0x01 ∧
        SD_Init_echo stdHdr (Drv.init stdHdr initScriptHC) 3 = 0xAA) ∧
      SD_Init_opcond_r1 stdHdr (Drv.init stdHdr initScriptHC) = 0x00 ∧
      (SD_Init_opcond stdHdr (Drv.init stdHdr initScriptHC)).2.Timer1 ≠ 0 ∧
      (SD_Init_ocr stdHdr (Drv.init stdHdr initScriptHC)).1 = 0 ∧
      SD_Init_ocr0 stdHdr (Drv.init stdHdr initScriptHC) &&& 0x40 ≠ 0) ∧
    (SD_Init stdHdr (Drv.init stdHdr initScriptHC)).2.CardType = stdHdr.CARDTYPE_SDV2_HC ∧
    (SD_Init stdHdr (Drv.init stdHdr initScriptSC)).2.CardType = stdHdr.CARDTYPE_SDV2_SC ∧
    (SD_Init stdHdr (Drv.init stdHdr initScriptSCrefused)).2.CardType =
      stdHdr.CARDTYPE_UNKNOWN :=
  ⟨by decide, by decide,
    ((v2_classification stdHdr (Drv.init stdHdr initScriptHC) rfl rfl rfl (by decide)
      (by decide) (by decide) (by decide) (by decide) (by decide) (by decide) (by decide)
      (by decide) (by decide)).1 (by decide)).1,
    ((v2_classification stdHdr (Drv.init stdHdr initScriptSC) rfl rfl rfl (by decide)
      (by decide) (by decide) (by decide) (by decide) (by decide) (by decide) (by decide)
      (by decide) (by decide)).2 (by decide)).2.2.1 (by decide),
    ((v2_classification stdHdr (Drv.init stdHdr initScriptSCrefused) rfl rfl rfl (by decide)
      (by decide) (by decide) (by decide) (by decide) (by decide) (by decide) (by decide)
      (by decide) (by decide)).2 (by decide)).2.2.2 (by decide)⟩

/-! ## Bulk and byte-at-a-time transfers (C24) -/

theorem recvFrames_eq_bytes (n : Nat) (buf : Bytes) (off : Nat) (s : Drv) :
    SD_RecvDataBlock_bytes n buf off s = recvFrames buf off n s := by
  induction n generalizing buf off s with
  | zero => rfl
  | succ n ih =>
    simp only [SD_RecvDataBlock_bytes, recvFrames, ReceiveDatafromSDCard, Nat.one_mod]
    rw [ih]

theorem sendFrames_eq_bytes (n : Nat) (buf : Bytes) (off : Nat) (s : Drv) :
    SD_SendDataBlock_bytes n buf off s = sendFrames buf off n s := by
  induction n generalizing off s with
  | zero => rfl
  | succ n ih =>
    simp only [SD_SendDataBlock_bytes, sendFrames, SendDatatoSDCard, Nat.one_mod]
    rw [ih]

/-- For a length below 256 the bulk and the byte-at-a-time builds of `SD_RecvDataBlock`
and `SD_SendDataBlock` are the same function. -/
theorem bulk_eq_bytewise_of_small (k : Hdr) (buf : Bytes) (off tkn len : Nat) (s : Drv)
    (h : len % 2 ^ 32 < 256) :
    SD_RecvDataBlock (withFifo k true) buf off len s =
      SD_RecvDataBlock (withFifo k false) buf off len s ∧
    SD_SendDataBlock (withFifo k true) buf off tkn len s =
      SD_SendDataBlock (withFifo k false) buf off tkn len s := by
  have e : len % 2 ^ 32 % 256 = len % 2 ^ 32 := Nat.mod_eq_of_lt h
  constructor
  · simp only [SD_RecvDataBlock, withFifo, if_true, Bool.false_eq_true, if_false,
      recvFrames_eq_bytes, ReceiveDatafromSDCard, e]
  · simp only [SD_SendDataBlock, withFifo, if_true, Bool.false_eq_true, if_false,
      sendFrames_eq_bytes, SendDatatoSDCard, e]

set_option maxRecDepth 1000000 in
/-- C24 fails at the sector length: in the build with `USE_FIFO`, the length passes through
the `uint8_t size` parameter of the transfer helpers, so `SD_SendDataBlock` transmits
`len mod 256` payload bytes where the byte-at-a-time build transmits `len`; for
`len = 512` it transmits the token and the two CRC bytes only, and `SD_RecvDataBlock`
leaves the buffer as it was.  On a card that sends a block of 512 bytes `0xA5`, both
builds of `SD_RecvDataBlock` return true, the byte-at-a-time build stores the data and
uses up the 515 bytes of the block, the bulk build stores nothing and uses up 3. -/
theorem bulk_transfer_truncated (k : Hdr) (buf : Bytes) (off tkn len : Nat) (s : Drv) :
    sent (SD_SendDataBlock (withFifo k true) buf off tkn len s).2.log =
      sent s.log ++ [tkn % 256] ++ payload buf off (len % 2 ^ 32 % 256) ++ [0xFF, 0xFF] ∧
    sent (SD_SendDataBlock (withFifo k false) buf off tkn len s).2.log =
      sent s.log ++ [tkn % 256] ++ payload buf off (len % 2 ^ 32) ++ [0xFF, 0xFF] ∧
    sent (SD_SendDataBlock (withFifo k true) buf off tkn 512 s).2.log =
      sent s.log ++ [tkn % 256, 0xFF, 0xFF] ∧
    (SD_RecvDataBlock (withFifo k true) buf off 512 s).2.1 = buf ∧
    ((SD_RecvDataBlock (withFifo stdHdr false) (fun _ => 0) 0 512 blockCard).1 = true ∧
      (SD_RecvDataBlock (withFifo stdHdr false) (fun _ => 0) 0 512 blockCard).2.1 0 = 0xA5 ∧
      (SD_RecvDataBlock (withFifo stdHdr false) (fun _ => 0) 0 512 blockCard).2.1 511 = 0xA5 ∧
      (SD_RecvDataBlock (withFifo stdHdr false) (fun _ => 0) 0 512 blockCard).2.2.env.length =
        0) ∧
    ((SD_RecvDataBlock (withFifo stdHdr true) (fun _ => 0) 0 512 blockCard).1 = true ∧
      (SD_RecvDataBlock (withFifo stdHdr true) (fun _ => 0) 0 512 blockCard).2.1 0 = 0 ∧
      (SD_RecvDataBlock (withFifo stdHdr true) (fun _ => 0) 0 512 blockCard).2.1 511 = 0 ∧
      (SD_RecvDataBlock (withFifo stdHdr true) (fun _ => 0) 0 512 blockCard).2.2.env.length =
        512) := by
  refine ⟨?_, ?_, ?_, ?_, by decide, by decide⟩
  · rw [SD_SendDataBlock_sent]
    simp [withFifo]
  · rw [SD_SendDataBlock_sent]
    simp [withFifo]
  · rw [SD_SendDataBlock_sent]
    simp [withFifo, payload]
  · simp only [SD_RecvDataBlock, withFifo, if_true, ReceiveDatafromSDCard]
    split_ifs
    · rfl
    · rfl

/-! ## Shift counts of the configuration decoder (C25) -/

theorem csdV1_fields_le (csd : Bytes) : csdV1ReadLen csd ≤ 15 ∧ csdV1Mult csd ≤ 7 := by
  have e1 : csd 5 &&& 0xF ≤ 0xF := Nat.and_le_right
  have e2 : csd 9 &&& 0x3 ≤ 0x3 := Nat.and_le_right
  have e3 : csd 10 &&& 0x80 ≤ 0x80 := Nat.and_le_right
  simp only [csdV1ReadLen, csdV1Mult, Nat.shiftLeft_eq, Nat.shiftRight_eq_div_pow]
  norm_num at e1 e2 e3 ⊢
  omega

set_option maxRecDepth 100000 in
/-- C25 as stated fails: an SD version 1 card that sends a CSD of sixteen zero bytes is
decoded without error, and for the stored CSD the sector-count shift
`read_bl_len + c_size_mult - 7` has wrapped to `2^32 - 7` and the erase-block shift
`(csd[13] >> 6) - 1` is `-1`. -/
theorem shift_range_counterexample :
    (SD_ReadConfiguration stdHdr cardSD1Zero).1 = true ∧
    (SD_ReadConfiguration stdHdr cardSD1Zero).2.CardType = stdHdr.CARDTYPE_SDV1 ∧
    ¬ ((SD_ReadConfiguration stdHdr cardSD1Zero).2.CardConfig.csd 0 >>> 6) &&& 0x3 = 0x1 ∧
    csdV1Shift (SD_ReadConfiguration stdHdr cardSD1Zero).2.CardConfig.csd = 4294967289 ∧
    ¬ csdV1Shift (SD_ReadConfiguration stdHdr cardSD1Zero).2.CardConfig.csd < 32 ∧
    sdv1Shift (SD_ReadConfiguration stdHdr cardSD1Zero).2.CardConfig.csd = -1 := by
  decide

/-- C25, amended: for every CSD content, the sector-count shift
`read_bl_len + c_size_mult - 7` of the version 1 formula, computed in `uint32_t`, lies in
`0..31` if and only if `readLen + mult >= 7`; it is then `readLen + mult - 7`, at most 15,
and otherwise it has wrapped to `2^32 - 7 + readLen + mult`.  For a byte `csd[13]`, the
SD v1 erase-block shift `(csd[13] >> 6) - 1` lies in `0..31` if and only if
`csd[13] >= 64`; it is then at most 2, and otherwise it is `-1`. -/
theorem shift_range (csd : Bytes) (h13 : csd 13 < 256) :
    (csdV1Shift csd < 32 ↔ 7 ≤ csdV1ReadLen csd + csdV1Mult csd) ∧
    (7 ≤ csdV1ReadLen csd + csdV1Mult csd →
      csdV1Shift csd = csdV1ReadLen csd + csdV1Mult csd - 7 ∧ csdV1Shift csd ≤ 15) ∧
    (csdV1ReadLen csd + csdV1Mult csd < 7 →
      csdV1Shift csd = 2 ^ 32 - 7 + (csdV1ReadLen csd + csdV1Mult csd)) ∧
    ((0 ≤ sdv1Shift csd ∧ sdv1Shift csd < 32) ↔ 64 ≤ csd 13) ∧
    (64 ≤ csd 13 → sdv1Shift csd ≤ 2) ∧
    (csd 13 < 64 → sdv1Shift csd = -1) := by
  obtain ⟨hr, hm⟩ := csdV1_fields_le csd
  have hs : csdV1Shift csd = (csdV1ReadLen csd + csdV1Mult csd + 2 ^ 32 - 7) % 2 ^ 32 := rfl
  have hi : sdv1Shift csd = ((csd 13 / 64 : Nat) : Int) - 1 := by
    simp only [sdv1Shift, Nat.shiftRight_eq_div_pow]
  generalize csdV1ReadLen csd = r at hr hs ⊢
  generalize csdV1Mult csd = m at hm hs ⊢
  generalize csdV1Shift csd = sh at hs ⊢
  generalize sdv1Shift csd = si at hi ⊢
  norm_num at hs ⊢
  refine ⟨?_, ?_, ?_, ?_, ?_, ?_⟩ <;> omega

/-- C25, amended, at the CSD of the standard-capacity card: `read_bl_len = 9` and
`c_size_mult = 7` give the shift 9, and `csd[13] = 0x40` gives the erase-block shift 0. -/
theorem shift_range_witness :
    csdSCBytes 13 < 256 ∧ 7 ≤ csdV1ReadLen csdSCBytes + csdV1Mult csdSCBytes ∧
    csdV1Shift csdSCBytes < 32 ∧ 0 ≤ sdv1Shift csdSCBytes ∧ sdv1Shift csdSCBytes < 32 :=
  ⟨by decide, by decide, (shift_range csdSCBytes (by decide)).1.mpr (by decide),
    (shift_range csdSCBytes (by decide)).2.2.2.1.mpr (by decide)⟩

end SDLogger
